import Mathlib

/-!
# Carla plugin base (`src/carla-backend/carla_plugin.h`)

A shallow embedding of the `CarlaPlugin` base class: the deferred-event queue
(`post_events`), the external MIDI note buffer (`ext_midi_notes`), the global
control setters, the parameter clamp helper, the program setters, the dispatch
by native index, the custom-data store, the instance-id guard and the
destructor.

Modelling conventions.

* `double` values are rationals (`Double`): the embedded code only compares,
  selects and copies them, it performs no arithmetic on them, so rounding never
  enters; NaN is outside the model.
* Pointers are addresses (`Ptr`), `nullptr` being `0`.
* The fixed-size arrays `post_events.data[MAX_POST_EVENTS]` and
  `ext_midi_notes[MAX_MIDI_EVENTS]` are total functions on `Fin`; a write whose
  index is outside the array is undefined behaviour in C++ and makes the
  embedded operation return `none`.
* Calls that leave the class (audio server, OSC, callback, heap, dynamic
  loader, warning log) are recorded, in program order, as a list of `Effect`.
  `qDebug` trace lines are not recorded.
* The preprocessor switch `BUILD_BRIDGE` and the global
  `carla_options.global_jack_client` are explicit parameters.
* A virtual method called from another method is a parameter of the caller
  (`get_value` for `get_parameter_value`), so that the statements hold for every
  override; the base-class body is embedded under the method's own name.
-/

namespace Carla

/-- The C++ `double`, modelled as a rational number. -/
abbrev Double := ℚ

/-- A machine address; `0` is the null pointer. -/
abbrev Ptr := Nat

/-- The null pointer. -/
def nullptr : Ptr := 0

/-- Capacity of the external MIDI note buffer: `const unsigned short MAX_MIDI_EVENTS = 512;` -/
def MAX_MIDI_EVENTS : Nat := 512

/-- Capacity of the deferred-event queue: `const unsigned short MAX_POST_EVENTS = 152;` -/
def MAX_POST_EVENTS : Nat := 152

/-- The `enum PluginPostEventType`. -/
inductive PluginPostEventType
  | PostEventDebug
  | PostEventParameterChange
  | PostEventProgramChange
  | PostEventMidiProgramChange
  | PostEventNoteOn
  | PostEventNoteOff
  | PostEventCustom
  deriving DecidableEq, Repr

/-- The `struct PluginPostEvent`, one slot of the deferred-event queue. -/
structure PluginPostEvent where
  valid : Bool
  type : PluginPostEventType
  index : Int
  value : Double
  cdata : Ptr
  deriving DecidableEq

/-- The `struct ExternalMidiNote`, one slot of the external MIDI note buffer. -/
structure ExternalMidiNote where
  valid : Bool
  onoff : Bool
  note : Nat
  velo : Nat
  deriving DecidableEq

/-- The array `post_events.data[MAX_POST_EVENTS]`. -/
abbrev PostEventsData := Fin MAX_POST_EVENTS → PluginPostEvent

/-- The array `ext_midi_notes[MAX_MIDI_EVENTS]`. -/
abbrev ExtMidiNotes := Fin MAX_MIDI_EVENTS → ExternalMidiNote

/-- Build switches and the constants of `carla_shared.h` that the class uses.
That header is not among the sources, so the values are parameters:
the preprocessor switches `BUILD_BRIDGE` and `Q_OS_WIN`, the global option
`carla_options.global_jack_client`, the reserved parameter indices and the
hint bit `PLUGIN_IS_BRIDGE`. -/
structure Config where
  BUILD_BRIDGE : Bool
  Q_OS_WIN : Bool
  global_jack_client : Bool
  PARAMETER_ACTIVE : Int
  PARAMETER_DRYWET : Int
  PARAMETER_VOLUME : Int
  PARAMETER_BALANCE_LEFT : Int
  PARAMETER_BALANCE_RIGHT : Int
  PLUGIN_IS_BRIDGE : Nat

/-- Plugin formats named by the class (`enum PluginType` of `carla_shared.h`);
`other` stands for every format the class does not name. -/
inductive PluginType
  | PLUGIN_NONE
  | PLUGIN_DSSI
  | PLUGIN_LV2
  | PLUGIN_SF2
  | other (tag : Nat)
  deriving DecidableEq

/-- Modelled from the spec: the `enum ParameterType` of `carla_shared.h`, which
is not among the sources; the data model gives `type ∈ {input, output}`. -/
inductive ParameterType
  | PARAMETER_INPUT
  | PARAMETER_OUTPUT
  deriving DecidableEq

/-- Custom-data types named by the class (`enum CustomDataType` of
`carla_shared.h`); `other` stands for every further type. -/
inductive CustomDataType
  | CUSTOM_DATA_INVALID
  | CUSTOM_DATA_STRING
  | other (tag : Nat)
  deriving DecidableEq

/-- Callback actions named by the class (`enum CallbackType` of
`carla_shared.h`). -/
inductive CallbackType
  | CALLBACK_DEBUG
  | CALLBACK_PARAMETER_CHANGED
  | CALLBACK_PROGRAM_CHANGED
  | CALLBACK_MIDI_PROGRAM_CHANGED
  | CALLBACK_NOTE_ON
  | CALLBACK_NOTE_OFF
  deriving DecidableEq

/-- The `struct ParameterData` of `carla_shared.h`, with the fields the class reads. -/
structure ParameterData where
  type : ParameterType
  rindex : Int
  hints : Nat
  midi_channel : Nat
  midi_cc : Int
  deriving DecidableEq

/-- The `struct ParameterRanges` of `carla_shared.h`; `def_` is the field `def`. -/
structure ParameterRanges where
  def_ : Double
  min : Double
  max : Double
  step : Double
  step_small : Double
  step_large : Double
  deriving DecidableEq

/-- The `struct CustomData` of `carla_shared.h`; an owned C string is
`some text`, a null pointer is `none`. -/
structure CustomData where
  type : CustomDataType
  key : Option String
  value : Option String
  deriving DecidableEq

/-- The `struct midi_program_t`. -/
structure midi_program_t where
  bank : Nat
  program : Nat
  name : Option String
  deriving DecidableEq

/-- The `struct PluginAudioData`: a count and two heap arrays. -/
structure PluginAudioData where
  count : Nat
  rindexes : List Nat
  ports : List Ptr
  deriving DecidableEq

/-- The `struct PluginMidiData`. -/
structure PluginMidiData where
  port_min : Ptr
  port_mout : Ptr
  deriving DecidableEq

/-- The `struct PluginParameterData`. -/
structure PluginParameterData where
  count : Nat
  data : List ParameterData
  ranges : List ParameterRanges
  port_cin : Ptr
  port_cout : Ptr
  deriving DecidableEq

/-- The `struct PluginProgramData`. -/
structure PluginProgramData where
  count : Nat
  current : Int
  names : List (Option String)
  deriving DecidableEq

/-- The `struct PluginMidiProgramData`. -/
structure PluginMidiProgramData where
  count : Nat
  current : Int
  data : List midi_program_t
  deriving DecidableEq

/-- The `OscData` member `osc.data` (host build): path, source and target. -/
structure OscData where
  path : Option String
  source : Ptr
  target : Ptr
  deriving DecidableEq

/-- The data members of `class CarlaPlugin`. A heap array is a list, read at
`i` with `getD`; a list shorter than its count is an ill-formed state. -/
structure CarlaPlugin where
  m_type : PluginType
  m_id : Int
  m_hints : Nat
  m_active : Bool
  m_active_before : Bool
  m_lib : Ptr
  m_name : Option String
  m_filename : Option String
  cin_channel : Int
  x_drywet : Double
  x_vol : Double
  x_bal_left : Double
  x_bal_right : Double
  jack_client : Ptr
  ain : PluginAudioData
  aout : PluginAudioData
  midi : PluginMidiData
  param : PluginParameterData
  prog : PluginProgramData
  midiprog : PluginMidiProgramData
  custom : List CustomData
  osc_data : OscData
  osc_thread : Ptr
  post_events : PostEventsData
  ext_midi_notes : ExtMidiNotes

/-- Heap blocks the instance owns, named by the member that points to them;
`url_host` and `url_port` are the two temporaries `update_osc_data` frees. -/
inductive HeapBlock
  | ain_ports
  | ain_rindexes
  | aout_ports
  | aout_rindexes
  | param_data
  | param_ranges
  | prog_names
  | midiprog_data
  | m_name
  | m_filename
  | prog_name (i : Nat)
  | midiprog_name (i : Nat)
  | custom_key (i : Nat)
  | custom_value (i : Nat)
  | url_host
  | url_port
  deriving DecidableEq

/-- Effects: the calls that leave the class, in program order. `delete_array`
is `delete[]`, `free` is `free`, `custom_clear` is `custom.clear()`. -/
inductive Effect
  | qWarning (msg : String)
  | post_events_lock
  | post_events_unlock
  | carla_midi_lock
  | carla_midi_unlock
  | jack_deactivate (client : Ptr)
  | jack_port_unregister (client : Ptr) (port : Ptr)
  | jack_client_close (client : Ptr)
  | delete_array (block : HeapBlock)
  | free (block : HeapBlock)
  | custom_clear
  | FreeLibrary (lib : Ptr)
  | dlclose (lib : Ptr)
  | osc_global_send_set_parameter_value (plugin_id : Int) (param_id : Int) (value : Double)
  | osc_send_control (param_id : Int) (value : Double)
  | osc_global_send_note_on (plugin_id : Int) (note : Nat) (velo : Nat)
  | osc_global_send_note_off (plugin_id : Int) (note : Nat)
  | osc_global_send_set_program (plugin_id : Int) (index : Int)
  | osc_global_send_set_midi_program (plugin_id : Int) (index : Int)
  | osc_send_program (index : Int)
  | osc_global_send_set_default_value (plugin_id : Int) (index : Int) (value : Double)
  | osc_send_show
  | carla_msleep (msecs : Nat)
  | osc_clear_data
  | osc_send_lv2_event_transfer (type : CustomDataType) (key : Option String)
      (value : Option String)
  | osc_send_configure (key : Option String) (value : Option String)
  | osc_send_midi_program (entry : Option midi_program_t) (is_dssi : Bool)
  | GetProcAddress (lib : Ptr) (symbol : String)
  | dlsym (lib : Ptr) (symbol : String)
  | osc_global_send_add_plugin (plugin_id : Int) (name : Option String)
  | osc_global_send_set_plugin_data (plugin_id : Int) (type : PluginType) (category : Nat)
      (hints : Nat) (real_name : String) (label : String) (maker : String)
      (copyright : String) (unique_id : Int)
  | osc_global_send_set_plugin_ports (plugin_id : Int) (ains : Nat) (aouts : Nat)
      (mins : Nat) (mouts : Nat) (cins : Nat) (couts : Nat) (ctotal : Nat)
  | osc_global_send_set_parameter_data (plugin_id : Int) (index : Nat)
      (entry : Option ParameterData) (name : String) (unit : String) (value : Double)
  | osc_global_send_set_parameter_ranges (plugin_id : Int) (index : Nat)
      (entry : Option ParameterRanges)
  | osc_global_send_set_program_count (plugin_id : Int) (count : Nat)
  | osc_global_send_set_program_name (plugin_id : Int) (index : Nat) (name : Option String)
  | osc_global_send_set_midi_program_count (plugin_id : Int) (count : Nat)
  | osc_global_send_set_midi_program_data (plugin_id : Int) (index : Nat)
      (entry : Option midi_program_t)
  | callback_action (action : CallbackType) (plugin_id : Int) (value1 : Int) (value2 : Int)
      (value3 : Double)
  deriving DecidableEq

/-! ## Construction -/

/-- The loop `for (; i < N; i++) a[i] = g(a[i]);` over a fixed-size array,
entered at index `i`. -/
def for_each_slot {α : Type} {N : Nat} (g : α → α) (a : Fin N → α) (i : Nat) : Fin N → α :=
  if h : i < N then
    for_each_slot g (Function.update a ⟨i, h⟩ (g (a ⟨i, h⟩))) (i + 1)
  else
    a
termination_by N - i

/-- The constructor loop
`for (i=0; i < MAX_POST_EVENTS; i++) post_events.data[i].valid = false;`
where `raw` is the uninitialised storage, whose other fields the constructor
leaves as they are. -/
def init_post_events (raw : PostEventsData) : PostEventsData :=
  for_each_slot (fun e => { e with valid := false }) raw 0

/-- The constructor loop
`for (i=0; i < MAX_MIDI_EVENTS; i++) ext_midi_notes[i].valid = false;`. -/
def init_ext_midi_notes (raw : ExtMidiNotes) : ExtMidiNotes :=
  for_each_slot (fun e => { e with valid := false }) raw 0

/-- Constructor `CarlaPlugin::CarlaPlugin()`; `raw_post` and `raw_notes` are the
uninitialised queue storage, of which only the `valid` flags are written. -/
def CarlaPlugin_constructor (raw_post : PostEventsData) (raw_notes : ExtMidiNotes) :
    CarlaPlugin where
  m_type := PluginType.PLUGIN_NONE
  m_id := -1
  m_hints := 0
  m_active := false
  m_active_before := false
  m_lib := nullptr
  m_name := none
  m_filename := none
  cin_channel := 0
  x_drywet := 1
  x_vol := 1
  x_bal_left := -1
  x_bal_right := 1
  jack_client := nullptr
  ain := { count := 0, rindexes := [], ports := [] }
  aout := { count := 0, rindexes := [], ports := [] }
  midi := { port_min := nullptr, port_mout := nullptr }
  param := { count := 0, data := [], ranges := [], port_cin := nullptr, port_cout := nullptr }
  prog := { count := 0, current := -1, names := [] }
  midiprog := { count := 0, current := -1, data := [] }
  custom := []
  osc_data := { path := none, source := nullptr, target := nullptr }
  osc_thread := nullptr
  post_events := init_post_events raw_post
  ext_midi_notes := init_ext_midi_notes raw_notes

/-! ## Deferred-event queue -/

/-- The `for` loop of `postpone_event`, entered at index `i`: the first slot
with `valid == false` receives the event and the loop breaks. -/
def postpone_event_loop (type : PluginPostEventType) (index : Int) (value : Double)
    (cdata : Ptr) (data : PostEventsData) (i : Nat) : PostEventsData :=
  if h : i < MAX_POST_EVENTS then
    if (data ⟨i, h⟩).valid == false then
      Function.update data ⟨i, h⟩
        { valid := true, type := type, index := index, value := value, cdata := cdata }
    else
      postpone_event_loop type index value cdata data (i + 1)
  else
    data
termination_by MAX_POST_EVENTS - i

/-- Method `CarlaPlugin::postpone_event` on the queue storage. -/
def postpone_event (type : PluginPostEventType) (index : Int) (value : Double)
    (cdata : Ptr) (data : PostEventsData) : PostEventsData :=
  postpone_event_loop type index value cdata data 0

/-- Method `CarlaPlugin::post_events_copy(post_events_dst)`: the pair of the
destination buffer after the `memcpy`, which replaces all of its
`MAX_POST_EVENTS` slots, and the queue storage after the loop
`post_events.data[i].valid = false`. -/
def post_events_copy (_post_events_dst : PostEventsData) (data : PostEventsData) :
    PostEventsData × PostEventsData :=
  (data, for_each_slot (fun e => { e with valid := false }) data 0)

/-! ## External MIDI note buffer -/

/-- The `for` loop of `send_midi_note`, entered at index `i`. -/
def send_midi_note_loop (onoff : Bool) (note velo : Nat) (notes : ExtMidiNotes)
    (i : Nat) : ExtMidiNotes :=
  if h : i < MAX_MIDI_EVENTS then
    if (notes ⟨i, h⟩).valid == false then
      Function.update notes ⟨i, h⟩
        { valid := true, onoff := onoff, note := note, velo := velo }
    else
      send_midi_note_loop onoff note velo notes (i + 1)
  else
    notes
termination_by MAX_MIDI_EVENTS - i

/-- The buffer part of `CarlaPlugin::send_midi_note` (the section between
`carla_midi_lock()` and `carla_midi_unlock()`). -/
def send_midi_note_buffer (onoff : Bool) (note velo : Nat) (notes : ExtMidiNotes) :
    ExtMidiNotes :=
  send_midi_note_loop onoff note velo notes 0

/-- Method `CarlaPlugin::send_midi_note` of the base class. -/
def send_midi_note (cfg : Config) (self : CarlaPlugin) (onoff : Bool) (note velo : Nat)
    (_gui_send osc_send callback_send : Bool) : CarlaPlugin × List Effect :=
  let self1 :=
    { self with ext_midi_notes := send_midi_note_buffer onoff note velo self.ext_midi_notes }
  (self1,
    [Effect.carla_midi_lock, Effect.carla_midi_unlock] ++
    (if cfg.BUILD_BRIDGE then []
      else
        (if osc_send then
          (if onoff then [Effect.osc_global_send_note_on self1.m_id note velo]
            else [Effect.osc_global_send_note_off self1.m_id note])
        else []) ++
        (if callback_send then
          [Effect.callback_action
            (if onoff then CallbackType.CALLBACK_NOTE_ON else CallbackType.CALLBACK_NOTE_OFF)
            self1.m_id note velo 0]
        else [])))

/-- Arguments of one `send_midi_note` call. -/
structure MidiNoteArgs where
  onoff : Bool
  note : Nat
  velo : Nat
  gui_send : Bool
  osc_send : Bool
  callback_send : Bool
  deriving DecidableEq

/-- The slot contents `send_midi_note` writes for a call. -/
def MidiNoteArgs.slot (a : MidiNoteArgs) : ExternalMidiNote :=
  { valid := true, onoff := a.onoff, note := a.note, velo := a.velo }

/-- A sequence of `send_midi_note` calls, in submission order: the instance
afterwards. -/
def send_midi_notes (cfg : Config) (calls : List MidiNoteArgs) (self : CarlaPlugin) :
    CarlaPlugin :=
  calls.foldl
    (fun p a => (send_midi_note cfg p a.onoff a.note a.velo a.gui_send a.osc_send
      a.callback_send).1)
    self

/-- Modelled from the spec: the audio-cycle drain of the external MIDI buffer.
It lives in the format backends, which are not among the sources; it copies
out the valid slots in index order and invalidates them. The result is the
list delivered and the buffer afterwards. -/
def drain_ext_midi_notes (notes : ExtMidiNotes) : List ExternalMidiNote × ExtMidiNotes :=
  ((List.ofFn notes).filter ExternalMidiNote.valid, fun i => { notes i with valid := false })

/-- The first `for` loop of `send_midi_all_notes_off`, entered at index `i`:
the result is the value left in `pe_pad` (initialised to `0`) together with
the warnings logged. `i - 1` is taken in `unsigned short`. -/
def pe_pad_loop (data : PostEventsData) (i : Nat) : Nat × List Effect :=
  if h : i < MAX_POST_EVENTS then
    if (data ⟨i, h⟩).valid == false then
      (i, [])
    else if i + MAX_MIDI_EVENTS == MAX_POST_EVENTS then
      ((i + 65535) % 65536,
        [Effect.qWarning "post-events buffer full, making room for all notes off now"])
    else
      pe_pad_loop data (i + 1)
  else
    (0, [])
termination_by MAX_POST_EVENTS - i

/-- The second `for` loop of `send_midi_all_notes_off`, entered at index `i`.
Each round writes `ext_midi_notes[i]` and then the four fields `valid`,
`type`, `index`, `value` of `post_events.data[i+pe_pad]` (`cdata` is not
written). A round whose deferred-event index `i + pe_pad` is outside the
array has no defined result: `none`. -/
def notes_off_loop (pe_pad : Nat) (notes : ExtMidiNotes) (data : PostEventsData)
    (i : Nat) : Option (ExtMidiNotes × PostEventsData) :=
  if h : i < 128 ∧ i < MAX_MIDI_EVENTS ∧ i < MAX_POST_EVENTS then
    let notes1 := Function.update notes ⟨i, h.2.1⟩
      { valid := true, onoff := false, note := i, velo := 0 }
    if hp : i + pe_pad < MAX_POST_EVENTS then
      let data1 := Function.update data ⟨i + pe_pad, hp⟩
        { data ⟨i + pe_pad, hp⟩ with
          valid := true, type := PluginPostEventType.PostEventNoteOff, index := i, value := 0 }
      notes_off_loop pe_pad notes1 data1 (i + 1)
    else
      none
  else
    some (notes, data)
termination_by 128 - i
decreasing_by omega

/-- Method `CarlaPlugin::send_midi_all_notes_off`: the effects (locks, warning) and
the two buffers afterwards, `none` when a write fell outside
`post_events.data`. -/
def send_midi_all_notes_off (notes : ExtMidiNotes) (data : PostEventsData) :
    List Effect × Option (ExtMidiNotes × PostEventsData) :=
  let pad := pe_pad_loop data 0
  ([Effect.carla_midi_lock, Effect.post_events_lock] ++ pad.2 ++
      [Effect.post_events_unlock, Effect.carla_midi_unlock],
    notes_off_loop pad.1 notes data 0)

/-! ## Global controls and parameters -/

/-- Method `CarlaPlugin::set_active`. -/
def set_active (cfg : Config) (self : CarlaPlugin) (active osc_send callback_send : Bool) :
    CarlaPlugin × List Effect :=
  let self1 := { self with m_active := active }
  if cfg.BUILD_BRIDGE then
    (self1, [])
  else
    let value : Double := if active then 1 else 0
    (self1,
      (if osc_send then
        [Effect.osc_global_send_set_parameter_value self1.m_id cfg.PARAMETER_ACTIVE value] ++
          (if self1.m_hints &&& cfg.PLUGIN_IS_BRIDGE ≠ 0 then
            [Effect.osc_send_control cfg.PARAMETER_ACTIVE value]
          else [])
      else []) ++
      (if callback_send then
        [Effect.callback_action CallbackType.CALLBACK_PARAMETER_CHANGED self1.m_id
          cfg.PARAMETER_ACTIVE 0 value]
      else []))

/-- Method `CarlaPlugin::set_drywet`. -/
def set_drywet (cfg : Config) (self : CarlaPlugin) (value : Double)
    (osc_send callback_send : Bool) : CarlaPlugin × List Effect :=
  let value1 : Double := if value < 0 then 0 else if value > 1 then 1 else value
  let self1 := { self with x_drywet := value1 }
  if cfg.BUILD_BRIDGE then
    (self1, [])
  else
    (self1,
      (if osc_send then
        [Effect.osc_global_send_set_parameter_value self1.m_id cfg.PARAMETER_DRYWET value1] ++
          (if self1.m_hints &&& cfg.PLUGIN_IS_BRIDGE ≠ 0 then
            [Effect.osc_send_control cfg.PARAMETER_DRYWET value1]
          else [])
      else []) ++
      (if callback_send then
        [Effect.callback_action CallbackType.CALLBACK_PARAMETER_CHANGED self1.m_id
          cfg.PARAMETER_DRYWET 0 value1]
      else []))

/-- Method `CarlaPlugin::set_volume`; `1.27` is `127/100`. -/
def set_volume (cfg : Config) (self : CarlaPlugin) (value : Double)
    (osc_send callback_send : Bool) : CarlaPlugin × List Effect :=
  let value1 : Double := if value < 0 then 0 else if value > 127 / 100 then 127 / 100 else value
  let self1 := { self with x_vol := value1 }
  if cfg.BUILD_BRIDGE then
    (self1, [])
  else
    (self1,
      (if osc_send then
        [Effect.osc_global_send_set_parameter_value self1.m_id cfg.PARAMETER_VOLUME value1] ++
          (if self1.m_hints &&& cfg.PLUGIN_IS_BRIDGE ≠ 0 then
            [Effect.osc_send_control cfg.PARAMETER_VOLUME value1]
          else [])
      else []) ++
      (if callback_send then
        [Effect.callback_action CallbackType.CALLBACK_PARAMETER_CHANGED self1.m_id
          cfg.PARAMETER_VOLUME 0 value1]
      else []))

/-- Method `CarlaPlugin::set_balance_left`. -/
def set_balance_left (cfg : Config) (self : CarlaPlugin) (value : Double)
    (osc_send callback_send : Bool) : CarlaPlugin × List Effect :=
  let value1 : Double := if value < -1 then -1 else if value > 1 then 1 else value
  let self1 := { self with x_bal_left := value1 }
  if cfg.BUILD_BRIDGE then
    (self1, [])
  else
    (self1,
      (if osc_send then
        [Effect.osc_global_send_set_parameter_value self1.m_id cfg.PARAMETER_BALANCE_LEFT
          value1] ++
          (if self1.m_hints &&& cfg.PLUGIN_IS_BRIDGE ≠ 0 then
            [Effect.osc_send_control cfg.PARAMETER_BALANCE_LEFT value1]
          else [])
      else []) ++
      (if callback_send then
        [Effect.callback_action CallbackType.CALLBACK_PARAMETER_CHANGED self1.m_id
          cfg.PARAMETER_BALANCE_LEFT 0 value1]
      else []))

/-- Method `CarlaPlugin::set_balance_right`. -/
def set_balance_right (cfg : Config) (self : CarlaPlugin) (value : Double)
    (osc_send callback_send : Bool) : CarlaPlugin × List Effect :=
  let value1 : Double := if value < -1 then -1 else if value > 1 then 1 else value
  let self1 := { self with x_bal_right := value1 }
  if cfg.BUILD_BRIDGE then
    (self1, [])
  else
    (self1,
      (if osc_send then
        [Effect.osc_global_send_set_parameter_value self1.m_id cfg.PARAMETER_BALANCE_RIGHT
          value1] ++
          (if self1.m_hints &&& cfg.PLUGIN_IS_BRIDGE ≠ 0 then
            [Effect.osc_send_control cfg.PARAMETER_BALANCE_RIGHT value1]
          else [])
      else []) ++
      (if callback_send then
        [Effect.callback_action CallbackType.CALLBACK_PARAMETER_CHANGED self1.m_id
          cfg.PARAMETER_BALANCE_RIGHT 0 value1]
      else []))

/-- Method `CarlaPlugin::set_parameter_value` of the base class. The table
entry `param.data[param_id]` is read only when `osc_send` is set; an index
outside the table reads as no entry. -/
def set_parameter_value (cfg : Config) (self : CarlaPlugin) (param_id : Nat) (value : Double)
    (_gui_send osc_send callback_send : Bool) : CarlaPlugin × List Effect :=
  if cfg.BUILD_BRIDGE then
    (self, [])
  else
    (self,
      (if osc_send ∧
          (self.param.data[param_id]?).map ParameterData.type
            = some ParameterType.PARAMETER_INPUT then
        [Effect.osc_global_send_set_parameter_value self.m_id param_id value] ++
          (if self.m_hints &&& cfg.PLUGIN_IS_BRIDGE ≠ 0 then
            [Effect.osc_send_control param_id value]
          else [])
      else []) ++
      (if callback_send then
        [Effect.callback_action CallbackType.CALLBACK_PARAMETER_CHANGED self.m_id param_id 0
          value]
      else []))

/-- The static helper `fix_parameter_value(double& value, const ParameterRanges&)`:
the first component is `value` after the call (it is passed by reference),
the second is the returned value. -/
def fix_parameter_value (value : Double) (ranges : ParameterRanges) : Double × Double :=
  let value1 : Double :=
    if value < ranges.min then ranges.min
    else if value > ranges.max then ranges.max
    else value
  (value1, value1)

/-! ## Teardown -/

/-- Method `CarlaPlugin::remove_from_jack(deactivate)` of the base class; it
changes no member. -/
def remove_from_jack (cfg : Config) (self : CarlaPlugin) (deactivate : Bool) : List Effect :=
  if self.jack_client = nullptr then
    []
  else
    (if (if cfg.BUILD_BRIDGE then deactivate
          else (cfg.global_jack_client == false && deactivate)) then
        [Effect.jack_deactivate self.jack_client]
      else []) ++
    (List.range self.ain.count).map
      (fun i => Effect.jack_port_unregister self.jack_client (self.ain.ports.getD i nullptr)) ++
    (List.range self.aout.count).map
      (fun i => Effect.jack_port_unregister self.jack_client (self.aout.ports.getD i nullptr)) ++
    (if self.midi.port_min ≠ nullptr then
        [Effect.jack_port_unregister self.jack_client self.midi.port_min]
      else []) ++
    (if self.midi.port_mout ≠ nullptr then
        [Effect.jack_port_unregister self.jack_client self.midi.port_mout]
      else []) ++
    (if self.param.port_cin ≠ nullptr then
        [Effect.jack_port_unregister self.jack_client self.param.port_cin]
      else []) ++
    (if self.param.port_cout ≠ nullptr then
        [Effect.jack_port_unregister self.jack_client self.param.port_cout]
      else [])

/-- Method `CarlaPlugin::delete_buffers` of the base class. -/
def delete_buffers (self : CarlaPlugin) : CarlaPlugin × List Effect :=
  ({ self with
      ain := { count := 0, rindexes := [], ports := [] }
      aout := { count := 0, rindexes := [], ports := [] }
      midi := { port_min := nullptr, port_mout := nullptr }
      param := { count := 0, data := [], ranges := [], port_cin := nullptr,
                 port_cout := nullptr } },
    (if self.ain.count > 0 then
        [Effect.delete_array HeapBlock.ain_ports, Effect.delete_array HeapBlock.ain_rindexes]
      else []) ++
    (if self.aout.count > 0 then
        [Effect.delete_array HeapBlock.aout_ports, Effect.delete_array HeapBlock.aout_rindexes]
      else []) ++
    (if self.param.count > 0 then
        [Effect.delete_array HeapBlock.param_data, Effect.delete_array HeapBlock.param_ranges]
      else []))

/-- Method `CarlaPlugin::lib_close`; `ret` is the value the platform call
(`FreeLibrary` or `dlclose`) returns when it is made. -/
def lib_close (cfg : Config) (self : CarlaPlugin) (ret : Int) : Bool × List Effect :=
  if self.m_lib ≠ nullptr then
    if cfg.Q_OS_WIN then
      (ret != 0, [Effect.FreeLibrary self.m_lib])
    else
      (ret != 0, [Effect.dlclose self.m_lib])
  else
    (false, [])

/-- The part of the destructor that follows `lib_close()` up to and including
`custom.clear()`: the release of the owned strings and of the two tables that
hold them. -/
def release_strings (self : CarlaPlugin) : List Effect :=
  (if self.m_name.isSome then [Effect.free HeapBlock.m_name] else []) ++
  (if self.m_filename.isSome then [Effect.free HeapBlock.m_filename] else []) ++
  (if self.prog.count > 0 then
      (List.range self.prog.count).flatMap
        (fun i => if (self.prog.names.getD i none).isSome then
                    [Effect.free (HeapBlock.prog_name i)] else []) ++
      [Effect.delete_array HeapBlock.prog_names]
    else []) ++
  (if self.midiprog.count > 0 then
      (List.range self.midiprog.count).flatMap
        (fun i => if ((self.midiprog.data[i]?).bind midi_program_t.name).isSome then
                    [Effect.free (HeapBlock.midiprog_name i)] else []) ++
      [Effect.delete_array HeapBlock.midiprog_data]
    else []) ++
  (if self.custom.length > 0 then
      (List.range self.custom.length).flatMap
        (fun i =>
          (if ((self.custom[i]?).bind CustomData.key).isSome then
              [Effect.free (HeapBlock.custom_key i)] else []) ++
          (if ((self.custom[i]?).bind CustomData.value).isSome then
              [Effect.free (HeapBlock.custom_value i)] else [])) ++
      [Effect.custom_clear]
    else [])

/-- The destructor `CarlaPlugin::~CarlaPlugin()`: the effects it performs, in
program order; `lib_ret` is what the platform unload call returns. Inside the
destructor the virtual calls `remove_from_jack()` and `delete_buffers()` run
the base-class bodies embedded above. -/
def CarlaPlugin_destructor (cfg : Config) (self : CarlaPlugin) (lib_ret : Int) : List Effect :=
  let t1 := remove_from_jack cfg self true
  let r2 := delete_buffers self
  let r3 := lib_close cfg r2.1 lib_ret
  let t4 := release_strings r2.1
  let t5 :=
    if r2.1.jack_client ≠ nullptr ∧ (cfg.BUILD_BRIDGE ∨ cfg.global_jack_client = false) then
      [Effect.jack_client_close r2.1.jack_client]
    else []
  t1 ++ r2.2 ++ r3.2 ++ t4 ++ t5

/-! ## Programs -/

/-- Method `CarlaPlugin::get_parameter_value` of the base class. It is
virtual: the methods below that call it take the body of the instance's
dynamic type as the parameter `get_value`. -/
def get_parameter_value (_self : CarlaPlugin) (_param_id : Nat) : Double :=
  0

/-- The loop under `// Change default value` of `set_program` and
`set_midi_program`, entered at index `i`:
`param.ranges[i].def = get_parameter_value(i);` and, in the host build when
`osc_send` is set, `osc_global_send_set_default_value(m_id, i, param.ranges[i].def);`
which sends the value just stored. -/
def change_default_value_loop (cfg : Config) (get_value : Nat → Double) (osc_send : Bool)
    (m_id : Int) (count : Nat) (ranges : List ParameterRanges) (i : Nat) :
    List ParameterRanges × List Effect :=
  if i < count then
    let ranges1 :=
      match ranges[i]? with
      | some r => ranges.set i { r with def_ := get_value i }
      | none => ranges
    let sent :=
      if cfg.BUILD_BRIDGE then []
      else if osc_send then [Effect.osc_global_send_set_default_value m_id i (get_value i)]
      else []
    let r := change_default_value_loop cfg get_value osc_send m_id count ranges1 (i + 1)
    (r.1, sent ++ r.2)
  else
    (ranges, [])
termination_by count - i

/-- Method `CarlaPlugin::set_program` of the base class. -/
def set_program (cfg : Config) (get_value : Nat → Double) (self : CarlaPlugin) (index : Int)
    (_gui_send osc_send callback_send _block : Bool) : CarlaPlugin × List Effect :=
  let self1 := { self with prog := { self.prog with current := index } }
  let sent :=
    if cfg.BUILD_BRIDGE then []
    else
      (if osc_send then
        [Effect.osc_global_send_set_program self1.m_id self1.prog.current] ++
          (if self1.m_hints &&& cfg.PLUGIN_IS_BRIDGE ≠ 0 then
            [Effect.osc_send_program self1.prog.current]
          else [])
      else []) ++
      (if callback_send then
        [Effect.callback_action CallbackType.CALLBACK_PROGRAM_CHANGED self1.m_id
          self1.prog.current 0 0]
      else [])
  let r := change_default_value_loop cfg get_value osc_send self1.m_id self1.param.count
    self1.param.ranges 0
  ({ self1 with param := { self1.param with ranges := r.1 } }, sent ++ r.2)

/-- Method `CarlaPlugin::set_midi_program` of the base class; the bridge peer is
sent `osc_send_program`, as in the source. After the propagation the method
returns unless `m_type` is `PLUGIN_SF2`. -/
def set_midi_program (cfg : Config) (get_value : Nat → Double) (self : CarlaPlugin)
    (index : Int) (_gui_send osc_send callback_send _block : Bool) :
    CarlaPlugin × List Effect :=
  let self1 := { self with midiprog := { self.midiprog with current := index } }
  let sent :=
    if cfg.BUILD_BRIDGE then []
    else
      (if osc_send then
        [Effect.osc_global_send_set_midi_program self1.m_id self1.midiprog.current] ++
          (if self1.m_hints &&& cfg.PLUGIN_IS_BRIDGE ≠ 0 then
            [Effect.osc_send_program self1.midiprog.current]
          else [])
      else []) ++
      (if callback_send then
        [Effect.callback_action CallbackType.CALLBACK_MIDI_PROGRAM_CHANGED self1.m_id
          self1.midiprog.current 0 0]
      else [])
  if self1.m_type ≠ PluginType.PLUGIN_SF2 then
    (self1, sent)
  else
    let r := change_default_value_loop cfg get_value osc_send self1.m_id self1.param.count
      self1.param.ranges 0
    ({ self1 with param := { self1.param with ranges := r.1 } }, sent ++ r.2)

/-! ## Dispatch by native index -/

/-- The loop `for (; i < n; i++) if (p(i)) { ...; break; }`, entered at index
`i`: the index at which the body ran, if any. -/
def first_index (p : Nat → Bool) (n : Nat) (i : Nat) : Option Nat :=
  if i < n then
    if p i then some i else first_index p n (i + 1)
  else
    none
termination_by n - i

/-- The call `set_parameter_value_rindex` makes, with its leading arguments;
`none` when it makes no call. The flags are passed on unchanged. -/
inductive Callee
  | set_active (active : Bool)
  | set_drywet (value : Double)
  | set_volume (value : Double)
  | set_balance_left (value : Double)
  | set_balance_right (value : Double)
  | set_parameter_value (param_id : Nat) (value : Double)
  | none
  deriving DecidableEq

/-- The loop of `set_parameter_value_rindex` over the parameter table: the
first `i < param.count` with `param.data[i].rindex == rindex` is passed to
`set_parameter_value`, and the loop breaks. -/
def rindex_scan (self : CarlaPlugin) (rindex : Int) (value : Double) : Callee :=
  match first_index
      (fun i => decide ((self.param.data[i]?).map ParameterData.rindex = some rindex))
      self.param.count 0 with
  | some i => Callee.set_parameter_value i value
  | none => Callee.none

/-- The body of `CarlaPlugin::set_parameter_value_rindex` as the call it
makes. The fifth test repeats `PARAMETER_BALANCE_LEFT`, as in the source. -/
def set_parameter_value_rindex_callee (cfg : Config) (self : CarlaPlugin) (rindex : Int)
    (value : Double) : Callee :=
  if self.m_hints &&& cfg.PLUGIN_IS_BRIDGE ≠ 0 then
    if rindex = cfg.PARAMETER_ACTIVE then
      Callee.set_active (decide (value > 0))
    else if rindex = cfg.PARAMETER_DRYWET then
      Callee.set_drywet value
    else if rindex = cfg.PARAMETER_VOLUME then
      Callee.set_volume value
    else if rindex = cfg.PARAMETER_BALANCE_LEFT then
      Callee.set_balance_left value
    else if rindex = cfg.PARAMETER_BALANCE_LEFT then
      Callee.set_balance_right value
    else
      rindex_scan self rindex value
  else
    rindex_scan self rindex value

/-- Running the call chosen by `set_parameter_value_rindex` with the flags it
was given; `set_parameter_value` is the base-class body. -/
def Callee.run (cfg : Config) (self : CarlaPlugin) (gui_send osc_send callback_send : Bool) :
    Callee → CarlaPlugin × List Effect
  | Callee.set_active active => Carla.set_active cfg self active osc_send callback_send
  | Callee.set_drywet value => Carla.set_drywet cfg self value osc_send callback_send
  | Callee.set_volume value => Carla.set_volume cfg self value osc_send callback_send
  | Callee.set_balance_left value =>
    Carla.set_balance_left cfg self value osc_send callback_send
  | Callee.set_balance_right value =>
    Carla.set_balance_right cfg self value osc_send callback_send
  | Callee.set_parameter_value param_id value =>
    Carla.set_parameter_value cfg self param_id value gui_send osc_send callback_send
  | Callee.none => (self, [])

/-- Method `CarlaPlugin::set_parameter_value_rindex`. -/
def set_parameter_value_rindex (cfg : Config) (self : CarlaPlugin) (rindex : Int)
    (value : Double) (gui_send osc_send callback_send : Bool) : CarlaPlugin × List Effect :=
  (set_parameter_value_rindex_callee cfg self rindex value).run cfg self gui_send osc_send
    callback_send

/-! ## Custom data -/

/-- The `switch (dtype)` of `set_custom_data`: the value of `save_data`.
`strncmp(key, "OSC:", 4) == 0` compares the first four characters of `key`
with `OSC:`. -/
def custom_data_save (dtype : CustomDataType) (key : String) : Bool :=
  match dtype with
  | CustomDataType.CUSTOM_DATA_INVALID => false
  | CustomDataType.CUSTOM_DATA_STRING =>
    if key.toList.take 4 = "OSC:".toList ∨ key = "guiVisible" then false else true
  | CustomDataType.other _ => true

/-- Method `CarlaPlugin::set_custom_data` of the base class; `key` and `value`
are the C strings passed in, `strdup` makes the owned copies. The scan stops at
the first entry whose key compares equal (`strcmp(custom[i].key, key) == 0`). -/
def set_custom_data (self : CarlaPlugin) (dtype : CustomDataType) (key value : String)
    (_gui_send : Bool) : CarlaPlugin × List Effect :=
  if custom_data_save dtype key then
    match first_index
        (fun i => decide ((self.custom[i]?).map CustomData.key = some (some key)))
        self.custom.length 0 with
    | some i =>
      ({ self with
          custom :=
            match self.custom[i]? with
            | some c => self.custom.set i { c with value := some value }
            | none => self.custom },
        [Effect.free (HeapBlock.custom_value i)])
    | none =>
      ({ self with
          custom := self.custom ++ [{ type := dtype, key := some key, value := some value }] },
        [])
  else
    (self, [])

/-! ## Instance check -/

/-- The macro `CARLA_PROCESS_CONTINUE_CHECK`, used at the head of a handler
whose remaining body is `rest`: when `m_id != plugin_id` the handler returns
`callback_action(CALLBACK_DEBUG, plugin_id, m_id, 0, 0.0)` at once, otherwise
the body runs. -/
def CARLA_PROCESS_CONTINUE_CHECK (self : CarlaPlugin) (plugin_id : Int)
    (rest : CarlaPlugin → CarlaPlugin × List Effect) : CarlaPlugin × List Effect :=
  if self.m_id ≠ plugin_id then
    (self, [Effect.callback_action CallbackType.CALLBACK_DEBUG plugin_id self.m_id 0 0])
  else
    rest self

/-! ## Queue methods with their locks -/

/-- Method `CarlaPlugin::postpone_event` on the instance, with the lock and
unlock of `post_events.lock` around the scan. -/
def CarlaPlugin.postpone_event (self : CarlaPlugin) (type : PluginPostEventType)
    (index : Int) (value : Double) (cdata : Ptr) : CarlaPlugin × List Effect :=
  ({ self with post_events := Carla.postpone_event type index value cdata self.post_events },
    [Effect.post_events_lock, Effect.post_events_unlock])

/-- Method `CarlaPlugin::post_events_copy` on the instance, with the lock and
unlock of `post_events.lock`: the destination buffer and the instance
afterwards. -/
def CarlaPlugin.post_events_copy (self : CarlaPlugin) (post_events_dst : PostEventsData) :
    (PostEventsData × CarlaPlugin) × List Effect :=
  (((Carla.post_events_copy post_events_dst self.post_events).1,
      { self with
        post_events := (Carla.post_events_copy post_events_dst self.post_events).2 }),
    [Effect.post_events_lock, Effect.post_events_unlock])

/-- Method `CarlaPlugin::send_midi_all_notes_off` on the instance: the effects
and the instance afterwards, `none` when a write fell outside
`post_events.data`. -/
def CarlaPlugin.send_midi_all_notes_off (self : CarlaPlugin) :
    List Effect × Option CarlaPlugin :=
  ((Carla.send_midi_all_notes_off self.ext_midi_notes self.post_events).1,
    ((Carla.send_midi_all_notes_off self.ext_midi_notes self.post_events).2).map
      (fun r => { self with ext_midi_notes := r.1, post_events := r.2 }))

/-! ## Remote peer -/

/-- Method `CarlaPlugin::update_osc_gui`, loop entered with loop variable `i`
(it starts at 1 and runs while `i < 40`). The member `osc.data.target` is set
by another thread; `target_at k` is its value when the loop reads it for the
`k`-th time, counting from 0. The result is the returned flag and the calls
made. -/
def update_osc_gui_loop (target_at : Nat → Ptr) (i : Nat) : Bool × List Effect :=
  if i < 40 then
    if target_at (i - 1) ≠ nullptr then
      (true, [Effect.osc_send_show])
    else
      let r := update_osc_gui_loop target_at (i + 1)
      (r.1, Effect.carla_msleep 100 :: r.2)
  else
    (false, [])
termination_by 40 - i

/-- Method `CarlaPlugin::update_osc_gui`. -/
def update_osc_gui (target_at : Nat → Ptr) : Bool × List Effect :=
  update_osc_gui_loop target_at 1

/-- Method `CarlaPlugin::update_osc_data` (host build). The liblo calls that
build the new endpoint are not embedded: `new_data` is the `osc.data` they
produce. `get_value` is the virtual `get_parameter_value`. The loop over
`custom` visits the list entries in order. A table index outside its list is
an ill-formed state and reads as no entry. -/
def update_osc_data (cfg : Config) (get_value : Nat → Double) (self : CarlaPlugin)
    (new_data : OscData) : CarlaPlugin × List Effect :=
  let self1 := { self with osc_data := new_data }
  (self1,
    [Effect.osc_clear_data, Effect.free HeapBlock.url_host, Effect.free HeapBlock.url_port] ++
    self1.custom.flatMap
      (fun c =>
        if self1.m_type = PluginType.PLUGIN_LV2 then
          [Effect.osc_send_lv2_event_transfer c.type c.key c.value]
        else if c.type = CustomDataType.CUSTOM_DATA_STRING then
          [Effect.osc_send_configure c.key c.value]
        else []) ++
    (if self1.prog.current ≥ 0 then [Effect.osc_send_program self1.prog.current] else []) ++
    (if self1.midiprog.current ≥ 0 then
        [Effect.osc_send_midi_program (self1.midiprog.data[self1.midiprog.current.toNat]?)
          (decide (self1.m_type = PluginType.PLUGIN_DSSI))]
      else []) ++
    (List.range self1.param.count).map
      (fun i =>
        Effect.osc_send_control (((self1.param.data[i]?).map ParameterData.rindex).getD 0)
          (get_value i)) ++
    (if self1.m_hints &&& cfg.PLUGIN_IS_BRIDGE ≠ 0 then
        [Effect.osc_send_control cfg.PARAMETER_ACTIVE (if self1.m_active then 1 else 0),
         Effect.osc_send_control cfg.PARAMETER_DRYWET self1.x_drywet,
         Effect.osc_send_control cfg.PARAMETER_VOLUME self1.x_vol,
         Effect.osc_send_control cfg.PARAMETER_BALANCE_LEFT self1.x_bal_left,
         Effect.osc_send_control cfg.PARAMETER_BALANCE_RIGHT self1.x_bal_right]
      else []))

/-! ## Registration with the broadcast endpoint -/

/-- What `osc_global_register_new` reads from outside the data members:
`osc_global_registered()`, the constant `MAX_PARAMETERS`, the virtual methods
`category()`, `unique_id()`, `min_count()`, `mout_count()` and
`get_parameter_value`, and the texts of `get_real_plugin_name`,
`get_plugin_info` and `get_parameter_info`. -/
structure RegisterEnv where
  registered : Bool
  MAX_PARAMETERS : Nat
  category : Nat
  unique_id : Int
  min_count : Nat
  mout_count : Nat
  real_plugin_name : String
  label : String
  maker : String
  copyright : String
  parameter_name : Nat → String
  parameter_unit : Nat → String
  get_value : Nat → Double

/-- The `struct PortCountInfo` fields `ins`, `outs`, `total`. -/
structure PortCountInfo where
  ins : Nat
  outs : Nat
  total : Nat
  deriving DecidableEq

/-- Method `CarlaPlugin::get_parameter_count_info`. -/
def get_parameter_count_info (self : CarlaPlugin) : PortCountInfo :=
  { ins := ((List.range self.param.count).filter
      (fun i => decide ((self.param.data[i]?).map ParameterData.type
        = some ParameterType.PARAMETER_INPUT))).length
    outs := ((List.range self.param.count).filter
      (fun i => decide ((self.param.data[i]?).map ParameterData.type
        = some ParameterType.PARAMETER_OUTPUT))).length
    total := self.param.count }

/-- Method `CarlaPlugin::osc_global_register_new`, the host-build body (the
`#else` branch of `#ifdef BUILD_BRIDGE`). -/
def osc_global_register_new (cfg : Config) (env : RegisterEnv) (self : CarlaPlugin) :
    List Effect :=
  if env.registered then
    [Effect.osc_global_send_add_plugin self.m_id self.m_name,
     Effect.osc_global_send_set_plugin_data self.m_id self.m_type env.category self.m_hints
       env.real_plugin_name env.label env.maker env.copyright env.unique_id,
     Effect.osc_global_send_set_plugin_ports self.m_id self.ain.count self.aout.count
       env.min_count env.mout_count (get_parameter_count_info self).ins
       (get_parameter_count_info self).outs (get_parameter_count_info self).total,
     Effect.osc_global_send_set_parameter_value self.m_id cfg.PARAMETER_ACTIVE
       (if self.m_active then 1 else 0),
     Effect.osc_global_send_set_parameter_value self.m_id cfg.PARAMETER_DRYWET self.x_drywet,
     Effect.osc_global_send_set_parameter_value self.m_id cfg.PARAMETER_VOLUME self.x_vol,
     Effect.osc_global_send_set_parameter_value self.m_id cfg.PARAMETER_BALANCE_LEFT
       self.x_bal_left,
     Effect.osc_global_send_set_parameter_value self.m_id cfg.PARAMETER_BALANCE_RIGHT
       self.x_bal_right] ++
    (if self.param.count > 0 ∧ self.param.count < env.MAX_PARAMETERS then
        (List.range self.param.count).flatMap
          (fun i =>
            [Effect.osc_global_send_set_parameter_data self.m_id i (self.param.data[i]?)
               (env.parameter_name i) (env.parameter_unit i) (env.get_value i),
             Effect.osc_global_send_set_parameter_ranges self.m_id i (self.param.ranges[i]?)])
      else []) ++
    [Effect.osc_global_send_set_program_count self.m_id self.prog.count] ++
    (List.range self.prog.count).map
      (fun i => Effect.osc_global_send_set_program_name self.m_id i
        ((self.prog.names[i]?).getD none)) ++
    [Effect.osc_global_send_set_program self.m_id self.prog.current] ++
    [Effect.osc_global_send_set_midi_program_count self.m_id self.midiprog.count] ++
    (List.range self.midiprog.count).map
      (fun i => Effect.osc_global_send_set_midi_program_data self.m_id i
        (self.midiprog.data[i]?)) ++
    [Effect.osc_global_send_set_midi_program self.m_id self.midiprog.current]
  else
    []

/-! ## Dynamic library lookup -/

/-- Method `CarlaPlugin::lib_symbol`; `ret` is the address the platform call
(`GetProcAddress` or `dlsym`) returns when it is made. -/
def lib_symbol (cfg : Config) (self : CarlaPlugin) (symbol : String) (ret : Ptr) :
    Ptr × List Effect :=
  if self.m_lib ≠ nullptr then
    if cfg.Q_OS_WIN then
      (ret, [Effect.GetProcAddress self.m_lib symbol])
    else
      (ret, [Effect.dlsym self.m_lib symbol])
  else
    (nullptr, [])

/-- The platform contract of the unload call, as documented for the two
APIs: `FreeLibrary` returns nonzero on success, `dlclose` returns 0 on
success. -/
def unload_succeeded (cfg : Config) (ret : Int) : Bool :=
  if cfg.Q_OS_WIN then ret != 0 else ret == 0

/-! ## First-free-slot insertion

Both `postpone_event` and `send_midi_note` scan their buffer from index `0`
and overwrite the first slot that is not valid. `first_free_insert` is that
scan over an arbitrary slot type; each loop above is shown equal to it. -/

/-- The scan "write `new` into the first slot at or after `i` that is not
valid, and stop". -/
def first_free_insert {α : Type} {N : Nat} (isValid : α → Bool) (new : α) (f : Fin N → α)
    (i : Nat) : Fin N → α :=
  if h : i < N then
    if isValid (f ⟨i, h⟩) == false then
      Function.update f ⟨i, h⟩ new
    else
      first_free_insert isValid new f (i + 1)
  else
    f
termination_by N - i

/-- The closed form of a buffer whose first `k` slots are kept and whose next
slots hold `news` in order (as many as fit), the rest being kept. -/
def prefix_fill {α : Type} {N : Nat} (f : Fin N → α) (k : Nat) (news : List α) : Fin N → α :=
  fun j => if j.val < k then f j else (news[j.val - k]?).getD (f j)

/-- A sequence of first-free-slot insertions, in submission order. -/
def insert_all {α : Type} {N : Nat} (isValid : α → Bool) (news : List α) (f : Fin N → α) :
    Fin N → α :=
  news.foldl (fun g x => first_free_insert isValid x g 0) f

/-- Arguments of one `postpone_event` call. -/
structure PostEventArgs where
  type : PluginPostEventType
  index : Int
  value : Double
  cdata : Ptr
  deriving DecidableEq

/-- The slot contents `postpone_event` writes for a call. -/
def PostEventArgs.slot (e : PostEventArgs) : PluginPostEvent :=
  { valid := true, type := e.type, index := e.index, value := e.value, cdata := e.cdata }

/-- A sequence of `postpone_event` calls, in submission order. -/
def postpone_events (calls : List PostEventArgs) (data : PostEventsData) : PostEventsData :=
  calls.foldl (fun d e => postpone_event e.type e.index e.value e.cdata d) data

/-- A deferred-event queue with no valid slot (as the constructor leaves it). -/
def example_empty_queue : PostEventsData :=
  init_post_events
    (fun _ => { valid := true, type := PluginPostEventType.PostEventDebug, index := 0,
                value := 0, cdata := nullptr })

/-- Two `postpone_event` calls: a note-on and a parameter change. -/
def example_calls : List PostEventArgs :=
  [{ type := PluginPostEventType.PostEventNoteOn, index := 60, value := 100, cdata := nullptr },
   { type := PluginPostEventType.PostEventParameterChange, index := 2, value := 1 / 2,
     cdata := nullptr }]

/-- Three `send_midi_note` calls: two note-ons and a note-off. -/
def example_notes : List MidiNoteArgs :=
  [{ onoff := true, note := 60, velo := 100, gui_send := false, osc_send := true,
     callback_send := true },
   { onoff := true, note := 64, velo := 90, gui_send := false, osc_send := false,
     callback_send := false },
   { onoff := false, note := 60, velo := 0, gui_send := false, osc_send := true,
     callback_send := false }]

/-- A host-build configuration; the numeric constants are sample values. -/
def example_config : Config :=
  { BUILD_BRIDGE := false, Q_OS_WIN := false, global_jack_client := false,
    PARAMETER_ACTIVE := -2, PARAMETER_DRYWET := -3, PARAMETER_VOLUME := -4,
    PARAMETER_BALANCE_LEFT := -5, PARAMETER_BALANCE_RIGHT := -6, PLUGIN_IS_BRIDGE := 1 }

/-- A freshly constructed instance. -/
def example_plugin : CarlaPlugin :=
  CarlaPlugin_constructor
    (fun _ => { valid := true, type := PluginPostEventType.PostEventDebug, index := 0,
                value := 0, cdata := nullptr })
    (fun _ => { valid := true, onoff := true, note := 0, velo := 0 })

/-- A deferred-event queue whose 152 slots are all valid. -/
def example_full_queue : PostEventsData :=
  fun i => { valid := true, type := PluginPostEventType.PostEventParameterChange,
             index := i.val, value := 1, cdata := nullptr }

/-- The deferred-event queue of a fresh instance after 25 `postpone_event`
calls: slots 0..24 are valid, slots 25..151 are free. -/
def example_queue_25 : PostEventsData :=
  postpone_events
    (List.replicate 25
      { type := PluginPostEventType.PostEventParameterChange, index := 0, value := 1,
        cdata := nullptr })
    example_empty_queue

/-- The slot `send_midi_all_notes_off` writes into `ext_midi_notes[i]`. -/
def note_off_slot (i : Nat) : ExternalMidiNote :=
  { valid := true, onoff := false, note := i, velo := 0 }

/-- The clamp of the specification, `clamp(value, lo, hi)`: the value itself
inside `[lo, hi]`, the nearer bound outside. -/
def spec_clamp (value lo hi : Double) : Double :=
  max lo (min value hi)

/-- The three-way fan-out of the specification: broadcast endpoint, then the
bridge peer when the instance is a bridge, when remote propagation is on; then
the callback sink when observer notification is on. -/
def spec_fanout (is_bridge : Bool) (plugin_id param_id : Int) (value : Double)
    (osc_send callback_send : Bool) : List Effect :=
  (if osc_send then
      Effect.osc_global_send_set_parameter_value plugin_id param_id value ::
        (if is_bridge then [Effect.osc_send_control param_id value] else [])
    else []) ++
  (if callback_send then
      [Effect.callback_action CallbackType.CALLBACK_PARAMETER_CHANGED plugin_id param_id 0 value]
    else [])

/-- The value an effect hands to an observer, for the three propagation calls. -/
def Effect.carried_value : Effect → Option Double
  | Effect.osc_global_send_set_parameter_value _ _ v => some v
  | Effect.osc_send_control _ v => some v
  | Effect.callback_action _ _ _ _ v => some v
  | _ => none

/-- Whether an effect is a call to the host-wide broadcast endpoint. -/
def Effect.is_broadcast : Effect → Bool
  | Effect.osc_global_send_set_parameter_value _ _ _ => true
  | _ => false

/-- Ranges `{min: 0, max: 1, default: 0.5}`. -/
def example_ranges : ParameterRanges :=
  { def_ := 1 / 2, min := 0, max := 1, step := 1 / 100, step_small := 1 / 1000,
    step_large := 1 / 10 }

/-- An instance with one input parameter whose ranges are `example_ranges`. -/
def example_param_plugin : CarlaPlugin :=
  { example_plugin with
    m_id := 3
    param :=
      { count := 1
        data := [{ type := ParameterType.PARAMETER_INPUT, rindex := 0, hints := 0,
                   midi_channel := 0, midi_cc := -1 }]
        ranges := [example_ranges]
        port_cin := nullptr
        port_cout := nullptr } }

/-- Whether a heap block is one of the port, rindex, parameter or ranges
arrays that `delete_buffers` frees. -/
def HeapBlock.is_buffer_array : HeapBlock → Bool
  | HeapBlock.ain_ports => true
  | HeapBlock.ain_rindexes => true
  | HeapBlock.aout_ports => true
  | HeapBlock.aout_rindexes => true
  | HeapBlock.param_data => true
  | HeapBlock.param_ranges => true
  | _ => false

/-- The teardown step of the specification an effect belongs to: 1 audio-server
deactivation and port unregistration, 2 freeing the port/rindex/parameter/ranges
arrays, 3 unloading the dynamic library, 4 releasing the owned strings (and the
tables that hold them), 5 closing the audio-server client; 0 for an effect that
is no teardown step. -/
def Effect.teardown_phase : Effect → Nat
  | Effect.jack_deactivate _ => 1
  | Effect.jack_port_unregister _ _ => 1
  | Effect.delete_array b => if b.is_buffer_array then 2 else 4
  | Effect.FreeLibrary _ => 3
  | Effect.dlclose _ => 3
  | Effect.free _ => 4
  | Effect.custom_clear => 4
  | Effect.jack_client_close _ => 5
  | _ => 0

/-- An instance with a private audio-server client, two audio inputs, one
audio output, a MIDI input, one parameter, an open library and owned strings. -/
def example_live_plugin : CarlaPlugin :=
  { example_param_plugin with
    m_lib := 4096
    m_name := some "synth"
    m_filename := some "/usr/lib/synth.so"
    jack_client := 7
    ain := { count := 2, rindexes := [0, 1], ports := [11, 12] }
    aout := { count := 1, rindexes := [2], ports := [13] }
    midi := { port_min := 14, port_mout := nullptr }
    prog := { count := 1, current := 0, names := [some "init"] }
    custom := [{ type := CustomDataType.CUSTOM_DATA_STRING, key := some "k",
                 value := some "v" }] }

/-- Ranges `{min: 1, max: 2, default: 1.5}`. -/
def example_offset_ranges : ParameterRanges :=
  { def_ := 3 / 2, min := 1, max := 2, step := 1 / 100, step_small := 1 / 1000,
    step_large := 1 / 10 }

/-- An instance with one input parameter whose ranges are `example_offset_ranges`. -/
def example_offset_plugin : CarlaPlugin :=
  { example_param_plugin with
    param := { example_param_plugin.param with ranges := [example_offset_ranges] } }

/-- A bridge instance (the `PLUGIN_IS_BRIDGE` hint is set) with an empty
parameter table; `x_bal_right` is 1 as the constructor left it. -/
def example_bridge_plugin : CarlaPlugin :=
  { example_plugin with m_id := 3, m_hints := 1 }

/-- A bridge instance whose parameter table has one entry carrying the native
index `-6`, the sample value of `PARAMETER_BALANCE_RIGHT`. -/
def example_bridge_table_plugin : CarlaPlugin :=
  { example_bridge_plugin with
    param :=
      { count := 1
        data := [{ type := ParameterType.PARAMETER_INPUT, rindex := -6, hints := 0,
                   midi_channel := 0, midi_cc := -1 }]
        ranges := [example_ranges]
        port_cin := nullptr
        port_cout := nullptr } }

/-- An instance whose parameter table carries the native indices 7, 9, 9. -/
def example_table_plugin : CarlaPlugin :=
  { example_plugin with
    m_id := 3
    param :=
      { count := 3
        data := [{ type := ParameterType.PARAMETER_INPUT, rindex := 7, hints := 0,
                   midi_channel := 0, midi_cc := -1 },
                 { type := ParameterType.PARAMETER_INPUT, rindex := 9, hints := 0,
                   midi_channel := 0, midi_cc := -1 },
                 { type := ParameterType.PARAMETER_OUTPUT, rindex := 9, hints := 0,
                   midi_channel := 0, midi_cc := -1 }]
        ranges := [example_ranges, example_ranges, example_ranges]
        port_cin := nullptr
        port_cout := nullptr } }

/-- Which of the two mutexes are held: `midi` is the external-MIDI mutex
(`carla_midi_lock`), `post` is `post_events.lock`. -/
structure Held where
  midi : Bool
  post : Bool
  deriving DecidableEq

/-- The mutexes held after an effect. -/
def Held.step (h : Held) : Effect → Held
  | Effect.carla_midi_lock => { h with midi := true }
  | Effect.carla_midi_unlock => { h with midi := false }
  | Effect.post_events_lock => { h with post := true }
  | Effect.post_events_unlock => { h with post := false }
  | _ => h

/-- Whether both mutexes are held at some instant of a trace started with the
mutexes `h` held. -/
def holds_both (h : Held) : List Effect → Bool
  | [] => h.midi && h.post
  | e :: es => (h.midi && h.post) || holds_both (h.step e) es

/-- The deferred-event queue states reachable from the constructor through
`postpone_event`, `post_events_copy` and `send_midi_all_notes_off` calls; a
`send_midi_all_notes_off` call contributes a state when its result is
defined. -/
inductive Reachable : PostEventsData → Prop
  | init (raw : PostEventsData) : Reachable (init_post_events raw)
  | postpone (data : PostEventsData) (type : PluginPostEventType) (index : Int)
      (value : Double) (cdata : Ptr) :
      Reachable data → Reachable (postpone_event type index value cdata data)
  | copy (dst data : PostEventsData) :
      Reachable data → Reachable (post_events_copy dst data).2
  | all_notes_off (notes : ExtMidiNotes) (data : PostEventsData)
      (r : ExtMidiNotes × PostEventsData) :
      Reachable data → (send_midi_all_notes_off notes data).2 = some r → Reachable r.2

/-- A registration environment: the endpoint is registered. -/
def example_env : RegisterEnv :=
  { registered := true, MAX_PARAMETERS := 200, category := 1, unique_id := 42,
    min_count := 1, mout_count := 0, real_plugin_name := "synth", label := "synth",
    maker := "maker", copyright := "GPL", parameter_name := fun _ => "gain",
    parameter_unit := fun _ => "dB", get_value := fun _ => 1 / 4 }

/-- An LV2-less instance whose custom data holds one string entry and one
entry of a further type. -/
def example_custom_plugin : CarlaPlugin :=
  { example_param_plugin with
    custom := [{ type := CustomDataType.CUSTOM_DATA_STRING, key := some "k",
                 value := some "v" },
               { type := CustomDataType.other 0, key := some "chunk", value := some "AAAA" }] }

/-- The step of `osc_global_register_new` a message belongs to: 1 identity and
category, 2 port and parameter counts, 3 a global or parameter value, 4 a
parameter descriptor or its ranges, 5 program count, 6 a program name, 7 the
program cursor, 8 MIDI-program count, 9 a MIDI-program entry, 10 the
MIDI-program cursor; 0 for any other effect. -/
def Effect.register_phase : Effect → Nat
  | Effect.osc_global_send_add_plugin _ _ => 1
  | Effect.osc_global_send_set_plugin_data _ _ _ _ _ _ _ _ _ => 1
  | Effect.osc_global_send_set_plugin_ports _ _ _ _ _ _ _ _ => 2
  | Effect.osc_global_send_set_parameter_value _ _ _ => 3
  | Effect.osc_global_send_set_parameter_data _ _ _ _ _ _ => 4
  | Effect.osc_global_send_set_parameter_ranges _ _ _ => 4
  | Effect.osc_global_send_set_program_count _ _ => 5
  | Effect.osc_global_send_set_program_name _ _ _ => 6
  | Effect.osc_global_send_set_program _ _ => 7
  | Effect.osc_global_send_set_midi_program_count _ _ => 8
  | Effect.osc_global_send_set_midi_program_data _ _ _ => 9
  | Effect.osc_global_send_set_midi_program _ _ => 10
  | _ => 0

/-! # Theorems -/

theorem for_each_slot_apply {α : Type} {N : Nat} (g : α → α) :
    ∀ (d i : Nat) (a : Fin N → α), N - i = d →
      ∀ j : Fin N, for_each_slot g a i j = if i ≤ j.val then g (a j) else a j := by
  intro d
  induction d with
  | zero =>
    intro i a hd j
    have hj := j.isLt
    have h1 : ¬ i < N := by omega
    have h2 : ¬ i ≤ j.val := by omega
    rw [for_each_slot]
    simp [h1, h2]
  | succ d ih =>
    intro i a hd j
    have hiN : i < N := by omega
    rw [for_each_slot]
    simp only [hiN, dite_true]
    rw [ih (i + 1) _ (by omega) j]
    by_cases hji : j.val = i
    · have hje : j = ⟨i, hiN⟩ := Fin.ext hji
      subst hje
      have h1 : ¬ (i + 1 ≤ i) := by omega
      simp [h1]
    · have hne : j ≠ ⟨i, hiN⟩ := by
        intro h; rw [h] at hji; simp at hji
      rw [Function.update_noteq hne]
      by_cases hc : i ≤ j.val
      · have hc2 : i + 1 ≤ j.val := by omega
        simp [hc, hc2]
      · have hc2 : ¬ (i + 1 ≤ j.val) := by omega
        simp [hc, hc2]

theorem init_post_events_apply (raw : PostEventsData) (i : Fin MAX_POST_EVENTS) :
    init_post_events raw i = { raw i with valid := false } := by
  unfold init_post_events
  rw [for_each_slot_apply _ MAX_POST_EVENTS 0 raw rfl i]
  simp

theorem init_ext_midi_notes_apply (raw : ExtMidiNotes) (i : Fin MAX_MIDI_EVENTS) :
    init_ext_midi_notes raw i = { raw i with valid := false } := by
  unfold init_ext_midi_notes
  rw [for_each_slot_apply _ MAX_MIDI_EVENTS 0 raw rfl i]
  simp

theorem post_events_copy_fst (dst data : PostEventsData) :
    (post_events_copy dst data).1 = data := rfl

theorem post_events_copy_snd_apply (dst data : PostEventsData) (i : Fin MAX_POST_EVENTS) :
    (post_events_copy dst data).2 i = { data i with valid := false } := by
  unfold post_events_copy
  simp only
  rw [for_each_slot_apply _ MAX_POST_EVENTS 0 data rfl i]
  simp

theorem example_empty_queue_invalid (i : Fin MAX_POST_EVENTS) :
    (example_empty_queue i).valid = false := by
  unfold example_empty_queue
  rw [init_post_events_apply]

theorem example_plugin_notes_invalid (i : Fin MAX_MIDI_EVENTS) :
    (example_plugin.ext_midi_notes i).valid = false := by
  unfold example_plugin CarlaPlugin_constructor
  simp only
  rw [init_ext_midi_notes_apply]

theorem first_free_insert_at {α : Type} {N : Nat} (isValid : α → Bool) (new : α)
    (f : Fin N → α) (k : Nat) (hk : k < N) (hfree : isValid (f ⟨k, hk⟩) = false) :
    ∀ (d i : Nat), k - i = d → i ≤ k →
      (∀ j (hj : j < N), i ≤ j → j < k → isValid (f ⟨j, hj⟩) = true) →
      first_free_insert isValid new f i = Function.update f ⟨k, hk⟩ new := by
  intro d
  induction d with
  | zero =>
    intro i hd hik _
    have hik2 : i = k := by omega
    subst hik2
    rw [first_free_insert]
    simp [hk, hfree]
  | succ d ih =>
    intro i hd hik hpre
    have hlt : i < k := by omega
    have hiN : i < N := by omega
    rw [first_free_insert]
    have hv := hpre i hiN (le_refl i) hlt
    simp only [hiN, hv, dite_true]
    simp only [Bool.true_eq_false, beq_iff_eq, if_false]
    exact ih (i + 1) (by omega) (by omega) (fun j hj h1 h2 => hpre j hj (by omega) h2)

theorem first_free_insert_full {α : Type} {N : Nat} (isValid : α → Bool) (new : α)
    (f : Fin N → α) :
    ∀ (d i : Nat), N - i = d →
      (∀ j (hj : j < N), i ≤ j → isValid (f ⟨j, hj⟩) = true) →
      first_free_insert isValid new f i = f := by
  intro d
  induction d with
  | zero =>
    intro i hd _
    rw [first_free_insert]
    have : ¬ i < N := by omega
    simp [this]
  | succ d ih =>
    intro i hd hall
    have hiN : i < N := by omega
    rw [first_free_insert]
    have hv := hall i hiN (le_refl i)
    simp only [hiN, hv, dite_true]
    simp only [Bool.true_eq_false, beq_iff_eq, if_false]
    exact ih (i + 1) (by omega) (fun j hj h1 => hall j hj (by omega))

theorem first_free_insert_cases {α : Type} {N : Nat} (isValid : α → Bool) (new : α)
    (f : Fin N → α) :
    ∀ (d i : Nat), N - i = d →
      ((∀ j (hj : j < N), i ≤ j → isValid (f ⟨j, hj⟩) = true) ∧
          first_free_insert isValid new f i = f) ∨
        ∃ k : Fin N, isValid (f k) = false ∧
          first_free_insert isValid new f i = Function.update f k new := by
  intro d
  induction d with
  | zero =>
    intro i hd
    left
    refine ⟨fun j hj h1 => absurd hj (by omega), ?_⟩
    rw [first_free_insert]
    have : ¬ i < N := by omega
    simp [this]
  | succ d ih =>
    intro i hd
    have hiN : i < N := by omega
    rw [first_free_insert]
    simp only [hiN, dite_true]
    cases hv : isValid (f ⟨i, hiN⟩) with
    | false =>
      right
      exact ⟨⟨i, hiN⟩, hv, by simp⟩
    | true =>
      simp only [Bool.true_eq_false, beq_iff_eq, if_false]
      rcases ih (i + 1) (by omega) with ⟨hall, heq⟩ | ⟨k, hk1, hk2⟩
      · left
        refine ⟨fun j hj h1 => ?_, heq⟩
        rcases Nat.eq_or_lt_of_le h1 with h2 | h2
        · subst h2; exact hv
        · exact hall j hj h2
      · right
        exact ⟨k, hk1, hk2⟩


theorem postpone_event_loop_eq (type : PluginPostEventType) (index : Int) (value : Double)
    (cdata : Ptr) (data : PostEventsData) (i : Nat) :
    postpone_event_loop type index value cdata data i
      = first_free_insert PluginPostEvent.valid
          { valid := true, type := type, index := index, value := value, cdata := cdata }
          data i := by
  induction i using postpone_event_loop.induct type index value cdata data with
  | case1 i h hv => 
    rw [postpone_event_loop, first_free_insert]
    simp [h, hv]
  | case2 i h hv ih =>
    rw [postpone_event_loop, first_free_insert]
    simp [h, hv, ih]
  | case3 i h =>
    rw [postpone_event_loop, first_free_insert]
    simp [h]

theorem insert_all_prefix {α : Type} {N : Nat} (isValid : α → Bool) :
    ∀ (news : List α) (f : Fin N → α) (k : Nat),
      (∀ x ∈ news, isValid x = true) →
      (∀ j : Fin N, j.val < k → isValid (f j) = true) →
      (∀ j : Fin N, k ≤ j.val → isValid (f j) = false) →
      insert_all isValid news f = prefix_fill f k news := by
  intro news
  induction news with
  | nil =>
    intro f k _ _ _
    funext j
    simp [insert_all, prefix_fill]
  | cons x xs ih =>
    intro f k hnew hv hi
    have hx : isValid x = true := hnew x (List.mem_cons_self x xs)
    have hxs : ∀ y ∈ xs, isValid y = true := fun y hy => hnew y (List.mem_cons_of_mem x hy)
    have hstep : insert_all isValid (x :: xs) f
        = insert_all isValid xs (first_free_insert isValid x f 0) := by
      simp [insert_all]
    rw [hstep]
    by_cases hk : k < N
    · have h1 : first_free_insert isValid x f 0 = Function.update f ⟨k, hk⟩ x :=
        first_free_insert_at isValid x f k hk (hi ⟨k, hk⟩ (le_refl k)) k 0 rfl (Nat.zero_le k)
          (fun j hj _ h2 => hv ⟨j, hj⟩ h2)
      rw [h1]
      rw [ih (Function.update f ⟨k, hk⟩ x) (k + 1) hxs]
      · funext j
        simp only [prefix_fill]
        by_cases hjk : j.val < k
        · have hne : j ≠ ⟨k, hk⟩ := by
            intro h; rw [h] at hjk; simp at hjk
          have hjk1 : j.val < k + 1 := by omega
          simp [hjk, hjk1, Function.update_noteq hne]
        · by_cases hjeq : j.val = k
          · have hje : j = ⟨k, hk⟩ := Fin.ext hjeq
            subst hje
            simp
          · have hne : j ≠ ⟨k, hk⟩ := by
              intro h; rw [h] at hjeq; simp at hjeq
            have hjk1 : ¬ j.val < k + 1 := by omega
            have hsub : j.val - k = (j.val - (k + 1)) + 1 := by omega
            simp only [hjk, hjk1, if_false, Function.update_noteq hne]
            rw [hsub, List.getElem?_cons_succ]
      · intro j hj
        by_cases hjeq : j.val = k
        · have hje : j = ⟨k, hk⟩ := Fin.ext hjeq
          subst hje
          simp [hx]
        · have hne : j ≠ ⟨k, hk⟩ := by
            intro h; rw [h] at hjeq; simp at hjeq
          rw [Function.update_noteq hne]
          exact hv j (by omega)
      · intro j hj
        have hne : j ≠ ⟨k, hk⟩ := by
          intro h; rw [h] at hj; simp at hj
        rw [Function.update_noteq hne]
        exact hi j (by omega)
    · have h1 : first_free_insert isValid x f 0 = f :=
        first_free_insert_full isValid x f N 0 rfl
          (fun j hj _ => hv ⟨j, hj⟩ (by simp only; omega))
      rw [h1, ih f k hxs hv hi]
      funext j
      have hjk : j.val < k := by have := j.isLt; omega
      simp [prefix_fill, hjk]

theorem filter_ofFn_prefix {α : Type} (p : α → Bool) :
    ∀ (N : Nat) (g : Fin N → α) (news : List α),
      news.length ≤ N →
      (∀ x ∈ news, p x = true) →
      (∀ (j : Fin N) (h : j.val < news.length), g j = news[j.val]) →
      (∀ j : Fin N, news.length ≤ j.val → p (g j) = false) →
      (List.ofFn g).filter p = news := by
  intro N
  induction N with
  | zero =>
    intro g news hlen _ _ _
    have : news = [] := List.eq_nil_of_length_eq_zero (by omega)
    subst this
    simp
  | succ N ih =>
    intro g news hlen hp hg hrest
    rw [List.ofFn_succ]
    cases news with
    | nil =>
      have h0 : p (g 0) = false := hrest 0 (by simp)
      rw [List.filter_cons_of_neg (by simp [h0])]
      exact ih (fun i => g i.succ) [] (by simp) (by simp)
        (fun j h => absurd h (by simp)) (fun j _ => hrest j.succ (by simp))
    | cons x xs =>
      have h0 : g 0 = x := by
        have := hg 0 (by simp)
        simpa using this
      have hx : p x = true := hp x (List.mem_cons_self x xs)
      rw [h0, List.filter_cons_of_pos hx]
      congr 1
      refine ih (fun i => g i.succ) xs (by simpa using hlen)
        (fun y hy => hp y (List.mem_cons_of_mem x hy)) ?_ ?_
      · intro j h
        have := hg j.succ (by simpa using h)
        simpa using this
      · intro j h
        exact hrest j.succ (by simpa using h)

theorem postpone_events_eq_insert_all (calls : List PostEventArgs) :
    ∀ data : PostEventsData,
      postpone_events calls data
        = insert_all PluginPostEvent.valid (calls.map PostEventArgs.slot) data := by
  induction calls with
  | nil => intro data; rfl
  | cons e es ih =>
    intro data
    have h1 : postpone_events (e :: es) data
        = postpone_events es (postpone_event e.type e.index e.value e.cdata data) := by
      simp [postpone_events]
    have h2 : insert_all PluginPostEvent.valid ((e :: es).map PostEventArgs.slot) data
        = insert_all PluginPostEvent.valid (es.map PostEventArgs.slot)
            (first_free_insert PluginPostEvent.valid e.slot data 0) := by
      simp [insert_all]
    have h3 : postpone_event e.type e.index e.value e.cdata data
        = first_free_insert PluginPostEvent.valid e.slot data 0 :=
      postpone_event_loop_eq e.type e.index e.value e.cdata data 0
    rw [h1, h2, ih, h3]

/-- C2. Starting from a queue whose 152 slots are all invalid, after at most
152 `postpone_event` calls `post_events_copy` returns a buffer whose valid
slots, read in index order, are exactly the submitted events in submission
order: slot `i` holds the `i`-th event in all its fields, every later slot is
invalid; a second `post_events_copy` right after returns no valid slot. -/
theorem postpone_then_copy_in_order (data dst dst2 : PostEventsData)
    (calls : List PostEventArgs)
    (hempty : ∀ i, (data i).valid = false) (hn : calls.length ≤ MAX_POST_EVENTS) :
    (List.ofFn (post_events_copy dst (postpone_events calls data)).1).filter
          PluginPostEvent.valid
        = calls.map PostEventArgs.slot ∧
      (∀ (i : Fin MAX_POST_EVENTS) (h : i.val < calls.length),
        (post_events_copy dst (postpone_events calls data)).1 i = (calls[i.val]).slot) ∧
      (∀ i : Fin MAX_POST_EVENTS, calls.length ≤ i.val →
        ((post_events_copy dst (postpone_events calls data)).1 i).valid = false) ∧
      (∀ i : Fin MAX_POST_EVENTS,
        ((post_events_copy dst2
            (post_events_copy dst (postpone_events calls data)).2).1 i).valid = false) := by
  have hq : postpone_events calls data = prefix_fill data 0 (calls.map PostEventArgs.slot) := by
    rw [postpone_events_eq_insert_all]
    exact insert_all_prefix PluginPostEvent.valid (calls.map PostEventArgs.slot) data 0
      (by intro x hx
          rcases List.mem_map.mp hx with ⟨e, _, rfl⟩
          rfl)
      (fun j hj => absurd hj (by omega))
      (fun j _ => hempty j)
  have hslot : ∀ (i : Fin MAX_POST_EVENTS) (h : i.val < calls.length),
      (post_events_copy dst (postpone_events calls data)).1 i = (calls[i.val]).slot := by
    intro i h
    simp [post_events_copy_fst, hq, prefix_fill, h]
  have hrest : ∀ i : Fin MAX_POST_EVENTS, calls.length ≤ i.val →
      ((post_events_copy dst (postpone_events calls data)).1 i).valid = false := by
    intro i h
    have h2 : (calls.map PostEventArgs.slot)[i.val]? = none := by
      simp [h]
    simp only [post_events_copy_fst, hq, prefix_fill, Nat.sub_zero, h2]
    simpa using hempty i
  refine ⟨?_, hslot, hrest, ?_⟩
  · refine filter_ofFn_prefix PluginPostEvent.valid MAX_POST_EVENTS _ _ (by simpa using hn) ?_ ?_ ?_
    · intro x hx
      rcases List.mem_map.mp hx with ⟨e, _, rfl⟩
      rfl
    · intro j h
      have h2 : j.val < calls.length := by simpa using h
      rw [hslot j h2]
      simp
    · intro j h
      exact hrest j (by simpa using h)
  · intro i
    rw [post_events_copy_fst, post_events_copy_snd_apply]

/-- Witness of C2: two events postponed on a freshly constructed queue. -/
theorem postpone_then_copy_in_order_witness :
    (∀ i, (example_empty_queue i).valid = false) ∧
      example_calls.length ≤ MAX_POST_EVENTS ∧
      (List.ofFn (post_events_copy example_full_queue
          (postpone_events example_calls example_empty_queue)).1).filter
          PluginPostEvent.valid = example_calls.map PostEventArgs.slot ∧
      (∀ (i : Fin MAX_POST_EVENTS) (h : i.val < example_calls.length),
        (post_events_copy example_full_queue
            (postpone_events example_calls example_empty_queue)).1 i
          = (example_calls[i.val]).slot) ∧
      (∀ i : Fin MAX_POST_EVENTS, example_calls.length ≤ i.val →
        ((post_events_copy example_full_queue
            (postpone_events example_calls example_empty_queue)).1 i).valid = false) ∧
      (∀ i : Fin MAX_POST_EVENTS,
        ((post_events_copy example_full_queue
            (post_events_copy example_full_queue
              (postpone_events example_calls example_empty_queue)).2).1 i).valid = false) :=
  ⟨example_empty_queue_invalid, by decide,
    postpone_then_copy_in_order example_empty_queue example_full_queue example_full_queue
      example_calls example_empty_queue_invalid (by decide)⟩

/-- C3. For every queue state `postpone_event` leaves every slot that was
already valid unchanged in all its fields, changes at most one slot, and when
all 152 slots are valid it changes nothing: the new event is dropped. -/
theorem postpone_event_keeps_valid_slots (type : PluginPostEventType) (index : Int)
    (value : Double) (cdata : Ptr) (data : PostEventsData) :
    (∀ i, (data i).valid = true → postpone_event type index value cdata data i = data i) ∧
      (∃ k, ∀ i, i ≠ k → postpone_event type index value cdata data i = data i) ∧
      ((∀ i, (data i).valid = true) → postpone_event type index value cdata data = data) := by
  have heq : postpone_event type index value cdata data
      = first_free_insert PluginPostEvent.valid
          { valid := true, type := type, index := index, value := value, cdata := cdata }
          data 0 :=
    postpone_event_loop_eq type index value cdata data 0
  rw [heq]
  rcases first_free_insert_cases PluginPostEvent.valid
      { valid := true, type := type, index := index, value := value, cdata := cdata }
      data MAX_POST_EVENTS 0 rfl with ⟨_, hsame⟩ | ⟨k, hk, hupd⟩
  · rw [hsame]
    exact ⟨fun _ _ => rfl, ⟨⟨0, by decide⟩, fun _ _ => rfl⟩, fun _ => rfl⟩
  · rw [hupd]
    refine ⟨?_, ⟨k, fun i hi => Function.update_noteq hi _ _⟩, ?_⟩
    · intro i hi
      have hne : i ≠ k := by
        intro h
        rw [h, hk] at hi
        exact Bool.noConfusion hi
      exact Function.update_noteq hne _ _
    · intro hall
      have := hall k
      rw [hk] at this
      exact Bool.noConfusion this

/-- C4. For every queue state `post_events_copy` hands the destination an
exact copy of all 152 slots as they were before the call and leaves every
slot of the queue invalid (its other fields as they were). -/
theorem post_events_copy_copies_and_clears (dst data : PostEventsData) :
    (∀ i, (post_events_copy dst data).1 i = data i) ∧
      (∀ i, ((post_events_copy dst data).2 i).valid = false) ∧
      (∀ i, (post_events_copy dst data).2 i = { data i with valid := false }) := by
  refine ⟨fun _ => rfl, ?_, ?_⟩
  · intro i
    rw [post_events_copy_snd_apply]
  · intro i
    rw [post_events_copy_snd_apply]

theorem send_midi_note_loop_eq (onoff : Bool) (note velo : Nat) (notes : ExtMidiNotes)
    (i : Nat) :
    send_midi_note_loop onoff note velo notes i
      = first_free_insert ExternalMidiNote.valid
          { valid := true, onoff := onoff, note := note, velo := velo } notes i := by
  induction i using send_midi_note_loop.induct onoff note velo notes with
  | case1 i h hv =>
    rw [send_midi_note_loop, first_free_insert]
    simp [h, hv]
  | case2 i h hv ih =>
    rw [send_midi_note_loop, first_free_insert]
    simp [h, hv, ih]
  | case3 i h =>
    rw [send_midi_note_loop, first_free_insert]
    simp [h]

theorem send_midi_notes_buffer (cfg : Config) (calls : List MidiNoteArgs) :
    ∀ self : CarlaPlugin,
      (send_midi_notes cfg calls self).ext_midi_notes
        = insert_all ExternalMidiNote.valid (calls.map MidiNoteArgs.slot)
            self.ext_midi_notes := by
  induction calls with
  | nil => intro self; rfl
  | cons a as ih =>
    intro self
    have h1 : send_midi_notes cfg (a :: as) self
        = send_midi_notes cfg as
            (send_midi_note cfg self a.onoff a.note a.velo a.gui_send a.osc_send
              a.callback_send).1 := by
      simp [send_midi_notes]
    have h2 : insert_all ExternalMidiNote.valid ((a :: as).map MidiNoteArgs.slot)
          self.ext_midi_notes
        = insert_all ExternalMidiNote.valid (as.map MidiNoteArgs.slot)
            (first_free_insert ExternalMidiNote.valid a.slot self.ext_midi_notes 0) := by
      simp [insert_all]
    have h3 : (send_midi_note cfg self a.onoff a.note a.velo a.gui_send a.osc_send
          a.callback_send).1.ext_midi_notes
        = first_free_insert ExternalMidiNote.valid a.slot self.ext_midi_notes 0 :=
      send_midi_note_loop_eq a.onoff a.note a.velo self.ext_midi_notes 0
    rw [h1, h2, ih, h3]

theorem prefix_fill_filter {α : Type} {N : Nat} (p : α → Bool) (f : Fin N → α)
    (news : List α) (hnew : ∀ x ∈ news, p x = true) (hf : ∀ j, p (f j) = false) :
    (List.ofFn (prefix_fill f 0 news)).filter p = news.take N := by
  refine filter_ofFn_prefix p N (prefix_fill f 0 news) (news.take N) ?_ ?_ ?_ ?_
  · rw [List.length_take]
    exact Nat.min_le_left _ _
  · intro x hx
    exact hnew x (List.mem_of_mem_take hx)
  · intro j h
    have h2 : j.val < news.length := by
      rw [List.length_take] at h
      omega
    simp [prefix_fill, h2, List.getElem_take]
  · intro j h
    have hj := j.isLt
    have h2 : news.length ≤ j.val := by
      rw [List.length_take] at h
      omega
    have h3 : news[j.val]? = none := List.getElem?_eq_none h2
    simp only [prefix_fill, Nat.sub_zero, h3]
    simpa using hf j

theorem filter_ofFn_none {α : Type} {N : Nat} (p : α → Bool) (g : Fin N → α)
    (h : ∀ j, p (g j) = false) : (List.ofFn g).filter p = [] :=
  filter_ofFn_prefix p N g [] (Nat.zero_le _) (fun _ hx => absurd hx (List.not_mem_nil _))
    (fun _ h0 => absurd h0 (Nat.not_lt_zero _)) (fun j _ => h j)

/-- C5. Starting from an external MIDI buffer whose 512 slots are all invalid,
after any sequence of `send_midi_note` calls slot `i` holds the `i`-th note
(on/off, note, velocity) for every `i` below the number of calls, every other
slot is invalid; so a drain that copies out and invalidates the valid slots in
index order delivers the first 512 notes once, in submission order, and a
second drain delivers nothing; and a call made while all 512 slots are valid
leaves the buffer unchanged. -/
theorem send_midi_notes_in_order (cfg : Config) (self : CarlaPlugin)
    (calls : List MidiNoteArgs) (hempty : ∀ i, (self.ext_midi_notes i).valid = false) :
    (∀ (i : Fin MAX_MIDI_EVENTS) (h : i.val < calls.length),
        (send_midi_notes cfg calls self).ext_midi_notes i = (calls[i.val]).slot) ∧
      (∀ i : Fin MAX_MIDI_EVENTS, calls.length ≤ i.val →
        ((send_midi_notes cfg calls self).ext_midi_notes i).valid = false) ∧
      (drain_ext_midi_notes (send_midi_notes cfg calls self).ext_midi_notes).1
        = (calls.take MAX_MIDI_EVENTS).map MidiNoteArgs.slot ∧
      (drain_ext_midi_notes
          (drain_ext_midi_notes (send_midi_notes cfg calls self).ext_midi_notes).2).1 = [] ∧
      (∀ (p : CarlaPlugin) (a : MidiNoteArgs), (∀ i, (p.ext_midi_notes i).valid = true) →
        (send_midi_note cfg p a.onoff a.note a.velo a.gui_send a.osc_send
          a.callback_send).1.ext_midi_notes = p.ext_midi_notes) := by
  have hvalid : ∀ x ∈ calls.map MidiNoteArgs.slot, ExternalMidiNote.valid x = true := by
    intro x hx
    rcases List.mem_map.mp hx with ⟨e, _, rfl⟩
    rfl
  have hq : (send_midi_notes cfg calls self).ext_midi_notes
      = prefix_fill self.ext_midi_notes 0 (calls.map MidiNoteArgs.slot) := by
    rw [send_midi_notes_buffer]
    exact insert_all_prefix ExternalMidiNote.valid (calls.map MidiNoteArgs.slot)
      self.ext_midi_notes 0 hvalid
      (fun j hj => absurd hj (by omega))
      (fun j _ => hempty j)
  have hslot : ∀ (i : Fin MAX_MIDI_EVENTS) (h : i.val < calls.length),
      (send_midi_notes cfg calls self).ext_midi_notes i = (calls[i.val]).slot := by
    intro i h
    simp [hq, prefix_fill, h]
  have hrest : ∀ i : Fin MAX_MIDI_EVENTS, calls.length ≤ i.val →
      ((send_midi_notes cfg calls self).ext_midi_notes i).valid = false := by
    intro i h
    have h2 : (calls.map MidiNoteArgs.slot)[i.val]? = none := by
      simp [h]
    simp only [hq, prefix_fill, Nat.sub_zero, h2]
    simpa using hempty i
  refine ⟨hslot, hrest, ?_, ?_, ?_⟩
  · simp only [drain_ext_midi_notes]
    rw [hq, prefix_fill_filter ExternalMidiNote.valid _ _ hvalid hempty, List.map_take]
  · simp only [drain_ext_midi_notes]
    exact filter_ofFn_none ExternalMidiNote.valid _ (fun _ => rfl)
  · intro p a hfull
    have h3 : (send_midi_note cfg p a.onoff a.note a.velo a.gui_send a.osc_send
          a.callback_send).1.ext_midi_notes
        = first_free_insert ExternalMidiNote.valid a.slot p.ext_midi_notes 0 :=
      send_midi_note_loop_eq a.onoff a.note a.velo p.ext_midi_notes 0
    rw [h3]
    exact first_free_insert_full ExternalMidiNote.valid a.slot p.ext_midi_notes
      MAX_MIDI_EVENTS 0 rfl (fun j hj _ => hfull ⟨j, hj⟩)

/-- Witness of C5: three notes injected into a freshly constructed instance. -/
theorem send_midi_notes_in_order_witness :
    (∀ i, (example_plugin.ext_midi_notes i).valid = false) ∧
      (∀ (i : Fin MAX_MIDI_EVENTS) (h : i.val < example_notes.length),
        (send_midi_notes example_config example_notes example_plugin).ext_midi_notes i
          = (example_notes[i.val]).slot) ∧
      (drain_ext_midi_notes
          (send_midi_notes example_config example_notes example_plugin).ext_midi_notes).1
        = (example_notes.take MAX_MIDI_EVENTS).map MidiNoteArgs.slot :=
  ⟨example_plugin_notes_invalid,
    (send_midi_notes_in_order example_config example_plugin example_notes
      example_plugin_notes_invalid).1,
    (send_midi_notes_in_order example_config example_plugin example_notes
      example_plugin_notes_invalid).2.2.1⟩

theorem pe_pad_loop_no_warning (data : PostEventsData) (i : Nat) :
    (pe_pad_loop data i).2 = [] := by
  induction i using pe_pad_loop.induct data with
  | case1 i h hv =>
    rw [pe_pad_loop]
    simp [h, hv]
  | case2 i h hv hfull =>
    exfalso
    simp [MAX_MIDI_EVENTS, MAX_POST_EVENTS] at hfull
  | case3 i h hv hfull ih =>
    rw [pe_pad_loop]
    simp only [h, dite_true, hv, hfull]
    simpa using ih
  | case4 i h =>
    rw [pe_pad_loop]
    simp [h]

theorem pe_pad_loop_first_free (data : PostEventsData) (k : Nat) (hk : k < MAX_POST_EVENTS)
    (hfree : (data ⟨k, hk⟩).valid = false) :
    ∀ (d i : Nat), k - i = d → i ≤ k →
      (∀ j (hj : j < MAX_POST_EVENTS), i ≤ j → j < k → (data ⟨j, hj⟩).valid = true) →
      (pe_pad_loop data i).1 = k := by
  intro d
  induction d with
  | zero =>
    intro i hd hik _
    have hik2 : i = k := by omega
    subst hik2
    rw [pe_pad_loop]
    simp [hk, hfree]
  | succ d ih =>
    intro i hd hik hpre
    have hlt : i < k := by omega
    have hiN : i < MAX_POST_EVENTS := by omega
    have hv := hpre i hiN (le_refl i) hlt
    have hne : (i + MAX_MIDI_EVENTS == MAX_POST_EVENTS) = false := by
      simp [MAX_MIDI_EVENTS, MAX_POST_EVENTS]
    rw [pe_pad_loop]
    simp only [hiN, dite_true, hv, hne]
    simp only [Bool.true_eq_false, Bool.false_eq_true, beq_iff_eq, if_false]
    exact ih (i + 1) (by omega) (by omega) (fun j hj h1 h2 => hpre j hj (by omega) h2)

theorem pe_pad_loop_full (data : PostEventsData) :
    ∀ (d i : Nat), MAX_POST_EVENTS - i = d →
      (∀ j (hj : j < MAX_POST_EVENTS), i ≤ j → (data ⟨j, hj⟩).valid = true) →
      (pe_pad_loop data i).1 = 0 := by
  intro d
  induction d with
  | zero =>
    intro i hd _
    have : ¬ i < MAX_POST_EVENTS := by omega
    rw [pe_pad_loop]
    simp [this]
  | succ d ih =>
    intro i hd hall
    have hiN : i < MAX_POST_EVENTS := by omega
    have hv := hall i hiN (le_refl i)
    have hne : (i + MAX_MIDI_EVENTS == MAX_POST_EVENTS) = false := by
      simp [MAX_MIDI_EVENTS, MAX_POST_EVENTS]
    rw [pe_pad_loop]
    simp only [hiN, dite_true, hv, hne]
    simp only [Bool.true_eq_false, Bool.false_eq_true, beq_iff_eq, if_false]
    exact ih (i + 1) (by omega) (fun j hj h1 => hall j hj (by omega))

theorem notes_off_loop_out_of_bounds (pe_pad : Nat) (hpad : MAX_POST_EVENTS ≤ 127 + pe_pad) :
    ∀ (d i : Nat) (notes : ExtMidiNotes) (data : PostEventsData), 128 - i = d → i < 128 →
      notes_off_loop pe_pad notes data i = none := by
  intro d
  induction d with
  | zero =>
    intro i _ _ hd hi
    omega
  | succ d ih =>
    intro i notes data hd hi
    have hcond : i < 128 ∧ i < MAX_MIDI_EVENTS ∧ i < MAX_POST_EVENTS := by
      simp only [MAX_MIDI_EVENTS, MAX_POST_EVENTS]
      omega
    rw [notes_off_loop]
    simp only [hcond, and_self, dite_true]
    by_cases hp : i + pe_pad < MAX_POST_EVENTS
    · simp only [hp, dite_true]
      exact ih (i + 1) _ _ (by omega) (by omega)
    · simp only [hp, dite_false]

theorem notes_off_loop_in_bounds (pe_pad : Nat) (hpad : 127 + pe_pad < MAX_POST_EVENTS) :
    ∀ (d i : Nat) (notes : ExtMidiNotes) (data : PostEventsData), 128 - i = d → i ≤ 128 →
      ∃ r, notes_off_loop pe_pad notes data i = some r ∧
        (∀ j : Fin MAX_MIDI_EVENTS,
          r.1 j = if i ≤ j.val ∧ j.val < 128 then note_off_slot j.val else notes j) ∧
        (∀ j : Fin MAX_POST_EVENTS,
          r.2 j = if i + pe_pad ≤ j.val ∧ j.val < 128 + pe_pad then
              { data j with
                valid := true, type := PluginPostEventType.PostEventNoteOff,
                index := ((j.val - pe_pad : Nat) : Int), value := 0 }
            else data j) := by
  intro d
  induction d with
  | zero =>
    intro i notes data hd hi
    have hi2 : i = 128 := by omega
    subst hi2
    refine ⟨(notes, data), ?_, ?_, ?_⟩
    · rw [notes_off_loop]
      simp
    · intro j
      have : ¬ (128 ≤ j.val ∧ j.val < 128) := by omega
      simp [this]
    · intro j
      have : ¬ (128 + pe_pad ≤ j.val ∧ j.val < 128 + pe_pad) := by omega
      simp [this]
  | succ d ih =>
    intro i notes data hd hi
    have hcond : i < 128 ∧ i < MAX_MIDI_EVENTS ∧ i < MAX_POST_EVENTS := by
      simp only [MAX_MIDI_EVENTS, MAX_POST_EVENTS]
      omega
    have hp : i + pe_pad < MAX_POST_EVENTS := by omega
    rcases ih (i + 1)
        (Function.update notes ⟨i, hcond.2.1⟩
          { valid := true, onoff := false, note := i, velo := 0 })
        (Function.update data ⟨i + pe_pad, hp⟩
          { data ⟨i + pe_pad, hp⟩ with
            valid := true, type := PluginPostEventType.PostEventNoteOff, index := i,
            value := 0 })
        (by omega) (by omega) with ⟨r, hr, hn, hd2⟩
    refine ⟨r, ?_, ?_, ?_⟩
    · rw [notes_off_loop]
      simp only [hcond, and_self, dite_true, hp]
      exact hr
    · intro j
      rw [hn j]
      by_cases hji : j.val = i
      · have hje : j = ⟨i, hcond.2.1⟩ := Fin.ext hji
        subst hje
        have h1 : ¬ (i + 1 ≤ i ∧ i < 128) := by omega
        have h2 : i ≤ i ∧ i < 128 := ⟨le_refl i, hcond.1⟩
        simp [h1, h2, note_off_slot]
      · have hne : j ≠ ⟨i, hcond.2.1⟩ := by
          intro h; rw [h] at hji; simp at hji
        rw [Function.update_noteq hne]
        by_cases hc : i ≤ j.val ∧ j.val < 128
        · have hc2 : i + 1 ≤ j.val ∧ j.val < 128 := by omega
          simp [hc, hc2]
        · have hc2 : ¬ (i + 1 ≤ j.val ∧ j.val < 128) := by omega
          simp [hc, hc2]
    · intro j
      rw [hd2 j]
      by_cases hji : j.val = i + pe_pad
      · have hje : j = ⟨i + pe_pad, hp⟩ := Fin.ext hji
        subst hje
        have h1 : ¬ (i + 1 + pe_pad ≤ i + pe_pad ∧ i + pe_pad < 128 + pe_pad) := by omega
        have h2 : i + pe_pad ≤ i + pe_pad ∧ i + pe_pad < 128 + pe_pad := by omega
        simp [h1, h2]
      · have hne : j ≠ ⟨i + pe_pad, hp⟩ := by
          intro h; rw [h] at hji; simp at hji
        rw [Function.update_noteq hne]
        by_cases hc : i + pe_pad ≤ j.val ∧ j.val < 128 + pe_pad
        · have hc2 : i + 1 + pe_pad ≤ j.val ∧ j.val < 128 + pe_pad := by omega
          simp [hc, hc2]
        · have hc2 : ¬ (i + 1 + pe_pad ≤ j.val ∧ j.val < 128 + pe_pad) := by omega
          simp [hc, hc2]

theorem postpone_events_prefix_fill (data : PostEventsData) (calls : List PostEventArgs)
    (hempty : ∀ i, (data i).valid = false) :
    postpone_events calls data = prefix_fill data 0 (calls.map PostEventArgs.slot) := by
  rw [postpone_events_eq_insert_all]
  exact insert_all_prefix PluginPostEvent.valid (calls.map PostEventArgs.slot) data 0
    (by intro x hx
        rcases List.mem_map.mp hx with ⟨e, _, rfl⟩
        rfl)
    (fun j hj => absurd hj (by omega))
    (fun j _ => hempty j)

theorem send_midi_all_notes_off_never_warns (notes : ExtMidiNotes) (data : PostEventsData) :
    (send_midi_all_notes_off notes data).1
      = [Effect.carla_midi_lock, Effect.post_events_lock, Effect.post_events_unlock,
          Effect.carla_midi_unlock] := by
  simp [send_midi_all_notes_off, pe_pad_loop_no_warning]

theorem send_midi_all_notes_off_in_bounds (notes : ExtMidiNotes) (data : PostEventsData)
    (hpad : 127 + (pe_pad_loop data 0).1 < MAX_POST_EVENTS) :
    ∃ r, (send_midi_all_notes_off notes data).2 = some r ∧
      (∀ j : Fin MAX_MIDI_EVENTS, j.val < 128 → r.1 j = note_off_slot j.val) ∧
      (∀ j : Fin MAX_MIDI_EVENTS, 128 ≤ j.val → r.1 j = notes j) := by
  rcases notes_off_loop_in_bounds (pe_pad_loop data 0).1 hpad 128 0 notes data rfl
      (Nat.zero_le _) with ⟨r, hr, hn, _⟩
  refine ⟨r, hr, ?_, ?_⟩
  · intro j hj
    rw [hn j]
    simp [hj]
  · intro j hj
    rw [hn j]
    have : ¬ (0 ≤ j.val ∧ j.val < 128) := by omega
    rw [if_neg this]

theorem example_queue_25_slots (j : Fin MAX_POST_EVENTS) :
    (example_queue_25 j).valid = decide (j.val < 25) := by
  have h : example_queue_25
      = prefix_fill example_empty_queue 0
          ((List.replicate 25
            ({ type := PluginPostEventType.PostEventParameterChange, index := 0, value := 1,
               cdata := nullptr } : PostEventArgs)).map PostEventArgs.slot) :=
    postpone_events_prefix_fill example_empty_queue _ example_empty_queue_invalid
  have hget : ∀ (e : PostEventArgs),
      ((List.replicate 25 e).map PostEventArgs.slot)[j.val]?
        = if j.val < 25 then some e.slot else none := by
    intro e
    rw [List.getElem?_map, List.getElem?_replicate]
    split <;> rfl
  rw [h]
  simp only [prefix_fill, Nat.sub_zero, Nat.not_lt_zero, if_false, hget]
  by_cases hj : j.val < 25
  · simp [hj, PostEventArgs.slot]
  · simpa [hj] using example_empty_queue_invalid j

/-- C6, at the failing input. With 25 events pending (fewer than 128 free
slots), `send_midi_all_notes_off` computes the offset 25 and its last round
writes `post_events.data[152]`, outside the 152-slot array: the call has no
defined result. -/
theorem all_notes_off_with_25_pending_writes_out_of_bounds :
    (pe_pad_loop example_queue_25 0).1 = 25 ∧
      ¬ (127 + (pe_pad_loop example_queue_25 0).1 < MAX_POST_EVENTS) ∧
      (send_midi_all_notes_off example_plugin.ext_midi_notes example_queue_25).2 = none := by
  have hpad : (pe_pad_loop example_queue_25 0).1 = 25 :=
    pe_pad_loop_first_free example_queue_25 25 (by decide)
      (by rw [example_queue_25_slots]; simp) 25 0 rfl (Nat.zero_le _)
      (fun j hj _ h2 => by rw [example_queue_25_slots]; simpa using h2)
  refine ⟨hpad, ?_, ?_⟩
  · rw [hpad]
    decide
  · simp only [send_midi_all_notes_off, hpad]
    exact notes_off_loop_out_of_bounds 25 (by decide) 128 0 _ _ rfl (by decide)

/-- C7, at the failing input. With all 152 slots valid, the first loop of
`send_midi_all_notes_off` never meets `i + MAX_MIDI_EVENTS == MAX_POST_EVENTS`:
no warning is logged and `pe_pad` stays `0`, so the note-off events are written
over slots 0..127. -/
theorem all_notes_off_on_full_queue_logs_nothing :
    pe_pad_loop example_full_queue 0 = (0, []) ∧
      (send_midi_all_notes_off example_plugin.ext_midi_notes example_full_queue).1
        = [Effect.carla_midi_lock, Effect.post_events_lock, Effect.post_events_unlock,
            Effect.carla_midi_unlock] ∧
      (∃ r, (send_midi_all_notes_off example_plugin.ext_midi_notes example_full_queue).2
          = some r ∧
        r.2 ⟨0, by decide⟩
          = { valid := true, type := PluginPostEventType.PostEventNoteOff, index := 0,
              value := 0, cdata := nullptr }) := by
  have hpad : (pe_pad_loop example_full_queue 0).1 = 0 :=
    pe_pad_loop_full example_full_queue MAX_POST_EVENTS 0 rfl (fun _ _ _ => rfl)
  refine ⟨Prod.ext hpad (pe_pad_loop_no_warning _ _),
    send_midi_all_notes_off_never_warns _ _, ?_⟩
  rcases notes_off_loop_in_bounds 0 (by decide) 128 0 example_plugin.ext_midi_notes
      example_full_queue rfl (Nat.zero_le _) with ⟨r, hr, _, hd⟩
  refine ⟨r, ?_, ?_⟩
  · simp only [send_midi_all_notes_off, hpad]
    exact hr
  · rw [hd]
    simp [example_full_queue, nullptr]

theorem code_clamp_eq_spec_clamp (value lo hi : Double) (h : lo ≤ hi) :
    (if value < lo then lo else if value > hi then hi else value) = spec_clamp value lo hi := by
  unfold spec_clamp
  by_cases h1 : value < lo
  · have h2 : min value hi = value := min_eq_left (le_trans (le_of_lt h1) h)
    rw [if_pos h1, h2, max_eq_left (le_of_lt h1)]
  · rw [if_neg h1]
    have h1' : lo ≤ value := not_lt.mp h1
    by_cases h3 : value > hi
    · rw [if_pos h3, min_eq_right (le_of_lt h3), max_eq_right h]
    · rw [if_neg h3]
      have h3' : value ≤ hi := not_lt.mp h3
      rw [min_eq_left h3', max_eq_right h1']

theorem spec_clamp_in_range (value lo hi : Double) (h : lo ≤ hi) :
    lo ≤ spec_clamp value lo hi ∧ spec_clamp value lo hi ≤ hi :=
  ⟨le_max_left _ _, max_le h (min_le_right _ _)⟩

theorem fix_parameter_value_eq_spec_clamp (value : Double) (ranges : ParameterRanges)
    (h : ranges.min ≤ ranges.max) :
    (fix_parameter_value value ranges).2 = spec_clamp value ranges.min ranges.max :=
  code_clamp_eq_spec_clamp value ranges.min ranges.max h

/-- C10. For every value and every ranges with `min <= max`,
`fix_parameter_value` returns the value itself when it lies in `[min, max]`,
`min` when it is below, `max` when it is above; the result always lies in
`[min, max]`, it is the specification's clamp, and the argument updated in
place equals the returned value. -/
theorem fix_parameter_value_clamps (value : Double) (ranges : ParameterRanges)
    (h : ranges.min ≤ ranges.max) :
    (ranges.min ≤ value → value ≤ ranges.max → (fix_parameter_value value ranges).2 = value) ∧
      (value < ranges.min → (fix_parameter_value value ranges).2 = ranges.min) ∧
      (value > ranges.max → (fix_parameter_value value ranges).2 = ranges.max) ∧
      ranges.min ≤ (fix_parameter_value value ranges).2 ∧
      (fix_parameter_value value ranges).2 ≤ ranges.max ∧
      (fix_parameter_value value ranges).2 = spec_clamp value ranges.min ranges.max ∧
      (fix_parameter_value value ranges).1 = (fix_parameter_value value ranges).2 := by
  have hc := fix_parameter_value_eq_spec_clamp value ranges h
  refine ⟨?_, ?_, ?_, ?_, ?_, hc, rfl⟩
  · intro h1 h2
    rw [hc, spec_clamp, min_eq_left h2, max_eq_right h1]
  · intro h1
    rw [hc, spec_clamp, min_eq_left (le_trans (le_of_lt h1) h), max_eq_left (le_of_lt h1)]
  · intro h1
    rw [hc, spec_clamp, min_eq_right (le_of_lt h1), max_eq_right h]
  · rw [hc]
    exact (spec_clamp_in_range value ranges.min ranges.max h).1
  · rw [hc]
    exact (spec_clamp_in_range value ranges.min ranges.max h).2

/-- Witness of C10: the value 1.5 against the ranges `{min: 0, max: 1}`. -/
theorem fix_parameter_value_clamps_witness :
    example_ranges.min ≤ example_ranges.max ∧
      (fix_parameter_value (3 / 2) example_ranges).2 = example_ranges.max ∧
      (fix_parameter_value (3 / 2) example_ranges).1
        = (fix_parameter_value (3 / 2) example_ranges).2 :=
  have h : example_ranges.min ≤ example_ranges.max := by
    simp [example_ranges]
  ⟨h,
    (fix_parameter_value_clamps (3 / 2) example_ranges h).2.2.1
      (by simp only [example_ranges]; norm_num),
    (fix_parameter_value_clamps (3 / 2) example_ranges h).2.2.2.2.2.2⟩

theorem set_drywet_spec (cfg : Config) (self : CarlaPlugin) (value : Double)
    (osc_send callback_send : Bool) :
    set_drywet cfg self value osc_send callback_send
      = ({ self with x_drywet := spec_clamp value 0 1 },
          if cfg.BUILD_BRIDGE then []
          else spec_fanout (decide (self.m_hints &&& cfg.PLUGIN_IS_BRIDGE ≠ 0)) self.m_id
            cfg.PARAMETER_DRYWET (spec_clamp value 0 1) osc_send callback_send) := by
  have hc := code_clamp_eq_spec_clamp value 0 1 (by norm_num)
  simp only [set_drywet, hc, spec_fanout]
  cases cfg.BUILD_BRIDGE <;> cases osc_send <;> cases callback_send <;>
    by_cases hb : self.m_hints &&& cfg.PLUGIN_IS_BRIDGE = 0 <;> simp [hb]

theorem set_volume_spec (cfg : Config) (self : CarlaPlugin) (value : Double)
    (osc_send callback_send : Bool) :
    set_volume cfg self value osc_send callback_send
      = ({ self with x_vol := spec_clamp value 0 (127 / 100) },
          if cfg.BUILD_BRIDGE then []
          else spec_fanout (decide (self.m_hints &&& cfg.PLUGIN_IS_BRIDGE ≠ 0)) self.m_id
            cfg.PARAMETER_VOLUME (spec_clamp value 0 (127 / 100)) osc_send callback_send) := by
  have hc := code_clamp_eq_spec_clamp value 0 (127 / 100) (by norm_num)
  simp only [set_volume, hc, spec_fanout]
  cases cfg.BUILD_BRIDGE <;> cases osc_send <;> cases callback_send <;>
    by_cases hb : self.m_hints &&& cfg.PLUGIN_IS_BRIDGE = 0 <;> simp [hb]

theorem set_balance_left_spec (cfg : Config) (self : CarlaPlugin) (value : Double)
    (osc_send callback_send : Bool) :
    set_balance_left cfg self value osc_send callback_send
      = ({ self with x_bal_left := spec_clamp value (-1) 1 },
          if cfg.BUILD_BRIDGE then []
          else spec_fanout (decide (self.m_hints &&& cfg.PLUGIN_IS_BRIDGE ≠ 0)) self.m_id
            cfg.PARAMETER_BALANCE_LEFT (spec_clamp value (-1) 1) osc_send callback_send) := by
  have hc := code_clamp_eq_spec_clamp value (-1) 1 (by norm_num)
  simp only [set_balance_left, hc, spec_fanout]
  cases cfg.BUILD_BRIDGE <;> cases osc_send <;> cases callback_send <;>
    by_cases hb : self.m_hints &&& cfg.PLUGIN_IS_BRIDGE = 0 <;> simp [hb]

theorem set_balance_right_spec (cfg : Config) (self : CarlaPlugin) (value : Double)
    (osc_send callback_send : Bool) :
    set_balance_right cfg self value osc_send callback_send
      = ({ self with x_bal_right := spec_clamp value (-1) 1 },
          if cfg.BUILD_BRIDGE then []
          else spec_fanout (decide (self.m_hints &&& cfg.PLUGIN_IS_BRIDGE ≠ 0)) self.m_id
            cfg.PARAMETER_BALANCE_RIGHT (spec_clamp value (-1) 1) osc_send callback_send) := by
  have hc := code_clamp_eq_spec_clamp value (-1) 1 (by norm_num)
  simp only [set_balance_right, hc, spec_fanout]
  cases cfg.BUILD_BRIDGE <;> cases osc_send <;> cases callback_send <;>
    by_cases hb : self.m_hints &&& cfg.PLUGIN_IS_BRIDGE = 0 <;> simp [hb]

theorem set_active_spec (cfg : Config) (self : CarlaPlugin) (active osc_send callback_send : Bool) :
    set_active cfg self active osc_send callback_send
      = ({ self with m_active := active },
          if cfg.BUILD_BRIDGE then []
          else spec_fanout (decide (self.m_hints &&& cfg.PLUGIN_IS_BRIDGE ≠ 0)) self.m_id
            cfg.PARAMETER_ACTIVE (if active then 1 else 0) osc_send callback_send) := by
  simp only [set_active, spec_fanout]
  cases cfg.BUILD_BRIDGE <;> cases osc_send <;> cases callback_send <;>
    by_cases hb : self.m_hints &&& cfg.PLUGIN_IS_BRIDGE = 0 <;> simp [hb]

theorem spec_fanout_carries (is_bridge : Bool) (plugin_id param_id : Int) (value : Double)
    (osc_send callback_send : Bool) :
    ∀ e ∈ spec_fanout is_bridge plugin_id param_id value osc_send callback_send,
      e.carried_value = some value := by
  intro e he
  cases is_bridge <;> cases osc_send <;> cases callback_send <;>
    simp [spec_fanout] at he <;>
    (try rcases he with rfl | rfl | rfl) <;> rfl

theorem host_or_bridge_fanout_carries (build_bridge is_bridge : Bool) (plugin_id param_id : Int)
    (value : Double) (osc_send callback_send : Bool) :
    ∀ e ∈ (if build_bridge then []
        else spec_fanout is_bridge plugin_id param_id value osc_send callback_send),
      e.carried_value = some value := by
  intro e he
  cases build_bridge
  · exact spec_fanout_carries is_bridge plugin_id param_id value osc_send callback_send e
      (by simpa using he)
  · simp at he

/-- C8. For every input value each global-control setter stores the clamp of
the value (`set_drywet` into `[0, 1]`, `set_volume` into `[0, 1.27]`,
`set_balance_left` and `set_balance_right` into `[-1, 1]`) and every value it
sends (broadcast endpoint, bridge peer, callback) is that clamped value;
`set_active` stores the boolean and sends 1 for true, 0 for false. In the host
build the calls made are the fan-out the flags select. -/
theorem global_setters_store_and_send_clamped (cfg : Config) (self : CarlaPlugin)
    (value : Double) (active osc_send callback_send : Bool) :
    ((set_drywet cfg self value osc_send callback_send).1.x_drywet = spec_clamp value 0 1 ∧
        ∀ e ∈ (set_drywet cfg self value osc_send callback_send).2,
          e.carried_value = some (spec_clamp value 0 1)) ∧
      ((set_volume cfg self value osc_send callback_send).1.x_vol
          = spec_clamp value 0 (127 / 100) ∧
        ∀ e ∈ (set_volume cfg self value osc_send callback_send).2,
          e.carried_value = some (spec_clamp value 0 (127 / 100))) ∧
      ((set_balance_left cfg self value osc_send callback_send).1.x_bal_left
          = spec_clamp value (-1) 1 ∧
        ∀ e ∈ (set_balance_left cfg self value osc_send callback_send).2,
          e.carried_value = some (spec_clamp value (-1) 1)) ∧
      ((set_balance_right cfg self value osc_send callback_send).1.x_bal_right
          = spec_clamp value (-1) 1 ∧
        ∀ e ∈ (set_balance_right cfg self value osc_send callback_send).2,
          e.carried_value = some (spec_clamp value (-1) 1)) ∧
      ((set_active cfg self active osc_send callback_send).1.m_active = active ∧
        ∀ e ∈ (set_active cfg self active osc_send callback_send).2,
          e.carried_value = some (if active then 1 else 0)) ∧
      (cfg.BUILD_BRIDGE = false →
        (set_drywet cfg self value osc_send callback_send).2
            = spec_fanout (decide (self.m_hints &&& cfg.PLUGIN_IS_BRIDGE ≠ 0)) self.m_id
                cfg.PARAMETER_DRYWET (spec_clamp value 0 1) osc_send callback_send ∧
          (set_volume cfg self value osc_send callback_send).2
            = spec_fanout (decide (self.m_hints &&& cfg.PLUGIN_IS_BRIDGE ≠ 0)) self.m_id
                cfg.PARAMETER_VOLUME (spec_clamp value 0 (127 / 100)) osc_send callback_send ∧
          (set_balance_left cfg self value osc_send callback_send).2
            = spec_fanout (decide (self.m_hints &&& cfg.PLUGIN_IS_BRIDGE ≠ 0)) self.m_id
                cfg.PARAMETER_BALANCE_LEFT (spec_clamp value (-1) 1) osc_send callback_send ∧
          (set_balance_right cfg self value osc_send callback_send).2
            = spec_fanout (decide (self.m_hints &&& cfg.PLUGIN_IS_BRIDGE ≠ 0)) self.m_id
                cfg.PARAMETER_BALANCE_RIGHT (spec_clamp value (-1) 1) osc_send callback_send ∧
          (set_active cfg self active osc_send callback_send).2
            = spec_fanout (decide (self.m_hints &&& cfg.PLUGIN_IS_BRIDGE ≠ 0)) self.m_id
                cfg.PARAMETER_ACTIVE (if active then 1 else 0) osc_send callback_send) := by
  rw [set_drywet_spec, set_volume_spec, set_balance_left_spec, set_balance_right_spec,
    set_active_spec]
  refine ⟨⟨rfl, host_or_bridge_fanout_carries _ _ _ _ _ _ _⟩,
    ⟨rfl, host_or_bridge_fanout_carries _ _ _ _ _ _ _⟩,
    ⟨rfl, host_or_bridge_fanout_carries _ _ _ _ _ _ _⟩,
    ⟨rfl, host_or_bridge_fanout_carries _ _ _ _ _ _ _⟩,
    ⟨rfl, host_or_bridge_fanout_carries _ _ _ _ _ _ _⟩, ?_⟩
  intro hb
  simp [hb]

/-- C9, counterexample. For the input parameter with ranges
`{min: 0, max: 1, default: 0.5}`, `set_parameter_value(0, 1.5, ...)` with
remote propagation on broadcasts exactly one call, and it carries 1.5: a value
outside `[min, max]`, not 1.0. -/
theorem set_parameter_value_broadcasts_unclamped :
    (set_parameter_value example_config example_param_plugin 0 (3 / 2) false true false).2
        = [Effect.osc_global_send_set_parameter_value 3 0 (3 / 2)] ∧
      example_param_plugin.param.ranges[0]? = some example_ranges ∧
      example_ranges.min = 0 ∧ example_ranges.max = 1 ∧
      ¬ ((3 / 2 : Double) ≤ example_ranges.max) ∧
      (3 / 2 : Double) ≠ 1 := by
  refine ⟨?_, rfl, rfl, rfl, ?_, ?_⟩
  · simp [set_parameter_value, example_config, example_param_plugin, example_plugin,
      CarlaPlugin_constructor]
  · simp only [example_ranges]
    norm_num
  · norm_num

/-- C9, amended. `set_parameter_value` does not clamp and changes no state:
every value it propagates (broadcast, bridge peer, callback) is the value it
was given; so the propagated value lies in `[min, max]` when the caller passes
the result of `fix_parameter_value` for ranges with `min <= max`. In the host
build, with remote propagation on and an input parameter, exactly one
broadcast call is made, carrying the given value; for the parameter
`{min: 0, max: 1, default: 0.5}` and the value 1.5 that call carries 1.5. -/
theorem set_parameter_value_forwards (cfg : Config) (self : CarlaPlugin) (param_id : Nat)
    (value : Double) (gui_send osc_send callback_send : Bool) :
    (set_parameter_value cfg self param_id value gui_send osc_send callback_send).1 = self ∧
      (∀ e ∈ (set_parameter_value cfg self param_id value gui_send osc_send callback_send).2,
        e.carried_value = some value) ∧
      (∀ ranges : ParameterRanges, ranges.min ≤ ranges.max →
        ∀ e ∈ (set_parameter_value cfg self param_id (fix_parameter_value value ranges).2
            gui_send osc_send callback_send).2,
          ∃ v, e.carried_value = some v ∧ ranges.min ≤ v ∧ v ≤ ranges.max) ∧
      (cfg.BUILD_BRIDGE = false → osc_send = true →
        (self.param.data[param_id]?).map ParameterData.type
          = some ParameterType.PARAMETER_INPUT →
        (set_parameter_value cfg self param_id value gui_send osc_send callback_send).2.filter
            Effect.is_broadcast
          = [Effect.osc_global_send_set_parameter_value self.m_id param_id value]) ∧
      ((set_parameter_value example_config example_param_plugin 0 (3 / 2) false true
          false).2.filter Effect.is_broadcast
        = [Effect.osc_global_send_set_parameter_value 3 0 (3 / 2)]) := by
  have hcarry : ∀ (v : Double),
      ∀ e ∈ (set_parameter_value cfg self param_id v gui_send osc_send callback_send).2,
        e.carried_value = some v := by
    intro v e he
    simp only [set_parameter_value] at he
    cases hbb : cfg.BUILD_BRIDGE
    · simp only [hbb, Bool.false_eq_true, if_false, List.mem_append] at he
      rcases he with he | he
      · split at he
        · rcases List.mem_append.mp he with h1 | h1
          · simp at h1
            subst h1
            rfl
          · split at h1
            · simp at h1
              subst h1
              rfl
            · simp at h1
        · simp at he
      · split at he
        · simp at he
          subst he
          rfl
        · simp at he
    · simp [hbb] at he
  refine ⟨?_, hcarry value, ?_, ?_, ?_⟩
  · simp only [set_parameter_value]
    split <;> rfl
  · intro ranges hr e he
    refine ⟨(fix_parameter_value value ranges).2, hcarry _ e he, ?_, ?_⟩
    · rw [fix_parameter_value_eq_spec_clamp value ranges hr]
      exact (spec_clamp_in_range value ranges.min ranges.max hr).1
    · rw [fix_parameter_value_eq_spec_clamp value ranges hr]
      exact (spec_clamp_in_range value ranges.min ranges.max hr).2
  · intro hbb hosc hin
    simp only [set_parameter_value, hbb, hosc, hin]
    by_cases hh : self.m_hints &&& cfg.PLUGIN_IS_BRIDGE = 0 <;>
      cases callback_send <;> simp [hh, Effect.is_broadcast]
  · simp [set_parameter_value, example_config, example_param_plugin, example_plugin,
      CarlaPlugin_constructor, Effect.is_broadcast]

theorem remove_from_jack_phase (cfg : Config) (self : CarlaPlugin) (deactivate : Bool) :
    ∀ e ∈ remove_from_jack cfg self deactivate, e.teardown_phase = 1 := by
  intro e he
  unfold remove_from_jack at he
  split at he
  · simp at he
  · simp only [List.mem_append, List.mem_map, List.mem_range] at he
    rcases he with (((((he | he) | he) | he) | he) | he) | he
    · by_cases hc : (if cfg.BUILD_BRIDGE then deactivate
          else (cfg.global_jack_client == false && deactivate)) = true
      · rw [if_pos hc] at he
        simp at he; subst he; rfl
      · rw [if_neg hc] at he
        simp at he
    · rcases he with ⟨i, _, rfl⟩; rfl
    · rcases he with ⟨i, _, rfl⟩; rfl
    · split at he
      · simp at he; subst he; rfl
      · simp at he
    · split at he
      · simp at he; subst he; rfl
      · simp at he
    · split at he
      · simp at he; subst he; rfl
      · simp at he
    · split at he
      · simp at he; subst he; rfl
      · simp at he

theorem delete_buffers_phase (self : CarlaPlugin) :
    ∀ e ∈ (delete_buffers self).2, e.teardown_phase = 2 := by
  intro e he
  simp only [delete_buffers, List.mem_append] at he
  rcases he with (he | he) | he
  all_goals
    split at he
    · simp at he
      rcases he with rfl | rfl <;> rfl
    · simp at he

theorem lib_close_phase (cfg : Config) (self : CarlaPlugin) (ret : Int) :
    ∀ e ∈ (lib_close cfg self ret).2, e.teardown_phase = 3 := by
  intro e he
  unfold lib_close at he
  split at he
  · split at he
    · simp at he; subst he; rfl
    · simp at he; subst he; rfl
  · simp at he

theorem release_strings_phase (self : CarlaPlugin) :
    ∀ e ∈ release_strings self, e.teardown_phase = 4 := by
  intro e he
  simp only [release_strings, List.mem_append] at he
  rcases he with (((he | he) | he) | he) | he
  · split at he
    · simp at he; subst he; rfl
    · simp at he
  · split at he
    · simp at he; subst he; rfl
    · simp at he
  · split at he
    · rcases List.mem_append.mp he with h1 | h1
      · rcases List.mem_flatMap.mp h1 with ⟨i, _, hi⟩
        split at hi
        · simp at hi; subst hi; rfl
        · simp at hi
      · simp at h1; subst h1; rfl
    · simp at he
  · split at he
    · rcases List.mem_append.mp he with h1 | h1
      · rcases List.mem_flatMap.mp h1 with ⟨i, _, hi⟩
        split at hi
        · simp at hi; subst hi; rfl
        · simp at hi
      · simp at h1; subst h1; rfl
    · simp at he
  · split at he
    · rcases List.mem_append.mp he with h1 | h1
      · rcases List.mem_flatMap.mp h1 with ⟨i, _, hi⟩
        rcases List.mem_append.mp hi with h2 | h2
        · split at h2
          · simp at h2; subst h2; rfl
          · simp at h2
        · split at h2
          · simp at h2; subst h2; rfl
          · simp at h2
      · simp at h1; subst h1; rfl
    · simp at he

theorem pairwise_of_phase_eq (l : List Effect) (k : Nat)
    (h : ∀ e ∈ l, e.teardown_phase = k) :
    l.Pairwise (fun a b => a.teardown_phase ≤ b.teardown_phase) := by
  refine List.pairwise_iff_forall_sublist.mpr ?_
  intro a b hab
  have ha : a ∈ l := hab.subset (by simp)
  have hb : b ∈ l := hab.subset (by simp)
  rw [h a ha, h b hb]

theorem pairwise_append_of_phase (l1 l2 : List Effect) (k : Nat)
    (h1 : l1.Pairwise (fun a b => a.teardown_phase ≤ b.teardown_phase))
    (h2 : l2.Pairwise (fun a b => a.teardown_phase ≤ b.teardown_phase))
    (hle : ∀ e ∈ l1, e.teardown_phase ≤ k) (hge : ∀ e ∈ l2, k ≤ e.teardown_phase) :
    (l1 ++ l2).Pairwise (fun a b => a.teardown_phase ≤ b.teardown_phase) :=
  List.pairwise_append.mpr ⟨h1, h2, fun a ha b hb => le_trans (hle a ha) (hge b hb)⟩

theorem no_free_before_unregister (l : List Effect)
    (hp : l.Pairwise (fun a b => a.teardown_phase ≤ b.teardown_phase))
    (i j : Nat) (b : HeapBlock) (c p : Ptr) (hij : i < j)
    (hi : l[i]? = some (Effect.delete_array b)) :
    l[j]? ≠ some (Effect.jack_port_unregister c p) := by
  intro hj
  rcases List.getElem?_eq_some.mp hi with ⟨hil, hie⟩
  rcases List.getElem?_eq_some.mp hj with ⟨hjl, hje⟩
  have h := List.pairwise_iff_getElem.mp hp i j hil hjl hij
  rw [hie, hje] at h
  simp only [Effect.teardown_phase] at h
  split at h <;> omega

/-- C1. For every instance state the destructor's effects are, in this order:
the audio-server work of `remove_from_jack` (deactivation, then unregistration
of every audio, MIDI and control port), the array frees of `delete_buffers`,
the library unload of `lib_close`, the release of the owned strings, and last
the closing of the audio-server client. The step numbers never decrease along
the trace, and no array free precedes a port unregistration. -/
theorem destructor_runs_in_order (cfg : Config) (self : CarlaPlugin) (lib_ret : Int) :
    CarlaPlugin_destructor cfg self lib_ret
        = remove_from_jack cfg self true ++ (delete_buffers self).2 ++
            (lib_close cfg self lib_ret).2 ++ release_strings self ++
            (if self.jack_client ≠ nullptr ∧
                (cfg.BUILD_BRIDGE ∨ cfg.global_jack_client = false) then
              [Effect.jack_client_close self.jack_client]
            else []) ∧
      (∀ e ∈ remove_from_jack cfg self true, e.teardown_phase = 1) ∧
      (∀ e ∈ (delete_buffers self).2, e.teardown_phase = 2) ∧
      (∀ e ∈ (lib_close cfg self lib_ret).2, e.teardown_phase = 3) ∧
      (∀ e ∈ release_strings self, e.teardown_phase = 4) ∧
      (CarlaPlugin_destructor cfg self lib_ret).Pairwise
        (fun a b => a.teardown_phase ≤ b.teardown_phase) ∧
      (∀ (i j : Nat) (b : HeapBlock) (c p : Ptr), i < j →
        (CarlaPlugin_destructor cfg self lib_ret)[i]? = some (Effect.delete_array b) →
        (CarlaPlugin_destructor cfg self lib_ret)[j]?
          ≠ some (Effect.jack_port_unregister c p)) ∧
      (self.jack_client ≠ nullptr →
        (∀ i, i < self.ain.count →
          Effect.jack_port_unregister self.jack_client (self.ain.ports.getD i nullptr)
            ∈ CarlaPlugin_destructor cfg self lib_ret) ∧
        (∀ i, i < self.aout.count →
          Effect.jack_port_unregister self.jack_client (self.aout.ports.getD i nullptr)
            ∈ CarlaPlugin_destructor cfg self lib_ret) ∧
        (self.midi.port_min ≠ nullptr →
          Effect.jack_port_unregister self.jack_client self.midi.port_min
            ∈ CarlaPlugin_destructor cfg self lib_ret) ∧
        (self.midi.port_mout ≠ nullptr →
          Effect.jack_port_unregister self.jack_client self.midi.port_mout
            ∈ CarlaPlugin_destructor cfg self lib_ret) ∧
        (self.param.port_cin ≠ nullptr →
          Effect.jack_port_unregister self.jack_client self.param.port_cin
            ∈ CarlaPlugin_destructor cfg self lib_ret) ∧
        (self.param.port_cout ≠ nullptr →
          Effect.jack_port_unregister self.jack_client self.param.port_cout
            ∈ CarlaPlugin_destructor cfg self lib_ret)) := by
  have heq : CarlaPlugin_destructor cfg self lib_ret
      = remove_from_jack cfg self true ++ (delete_buffers self).2 ++
          (lib_close cfg self lib_ret).2 ++ release_strings self ++
          (if self.jack_client ≠ nullptr ∧
              (cfg.BUILD_BRIDGE ∨ cfg.global_jack_client = false) then
            [Effect.jack_client_close self.jack_client]
          else []) := rfl
  have h1 := remove_from_jack_phase cfg self true
  have h2 := delete_buffers_phase self
  have h3 := lib_close_phase cfg self lib_ret
  have h4 := release_strings_phase self
  have h5 : ∀ e ∈ (if self.jack_client ≠ nullptr ∧
        (cfg.BUILD_BRIDGE ∨ cfg.global_jack_client = false) then
        [Effect.jack_client_close self.jack_client] else []), e.teardown_phase = 5 := by
    intro e he
    split at he
    · simp at he; subst he; rfl
    · simp at he
  have hpw : (CarlaPlugin_destructor cfg self lib_ret).Pairwise
      (fun a b => a.teardown_phase ≤ b.teardown_phase) := by
    rw [heq]
    refine pairwise_append_of_phase _ _ 5 ?_ (pairwise_of_phase_eq _ 5 h5) ?_
      (fun e he => le_of_eq (h5 e he).symm)
    · refine pairwise_append_of_phase _ _ 4 ?_ (pairwise_of_phase_eq _ 4 h4) ?_
        (fun e he => le_of_eq (h4 e he).symm)
      · refine pairwise_append_of_phase _ _ 3 ?_ (pairwise_of_phase_eq _ 3 h3) ?_
          (fun e he => le_of_eq (h3 e he).symm)
        · exact pairwise_append_of_phase _ _ 2 (pairwise_of_phase_eq _ 1 h1)
            (pairwise_of_phase_eq _ 2 h2) (fun e he => by rw [h1 e he]; decide)
            (fun e he => le_of_eq (h2 e he).symm)
        · intro e he
          rcases List.mem_append.mp he with h | h
          · rw [h1 e h]; decide
          · rw [h2 e h]; decide
      · intro e he
        rcases List.mem_append.mp he with h | h
        · rcases List.mem_append.mp h with h | h
          · rw [h1 e h]; decide
          · rw [h2 e h]; decide
        · rw [h3 e h]; decide
    · intro e he
      rcases List.mem_append.mp he with h | h
      · rcases List.mem_append.mp h with h | h
        · rcases List.mem_append.mp h with h | h
          · rw [h1 e h]; decide
          · rw [h2 e h]; decide
        · rw [h3 e h]; decide
      · rw [h4 e h]; decide
  refine ⟨heq, h1, h2, h3, h4, hpw, ?_, ?_⟩
  · intro i j b c p hij hi
    exact no_free_before_unregister _ hpw i j b c p hij hi
  · intro hjc
    have hmem : ∀ e, e ∈ remove_from_jack cfg self true →
        e ∈ CarlaPlugin_destructor cfg self lib_ret := by
      intro e he
      rw [heq]
      simp only [List.mem_append]
      exact Or.inl (Or.inl (Or.inl (Or.inl he)))
    have hrj : ∀ e, e ∈ remove_from_jack cfg self true ↔
        e ∈ (if (if cfg.BUILD_BRIDGE then true
              else (cfg.global_jack_client == false && true)) then
            [Effect.jack_deactivate self.jack_client]
          else []) ++
        (List.range self.ain.count).map
          (fun i => Effect.jack_port_unregister self.jack_client
            (self.ain.ports.getD i nullptr)) ++
        (List.range self.aout.count).map
          (fun i => Effect.jack_port_unregister self.jack_client
            (self.aout.ports.getD i nullptr)) ++
        (if self.midi.port_min ≠ nullptr then
            [Effect.jack_port_unregister self.jack_client self.midi.port_min]
          else []) ++
        (if self.midi.port_mout ≠ nullptr then
            [Effect.jack_port_unregister self.jack_client self.midi.port_mout]
          else []) ++
        (if self.param.port_cin ≠ nullptr then
            [Effect.jack_port_unregister self.jack_client self.param.port_cin]
          else []) ++
        (if self.param.port_cout ≠ nullptr then
            [Effect.jack_port_unregister self.jack_client self.param.port_cout]
          else []) := by
      intro e
      unfold remove_from_jack
      rw [if_neg hjc]
    refine ⟨?_, ?_, ?_, ?_, ?_, ?_⟩
    · intro i hi
      refine hmem _ ((hrj _).mpr ?_)
      simp only [List.mem_append, List.mem_map, List.mem_range]
      exact Or.inl (Or.inl (Or.inl (Or.inl (Or.inl (Or.inr ⟨i, hi, rfl⟩)))))
    · intro i hi
      refine hmem _ ((hrj _).mpr ?_)
      simp only [List.mem_append, List.mem_map, List.mem_range]
      exact Or.inl (Or.inl (Or.inl (Or.inl (Or.inr ⟨i, hi, rfl⟩))))
    · intro h
      refine hmem _ ((hrj _).mpr ?_)
      simp only [List.mem_append]
      exact Or.inl (Or.inl (Or.inl (Or.inr (by rw [if_pos h]; simp))))
    · intro h
      refine hmem _ ((hrj _).mpr ?_)
      simp only [List.mem_append]
      exact Or.inl (Or.inl (Or.inr (by rw [if_pos h]; simp)))
    · intro h
      refine hmem _ ((hrj _).mpr ?_)
      simp only [List.mem_append]
      exact Or.inl (Or.inr (by rw [if_pos h]; simp))
    · intro h
      refine hmem _ ((hrj _).mpr ?_)
      simp only [List.mem_append]
      exact Or.inr (by rw [if_pos h]; simp)

theorem destructor_trace_example :
    CarlaPlugin_destructor example_config example_live_plugin 0
      = [Effect.jack_deactivate 7, Effect.jack_port_unregister 7 11,
          Effect.jack_port_unregister 7 12, Effect.jack_port_unregister 7 13,
          Effect.jack_port_unregister 7 14,
          Effect.delete_array HeapBlock.ain_ports, Effect.delete_array HeapBlock.ain_rindexes,
          Effect.delete_array HeapBlock.aout_ports, Effect.delete_array HeapBlock.aout_rindexes,
          Effect.delete_array HeapBlock.param_data, Effect.delete_array HeapBlock.param_ranges,
          Effect.dlclose 4096,
          Effect.free HeapBlock.m_name, Effect.free HeapBlock.m_filename,
          Effect.free (HeapBlock.prog_name 0), Effect.delete_array HeapBlock.prog_names,
          Effect.free (HeapBlock.custom_key 0), Effect.free (HeapBlock.custom_value 0),
          Effect.custom_clear, Effect.jack_client_close 7] := by
  decide

theorem spec_clamp_idem (value lo hi : Double) (h : lo ≤ hi) :
    spec_clamp (spec_clamp value lo hi) lo hi = spec_clamp value lo hi := by
  have h1 := (spec_clamp_in_range value lo hi h).1
  have h2 := (spec_clamp_in_range value lo hi h).2
  generalize spec_clamp value lo hi = c at h1 h2
  unfold spec_clamp
  rw [min_eq_left h2, max_eq_right h1]

theorem change_default_value_loop_getElem? (cfg : Config) (get_value : Nat → Double)
    (osc_send : Bool) (m_id : Int) (count : Nat) :
    ∀ (d i : Nat) (ranges : List ParameterRanges), count - i = d → ∀ j : Nat,
      (change_default_value_loop cfg get_value osc_send m_id count ranges i).1[j]?
        = (ranges[j]?).map
            (fun r => if i ≤ j ∧ j < count then { r with def_ := get_value j } else r) := by
  intro d
  induction d with
  | zero =>
    intro i ranges hd j
    have h1 : ¬ i < count := by omega
    have h2 : ¬ (i ≤ j ∧ j < count) := by omega
    rw [change_default_value_loop]
    simp [h1, h2]
  | succ d ih =>
    intro i ranges hd j
    have hi : i < count := by omega
    rw [change_default_value_loop]
    simp only [hi, if_true]
    rw [ih (i + 1) _ (by omega) j]
    cases hr : ranges[i]? with
    | none =>
      simp only []
      by_cases hji : j = i
      · subst hji
        simp [hr]
      · by_cases hc : i ≤ j ∧ j < count
        · have hc2 : i + 1 ≤ j ∧ j < count := by omega
          simp [hc, hc2]
        · have hc2 : ¬ (i + 1 ≤ j ∧ j < count) := by omega
          simp [hc, hc2]
    | some r =>
      simp only []
      have hlt : i < ranges.length := (List.getElem?_eq_some.mp hr).1
      by_cases hji : j = i
      · subst hji
        have h1 : ¬ (j + 1 ≤ j ∧ j < count) := by omega
        have h2 : j ≤ j ∧ j < count := ⟨le_refl j, hi⟩
        simp [h1, h2, hr, List.getElem?_set, hlt]
      · rw [List.getElem?_set]
        simp only [Ne.symm hji, if_false]
        by_cases hc : i ≤ j ∧ j < count
        · have hc2 : i + 1 ≤ j ∧ j < count := by omega
          simp [hc, hc2]
        · have hc2 : ¬ (i + 1 ≤ j ∧ j < count) := by omega
          simp [hc, hc2]

theorem change_default_value_loop_length (cfg : Config) (get_value : Nat → Double)
    (osc_send : Bool) (m_id : Int) (count : Nat) :
    ∀ (d i : Nat) (ranges : List ParameterRanges), count - i = d →
      (change_default_value_loop cfg get_value osc_send m_id count ranges i).1.length
        = ranges.length := by
  intro d
  induction d with
  | zero =>
    intro i ranges hd
    have h1 : ¬ i < count := by omega
    rw [change_default_value_loop]
    simp [h1]
  | succ d ih =>
    intro i ranges hd
    have hi : i < count := by omega
    rw [change_default_value_loop]
    simp only [hi, if_true]
    rw [ih (i + 1) _ (by omega)]
    cases hr : ranges[i]? with
    | none => rfl
    | some r => simp

theorem set_program_ranges (cfg : Config) (get_value : Nat → Double) (self : CarlaPlugin)
    (index : Int) (gui_send osc_send callback_send block : Bool) (j : Nat) :
    (set_program cfg get_value self index gui_send osc_send callback_send
        block).1.param.ranges[j]?
      = (self.param.ranges[j]?).map
          (fun r => if j < self.param.count then { r with def_ := get_value j } else r) := by
  simp only [set_program]
  rw [change_default_value_loop_getElem? cfg get_value osc_send self.m_id self.param.count
    self.param.count 0 self.param.ranges rfl j]
  simp

theorem set_midi_program_ranges_sf2 (cfg : Config) (get_value : Nat → Double)
    (self : CarlaPlugin) (index : Int) (gui_send osc_send callback_send block : Bool)
    (hsf2 : self.m_type = PluginType.PLUGIN_SF2) (j : Nat) :
    (set_midi_program cfg get_value self index gui_send osc_send callback_send
        block).1.param.ranges[j]?
      = (self.param.ranges[j]?).map
          (fun r => if j < self.param.count then { r with def_ := get_value j } else r) := by
  simp only [set_midi_program, hsf2, ne_eq, not_true_eq_false, if_false]
  rw [change_default_value_loop_getElem? cfg get_value osc_send self.m_id self.param.count
    self.param.count 0 self.param.ranges rfl j]
  simp

theorem set_midi_program_ranges_other (cfg : Config) (get_value : Nat → Double)
    (self : CarlaPlugin) (index : Int) (gui_send osc_send callback_send block : Bool)
    (hsf2 : self.m_type ≠ PluginType.PLUGIN_SF2) :
    (set_midi_program cfg get_value self index gui_send osc_send callback_send
        block).1.param = self.param := by
  simp only [set_midi_program, hsf2, ne_eq, not_false_eq_true, if_true]

/-- C12. After `set_program(p, ...)` the cursor `prog.current` is `p`, and
every entry `ranges[i]` with `i < param.count` has `def` equal to
`get_parameter_value(i)` with its `min`, `max` and step fields as before; the
table keeps its length and count, and entries at or past `param.count` are
untouched. -/
theorem set_program_snapshots_defaults (cfg : Config) (get_value : Nat → Double)
    (self : CarlaPlugin) (p : Int) (gui_send osc_send callback_send block : Bool) :
    (set_program cfg get_value self p gui_send osc_send callback_send block).1.prog.current
        = p ∧
      (set_program cfg get_value self p gui_send osc_send callback_send block).1.param.count
        = self.param.count ∧
      (set_program cfg get_value self p gui_send osc_send callback_send
          block).1.param.ranges.length = self.param.ranges.length ∧
      (∀ i r, i < self.param.count → self.param.ranges[i]? = some r →
        (set_program cfg get_value self p gui_send osc_send callback_send
            block).1.param.ranges[i]?
          = some { def_ := get_value i, min := r.min, max := r.max, step := r.step,
                   step_small := r.step_small, step_large := r.step_large }) ∧
      (∀ i, self.param.count ≤ i →
        (set_program cfg get_value self p gui_send osc_send callback_send
            block).1.param.ranges[i]? = self.param.ranges[i]?) := by
  refine ⟨rfl, rfl, ?_, ?_, ?_⟩
  · simp only [set_program]
    exact change_default_value_loop_length cfg get_value osc_send self.m_id self.param.count
      self.param.count 0 self.param.ranges rfl
  · intro i r hi hr
    rw [set_program_ranges, hr]
    simp [hi]
  · intro i hi
    rw [set_program_ranges]
    have : ¬ i < self.param.count := by omega
    cases self.param.ranges[i]? <;> simp [this]

/-- C14. `set_midi_program(p, ...)` sets `midiprog.current` to `p`; when the
format is `PLUGIN_SF2` every entry `ranges[i]` with `i < param.count` gets
`def` equal to `get_parameter_value(i)`, its other fields kept; for every other
format the parameter table, every default included, is left as it was. -/
theorem set_midi_program_snapshots_only_for_sf2 (cfg : Config) (get_value : Nat → Double)
    (self : CarlaPlugin) (p : Int) (gui_send osc_send callback_send block : Bool) :
    (set_midi_program cfg get_value self p gui_send osc_send callback_send
        block).1.midiprog.current = p ∧
      (self.m_type = PluginType.PLUGIN_SF2 →
        (∀ i r, i < self.param.count → self.param.ranges[i]? = some r →
          (set_midi_program cfg get_value self p gui_send osc_send callback_send
              block).1.param.ranges[i]?
            = some { def_ := get_value i, min := r.min, max := r.max, step := r.step,
                     step_small := r.step_small, step_large := r.step_large }) ∧
        (∀ i, self.param.count ≤ i →
          (set_midi_program cfg get_value self p gui_send osc_send callback_send
              block).1.param.ranges[i]? = self.param.ranges[i]?)) ∧
      (self.m_type ≠ PluginType.PLUGIN_SF2 →
        (set_midi_program cfg get_value self p gui_send osc_send callback_send
            block).1.param = self.param) := by
  refine ⟨?_, ?_, ?_⟩
  · simp only [set_midi_program]
    split <;> rfl
  · intro hsf2
    refine ⟨?_, ?_⟩
    · intro i r hi hr
      rw [set_midi_program_ranges_sf2 _ _ _ _ _ _ _ _ hsf2, hr]
      simp [hi]
    · intro i hi
      rw [set_midi_program_ranges_sf2 _ _ _ _ _ _ _ _ hsf2]
      have : ¬ i < self.param.count := by omega
      cases self.param.ranges[i]? <;> simp [this]
  · intro hsf2
    exact set_midi_program_ranges_other cfg get_value self p gui_send osc_send callback_send
      block hsf2

/-- C11. Clamping is idempotent: for ranges with `min <= max`, applying
`fix_parameter_value` to its own result gives that result again; and each of
`set_drywet`, `set_volume`, `set_balance_left`, `set_balance_right`, called
again with the value it stored, leaves the instance (the stored value
included) as the first call left it. -/
theorem clamping_is_idempotent (x : Double) (r : ParameterRanges) (h : r.min ≤ r.max)
    (cfg : Config) (self : CarlaPlugin) (osc1 cb1 osc2 cb2 : Bool) :
    (fix_parameter_value (fix_parameter_value x r).2 r).2 = (fix_parameter_value x r).2 ∧
      (fix_parameter_value (fix_parameter_value x r).1 r).1 = (fix_parameter_value x r).1 ∧
      (set_drywet cfg (set_drywet cfg self x osc1 cb1).1
          (set_drywet cfg self x osc1 cb1).1.x_drywet osc2 cb2).1
        = (set_drywet cfg self x osc1 cb1).1 ∧
      (set_volume cfg (set_volume cfg self x osc1 cb1).1
          (set_volume cfg self x osc1 cb1).1.x_vol osc2 cb2).1
        = (set_volume cfg self x osc1 cb1).1 ∧
      (set_balance_left cfg (set_balance_left cfg self x osc1 cb1).1
          (set_balance_left cfg self x osc1 cb1).1.x_bal_left osc2 cb2).1
        = (set_balance_left cfg self x osc1 cb1).1 ∧
      (set_balance_right cfg (set_balance_right cfg self x osc1 cb1).1
          (set_balance_right cfg self x osc1 cb1).1.x_bal_right osc2 cb2).1
        = (set_balance_right cfg self x osc1 cb1).1 := by
  have hfix : (fix_parameter_value (fix_parameter_value x r).2 r).2
      = (fix_parameter_value x r).2 := by
    rw [fix_parameter_value_eq_spec_clamp _ r h, fix_parameter_value_eq_spec_clamp x r h]
    exact spec_clamp_idem x r.min r.max h
  refine ⟨hfix, hfix, ?_, ?_, ?_, ?_⟩
  · simp only [set_drywet_spec]
    rw [spec_clamp_idem x 0 1 (by norm_num)]
  · simp only [set_volume_spec]
    rw [spec_clamp_idem x 0 (127 / 100) (by norm_num)]
  · simp only [set_balance_left_spec]
    rw [spec_clamp_idem x (-1) 1 (by norm_num)]
  · simp only [set_balance_right_spec]
    rw [spec_clamp_idem x (-1) 1 (by norm_num)]

/-- Witness of C11: the value 1.5 against the ranges `{min: 0, max: 1}`. -/
theorem clamping_is_idempotent_witness :
    example_ranges.min ≤ example_ranges.max ∧
      (fix_parameter_value (fix_parameter_value (3 / 2) example_ranges).2 example_ranges).2
        = (fix_parameter_value (3 / 2) example_ranges).2 ∧
      (set_volume example_config (set_volume example_config example_plugin (3 / 2) true true).1
          (set_volume example_config example_plugin (3 / 2) true true).1.x_vol true true).1
        = (set_volume example_config example_plugin (3 / 2) true true).1 :=
  have h : example_ranges.min ≤ example_ranges.max := by
    simp [example_ranges]
  ⟨h,
    (clamping_is_idempotent (3 / 2) example_ranges h example_config example_plugin true true
      true true).1,
    (clamping_is_idempotent (3 / 2) example_ranges h example_config example_plugin true true
      true true).2.2.2.1⟩

/-- C13, counterexample. With the base-class `get_parameter_value` (it returns
0) and one parameter whose ranges are `{min: 1, max: 2, default: 1.5}`, the
invariant `min <= default <= max` holds before `set_program` and fails after
it: the new default is 0. -/
theorem set_program_breaks_default_invariant :
    (∀ r ∈ example_offset_plugin.param.ranges, r.min ≤ r.def_ ∧ r.def_ ≤ r.max) ∧
      (set_program example_config (get_parameter_value example_offset_plugin)
          example_offset_plugin 0 false false false false).1.param.ranges[0]?
        = some { example_offset_ranges with def_ := 0 } ∧
      ¬ (∀ r ∈ (set_program example_config (get_parameter_value example_offset_plugin)
            example_offset_plugin 0 false false false false).1.param.ranges,
          r.min ≤ r.def_ ∧ r.def_ ≤ r.max) := by
  have h0 : (set_program example_config (get_parameter_value example_offset_plugin)
        example_offset_plugin 0 false false false false).1.param.ranges[0]?
      = some { example_offset_ranges with def_ := 0 } := by
    rw [set_program_ranges]
    simp [example_offset_plugin, example_param_plugin, get_parameter_value]
  refine ⟨?_, h0, ?_⟩
  · intro r hr
    simp only [example_offset_plugin, List.mem_singleton] at hr
    subst hr
    simp only [example_offset_ranges]
    norm_num
  · intro hall
    have hmem := List.getElem?_mem h0
    have := (hall _ hmem).1
    simp only [example_offset_ranges] at this
    norm_num at this

/-- C13, amended. The program setters store `get_parameter_value(i)` as the
new default without clamping: if `min <= default <= max` holds for every
ranges entry before the call and every value `get_parameter_value(i)`,
`i < param.count`, lies in `[ranges[i].min, ranges[i].max]`, then the invariant
holds for every ranges entry after `set_program` and after `set_midi_program`;
the new default of entry `i < param.count` after `set_program` is
`get_parameter_value(i)`. -/
theorem program_setters_keep_invariant_for_values_in_range (cfg : Config)
    (get_value : Nat → Double) (self : CarlaPlugin) (p : Int)
    (gui_send osc_send callback_send block : Bool)
    (hinv : ∀ r ∈ self.param.ranges, r.min ≤ r.def_ ∧ r.def_ ≤ r.max)
    (hval : ∀ i r, i < self.param.count → self.param.ranges[i]? = some r →
      r.min ≤ get_value i ∧ get_value i ≤ r.max) :
    (∀ r ∈ (set_program cfg get_value self p gui_send osc_send callback_send
          block).1.param.ranges, r.min ≤ r.def_ ∧ r.def_ ≤ r.max) ∧
      (∀ r ∈ (set_midi_program cfg get_value self p gui_send osc_send callback_send
          block).1.param.ranges, r.min ≤ r.def_ ∧ r.def_ ≤ r.max) ∧
      (∀ i r, i < self.param.count → self.param.ranges[i]? = some r →
        ((set_program cfg get_value self p gui_send osc_send callback_send
            block).1.param.ranges[i]?).map ParameterRanges.def_ = some (get_value i)) := by
  have hkey : ∀ (l : List ParameterRanges),
      (∀ j, l[j]? = (self.param.ranges[j]?).map
        (fun r => if j < self.param.count then { r with def_ := get_value j } else r)) →
      ∀ r ∈ l, r.min ≤ r.def_ ∧ r.def_ ≤ r.max := by
    intro l hl r hr
    rcases List.getElem?_of_mem hr with ⟨j, hj⟩
    rw [hl j] at hj
    cases hr0 : self.param.ranges[j]? with
    | none => rw [hr0] at hj; simp at hj
    | some r0 =>
      rw [hr0] at hj
      simp only [Option.map_some', Option.some.injEq] at hj
      by_cases hc : j < self.param.count
      · rw [if_pos hc] at hj
        subst hj
        exact hval j r0 hc hr0
      · rw [if_neg hc] at hj
        subst hj
        exact hinv _ (List.getElem?_mem hr0)
  refine ⟨hkey _ (set_program_ranges cfg get_value self p gui_send osc_send callback_send
    block), ?_, ?_⟩
  · by_cases hsf2 : self.m_type = PluginType.PLUGIN_SF2
    · exact hkey _ (set_midi_program_ranges_sf2 cfg get_value self p gui_send osc_send
        callback_send block hsf2)
    · rw [set_midi_program_ranges_other cfg get_value self p gui_send osc_send callback_send
        block hsf2]
      exact hinv
  · intro i r hi hr
    rw [set_program_ranges, hr]
    simp [hi]

/-- Witness of C13 (amended): the base-class value 0 against the ranges
`{min: 0, max: 1, default: 0.5}`. -/
theorem program_setters_keep_invariant_for_values_in_range_witness :
    (∀ r ∈ example_param_plugin.param.ranges, r.min ≤ r.def_ ∧ r.def_ ≤ r.max) ∧
      (∀ i r, i < example_param_plugin.param.count →
        example_param_plugin.param.ranges[i]? = some r →
        r.min ≤ get_parameter_value example_param_plugin i ∧
          get_parameter_value example_param_plugin i ≤ r.max) ∧
      (∀ r ∈ (set_program example_config (get_parameter_value example_param_plugin)
          example_param_plugin 0 false true true false).1.param.ranges,
        r.min ≤ r.def_ ∧ r.def_ ≤ r.max) :=
  have hinv : ∀ r ∈ example_param_plugin.param.ranges,
      r.min ≤ r.def_ ∧ r.def_ ≤ r.max := by
    intro r hr
    simp only [example_param_plugin, List.mem_singleton] at hr
    subst hr
    simp only [example_ranges]
    norm_num
  have hval : ∀ i r, i < example_param_plugin.param.count →
      example_param_plugin.param.ranges[i]? = some r →
      r.min ≤ get_parameter_value example_param_plugin i ∧
        get_parameter_value example_param_plugin i ≤ r.max := by
    intro i r hi hr
    have hi0 : i = 0 := by
      simp only [example_param_plugin] at hi
      omega
    subst hi0
    simp only [example_param_plugin, List.getElem?_cons_zero, Option.some.injEq] at hr
    subst hr
    simp only [example_ranges, get_parameter_value]
    norm_num
  ⟨hinv, hval,
    (program_setters_keep_invariant_for_values_in_range example_config
      (get_parameter_value example_param_plugin) example_param_plugin 0 false true true false
      hinv hval).1⟩

theorem first_index_eq_some (p : Nat → Bool) (n k : Nat) (hk : k < n) (hpk : p k = true) :
    ∀ (d i : Nat), k - i = d → i ≤ k → (∀ j, i ≤ j → j < k → p j = false) →
      first_index p n i = some k := by
  intro d
  induction d with
  | zero =>
    intro i hd hik _
    have : i = k := by omega
    subst this
    rw [first_index]
    simp [hk, hpk]
  | succ d ih =>
    intro i hd hik hpre
    have hlt : i < k := by omega
    have hin : i < n := by omega
    rw [first_index]
    simp only [hin, if_true, hpre i (le_refl i) hlt, Bool.false_eq_true, if_false]
    exact ih (i + 1) (by omega) (by omega) (fun j h1 h2 => hpre j (by omega) h2)

theorem first_index_eq_none (p : Nat → Bool) (n : Nat) :
    ∀ (d i : Nat), n - i = d → (∀ j, i ≤ j → j < n → p j = false) →
      first_index p n i = none := by
  intro d
  induction d with
  | zero =>
    intro i hd _
    have : ¬ i < n := by omega
    rw [first_index]
    simp [this]
  | succ d ih =>
    intro i hd hall
    have hin : i < n := by omega
    rw [first_index]
    simp only [hin, if_true, hall i (le_refl i) hin, Bool.false_eq_true, if_false]
    exact ih (i + 1) (by omega) (fun j h1 h2 => hall j (by omega) h2)

theorem rindex_scan_first_match (self : CarlaPlugin) (rindex : Int) (value : Double) (i : Nat)
    (hi : i < self.param.count)
    (hm : (self.param.data[i]?).map ParameterData.rindex = some rindex)
    (hpre : ∀ j, j < i → (self.param.data[j]?).map ParameterData.rindex ≠ some rindex) :
    rindex_scan self rindex value = Callee.set_parameter_value i value := by
  unfold rindex_scan
  rw [first_index_eq_some _ self.param.count i hi (by simpa using hm) i 0 rfl (Nat.zero_le _)
    (fun j _ hj => by simpa using hpre j hj)]

theorem rindex_scan_no_match (self : CarlaPlugin) (rindex : Int) (value : Double)
    (hno : ∀ i, i < self.param.count →
      (self.param.data[i]?).map ParameterData.rindex ≠ some rindex) :
    rindex_scan self rindex value = Callee.none := by
  unfold rindex_scan
  rw [first_index_eq_none _ self.param.count self.param.count 0 rfl
    (fun j _ hj => by simpa using hno j hj)]

theorem callee_eq_scan_of_not_reserved (cfg : Config) (self : CarlaPlugin) (rindex : Int)
    (value : Double)
    (hno : ¬ (self.m_hints &&& cfg.PLUGIN_IS_BRIDGE ≠ 0 ∧
      (rindex = cfg.PARAMETER_ACTIVE ∨ rindex = cfg.PARAMETER_DRYWET ∨
        rindex = cfg.PARAMETER_VOLUME ∨ rindex = cfg.PARAMETER_BALANCE_LEFT))) :
    set_parameter_value_rindex_callee cfg self rindex value = rindex_scan self rindex value := by
  unfold set_parameter_value_rindex_callee
  by_cases hb : self.m_hints &&& cfg.PLUGIN_IS_BRIDGE ≠ 0
  · have h4 : ¬ (rindex = cfg.PARAMETER_ACTIVE ∨ rindex = cfg.PARAMETER_DRYWET ∨
        rindex = cfg.PARAMETER_VOLUME ∨ rindex = cfg.PARAMETER_BALANCE_LEFT) :=
      fun h => hno ⟨hb, h⟩
    simp only [not_or] at h4
    rw [if_pos hb, if_neg h4.1, if_neg h4.2.1, if_neg h4.2.2.1, if_neg h4.2.2.2,
      if_neg h4.2.2.2]
  · rw [if_neg hb]

theorem callee_never_set_balance_right (cfg : Config) (self : CarlaPlugin) (rindex : Int)
    (value v : Double) :
    set_parameter_value_rindex_callee cfg self rindex value ≠ Callee.set_balance_right v := by
  have hscan : rindex_scan self rindex value ≠ Callee.set_balance_right v := by
    unfold rindex_scan
    split <;> simp
  unfold set_parameter_value_rindex_callee
  split
  · split
    · simp
    · split
      · simp
      · split
        · simp
        · split
          · simp
          · exact hscan
  · exact hscan

/-- C15. When the `PLUGIN_IS_BRIDGE` hint is set (and the reserved indices
are distinct constants), `set_parameter_value_rindex` called with the reserved
index for active, dry/wet, volume or balance-left makes exactly the call
`set_active(value > 0)`, `set_drywet(value)`, `set_volume(value)` or
`set_balance_left(value)` with the same flags: instance and messages afterwards
are those of that setter, and the generic `set_parameter_value` is not called,
whatever the parameter table holds. -/
theorem reserved_rindex_routes_to_dedicated_setter (cfg : Config) (self : CarlaPlugin)
    (value : Double) (gui_send osc_send callback_send : Bool)
    (hb : self.m_hints &&& cfg.PLUGIN_IS_BRIDGE ≠ 0)
    (hd : [cfg.PARAMETER_ACTIVE, cfg.PARAMETER_DRYWET, cfg.PARAMETER_VOLUME,
      cfg.PARAMETER_BALANCE_LEFT].Nodup) :
    (set_parameter_value_rindex_callee cfg self cfg.PARAMETER_ACTIVE value
          = Callee.set_active (decide (value > 0)) ∧
        set_parameter_value_rindex cfg self cfg.PARAMETER_ACTIVE value gui_send osc_send
            callback_send
          = set_active cfg self (decide (value > 0)) osc_send callback_send) ∧
      (set_parameter_value_rindex_callee cfg self cfg.PARAMETER_DRYWET value
          = Callee.set_drywet value ∧
        set_parameter_value_rindex cfg self cfg.PARAMETER_DRYWET value gui_send osc_send
            callback_send
          = set_drywet cfg self value osc_send callback_send) ∧
      (set_parameter_value_rindex_callee cfg self cfg.PARAMETER_VOLUME value
          = Callee.set_volume value ∧
        set_parameter_value_rindex cfg self cfg.PARAMETER_VOLUME value gui_send osc_send
            callback_send
          = set_volume cfg self value osc_send callback_send) ∧
      (set_parameter_value_rindex_callee cfg self cfg.PARAMETER_BALANCE_LEFT value
          = Callee.set_balance_left value ∧
        set_parameter_value_rindex cfg self cfg.PARAMETER_BALANCE_LEFT value gui_send osc_send
            callback_send
          = set_balance_left cfg self value osc_send callback_send) := by
  simp only [List.nodup_cons, List.mem_cons, List.mem_singleton, not_or, List.not_mem_nil,
    not_false_eq_true, List.nodup_nil, and_true] at hd
  obtain ⟨⟨had, hav, hal⟩, ⟨hdv, hdl⟩, hvl⟩ := hd
  have h1 : set_parameter_value_rindex_callee cfg self cfg.PARAMETER_ACTIVE value
      = Callee.set_active (decide (value > 0)) := by
    unfold set_parameter_value_rindex_callee
    rw [if_pos hb, if_pos rfl]
  have h2 : set_parameter_value_rindex_callee cfg self cfg.PARAMETER_DRYWET value
      = Callee.set_drywet value := by
    unfold set_parameter_value_rindex_callee
    rw [if_pos hb, if_neg (Ne.symm had), if_pos rfl]
  have h3 : set_parameter_value_rindex_callee cfg self cfg.PARAMETER_VOLUME value
      = Callee.set_volume value := by
    unfold set_parameter_value_rindex_callee
    rw [if_pos hb, if_neg (Ne.symm hav), if_neg (Ne.symm hdv), if_pos rfl]
  have h4 : set_parameter_value_rindex_callee cfg self cfg.PARAMETER_BALANCE_LEFT value
      = Callee.set_balance_left value := by
    unfold set_parameter_value_rindex_callee
    rw [if_pos hb, if_neg (Ne.symm hal), if_neg (Ne.symm hdl), if_neg (Ne.symm hvl),
      if_pos rfl]
  refine ⟨⟨h1, ?_⟩, ⟨h2, ?_⟩, ⟨h3, ?_⟩, ⟨h4, ?_⟩⟩
  · simp only [set_parameter_value_rindex, h1, Callee.run]
  · simp only [set_parameter_value_rindex, h2, Callee.run]
  · simp only [set_parameter_value_rindex, h3, Callee.run]
  · simp only [set_parameter_value_rindex, h4, Callee.run]

/-- Witness of C15: a bridge instance and the sample constants. -/
theorem reserved_rindex_routes_to_dedicated_setter_witness :
    example_bridge_plugin.m_hints &&& example_config.PLUGIN_IS_BRIDGE ≠ 0 ∧
      [example_config.PARAMETER_ACTIVE, example_config.PARAMETER_DRYWET,
        example_config.PARAMETER_VOLUME, example_config.PARAMETER_BALANCE_LEFT].Nodup ∧
      set_parameter_value_rindex example_config example_bridge_plugin
          example_config.PARAMETER_VOLUME (3 / 2) false true true
        = set_volume example_config example_bridge_plugin (3 / 2) true true :=
  have hb : example_bridge_plugin.m_hints &&& example_config.PLUGIN_IS_BRIDGE ≠ 0 := by
    decide
  have hd : [example_config.PARAMETER_ACTIVE, example_config.PARAMETER_DRYWET,
      example_config.PARAMETER_VOLUME, example_config.PARAMETER_BALANCE_LEFT].Nodup := by
    decide
  ⟨hb, hd,
    (reserved_rindex_routes_to_dedicated_setter example_config example_bridge_plugin (3 / 2)
      false true true hb hd).2.2.1.2⟩

/-- C17. When no reserved-index case applies (the hint is clear, or `rindex` is
none of the four indices the method tests), `set_parameter_value_rindex` makes
exactly the call `set_parameter_value(i, value, flags)` for the smallest
`i < param.count` whose entry carries `rindex`, later entries with the same
native index being ignored; when no entry matches it makes no call and changes
nothing. -/
theorem rindex_scan_applies_first_match_only (cfg : Config) (self : CarlaPlugin)
    (rindex : Int) (value : Double) (gui_send osc_send callback_send : Bool)
    (hno : ¬ (self.m_hints &&& cfg.PLUGIN_IS_BRIDGE ≠ 0 ∧
      (rindex = cfg.PARAMETER_ACTIVE ∨ rindex = cfg.PARAMETER_DRYWET ∨
        rindex = cfg.PARAMETER_VOLUME ∨ rindex = cfg.PARAMETER_BALANCE_LEFT))) :
    (∀ i, i < self.param.count →
        (self.param.data[i]?).map ParameterData.rindex = some rindex →
        (∀ j, j < i → (self.param.data[j]?).map ParameterData.rindex ≠ some rindex) →
        set_parameter_value_rindex_callee cfg self rindex value
            = Callee.set_parameter_value i value ∧
          set_parameter_value_rindex cfg self rindex value gui_send osc_send callback_send
            = set_parameter_value cfg self i value gui_send osc_send callback_send) ∧
      ((∀ i, i < self.param.count →
          (self.param.data[i]?).map ParameterData.rindex ≠ some rindex) →
        set_parameter_value_rindex_callee cfg self rindex value = Callee.none ∧
          set_parameter_value_rindex cfg self rindex value gui_send osc_send callback_send
            = (self, [])) := by
  have hc := callee_eq_scan_of_not_reserved cfg self rindex value hno
  refine ⟨?_, ?_⟩
  · intro i hi hm hpre
    have h := rindex_scan_first_match self rindex value i hi hm hpre
    refine ⟨by rw [hc, h], ?_⟩
    simp only [set_parameter_value_rindex, hc, h, Callee.run]
  · intro hnone
    have h := rindex_scan_no_match self rindex value hnone
    refine ⟨by rw [hc, h], ?_⟩
    simp only [set_parameter_value_rindex, hc, h, Callee.run]

/-- Witness of C17: native index 9 in the table 7, 9, 9 selects entry 1. -/
theorem rindex_scan_applies_first_match_only_witness :
    ¬ (example_table_plugin.m_hints &&& example_config.PLUGIN_IS_BRIDGE ≠ 0 ∧
        ((9 : Int) = example_config.PARAMETER_ACTIVE ∨
          (9 : Int) = example_config.PARAMETER_DRYWET ∨
          (9 : Int) = example_config.PARAMETER_VOLUME ∨
          (9 : Int) = example_config.PARAMETER_BALANCE_LEFT)) ∧
      set_parameter_value_rindex_callee example_config example_table_plugin 9 (1 / 4)
        = Callee.set_parameter_value 1 (1 / 4) ∧
      set_parameter_value_rindex example_config example_table_plugin 9 (1 / 4) false true true
        = set_parameter_value example_config example_table_plugin 1 (1 / 4) false true true :=
  have hno : ¬ (example_table_plugin.m_hints &&& example_config.PLUGIN_IS_BRIDGE ≠ 0 ∧
      ((9 : Int) = example_config.PARAMETER_ACTIVE ∨
        (9 : Int) = example_config.PARAMETER_DRYWET ∨
        (9 : Int) = example_config.PARAMETER_VOLUME ∨
        (9 : Int) = example_config.PARAMETER_BALANCE_LEFT)) := by
    decide
  ⟨hno,
    (rindex_scan_applies_first_match_only example_config example_table_plugin 9 (1 / 4) false
      true true hno).1 1 (by decide) (by decide)
      (fun j hj => by
        have : j = 0 := by omega
        subst this
        decide)⟩

/-- C16, at the failing input. On a bridge instance
`set_parameter_value_rindex(PARAMETER_BALANCE_RIGHT, 0.5, ...)` does not reach
`set_balance_right`: with an empty parameter table it makes no call and
`x_bal_right` stays 1 instead of becoming 0.5, and with a table entry carrying
that native index it calls the generic `set_parameter_value`. -/
theorem balance_right_rindex_is_not_routed :
    set_parameter_value_rindex_callee example_config example_bridge_plugin
        example_config.PARAMETER_BALANCE_RIGHT (1 / 2) = Callee.none ∧
      set_parameter_value_rindex example_config example_bridge_plugin
          example_config.PARAMETER_BALANCE_RIGHT (1 / 2) false true true
        = (example_bridge_plugin, []) ∧
      example_bridge_plugin.x_bal_right = 1 ∧
      spec_clamp (1 / 2) (-1) 1 = 1 / 2 ∧
      (set_balance_right example_config example_bridge_plugin (1 / 2) true true).1.x_bal_right
        = 1 / 2 ∧
      set_parameter_value_rindex_callee example_config example_bridge_table_plugin
        example_config.PARAMETER_BALANCE_RIGHT (1 / 2) = Callee.set_parameter_value 0 (1 / 2) := by
  have hno1 : ¬ (example_bridge_plugin.m_hints &&& example_config.PLUGIN_IS_BRIDGE ≠ 0 ∧
      (example_config.PARAMETER_BALANCE_RIGHT = example_config.PARAMETER_ACTIVE ∨
        example_config.PARAMETER_BALANCE_RIGHT = example_config.PARAMETER_DRYWET ∨
        example_config.PARAMETER_BALANCE_RIGHT = example_config.PARAMETER_VOLUME ∨
        example_config.PARAMETER_BALANCE_RIGHT = example_config.PARAMETER_BALANCE_LEFT)) := by
    decide
  have hno2 : ¬ (example_bridge_table_plugin.m_hints &&& example_config.PLUGIN_IS_BRIDGE ≠ 0 ∧
      (example_config.PARAMETER_BALANCE_RIGHT = example_config.PARAMETER_ACTIVE ∨
        example_config.PARAMETER_BALANCE_RIGHT = example_config.PARAMETER_DRYWET ∨
        example_config.PARAMETER_BALANCE_RIGHT = example_config.PARAMETER_VOLUME ∨
        example_config.PARAMETER_BALANCE_RIGHT = example_config.PARAMETER_BALANCE_LEFT)) := by
    decide
  have h1 : set_parameter_value_rindex_callee example_config example_bridge_plugin
      example_config.PARAMETER_BALANCE_RIGHT (1 / 2) = Callee.none := by
    rw [callee_eq_scan_of_not_reserved _ _ _ _ hno1]
    exact rindex_scan_no_match _ _ _ (fun i hi => absurd hi (Nat.not_lt_zero i))
  have hclamp : spec_clamp (1 / 2) (-1) 1 = 1 / 2 := by
    unfold spec_clamp
    norm_num
  refine ⟨h1, ?_, rfl, hclamp, ?_, ?_⟩
  · simp only [set_parameter_value_rindex, h1, Callee.run]
  · rw [set_balance_right_spec]
    exact hclamp
  · rw [callee_eq_scan_of_not_reserved _ _ _ _ hno2]
    exact rindex_scan_first_match _ _ _ 0 (by decide) (by decide)
      (fun j hj => absurd hj (Nat.not_lt_zero j))

theorem first_index_spec (p : Nat → Bool) (n : Nat) :
    ∀ (d i : Nat), n - i = d →
      (∃ k, first_index p n i = some k ∧ i ≤ k ∧ k < n ∧ p k = true ∧
          ∀ j, i ≤ j → j < k → p j = false) ∨
        (first_index p n i = none ∧ ∀ j, i ≤ j → j < n → p j = false) := by
  intro d
  induction d with
  | zero =>
    intro i hd
    right
    have h : ¬ i < n := by omega
    refine ⟨?_, fun j h1 h2 => absurd h2 (by omega)⟩
    rw [first_index]
    simp [h]
  | succ d ih =>
    intro i hd
    have hin : i < n := by omega
    cases hp : p i with
    | true =>
      left
      refine ⟨i, ?_, le_refl i, hin, hp, fun j h1 h2 => absurd h2 (by omega)⟩
      rw [first_index]
      simp [hin, hp]
    | false =>
      have hstep : first_index p n i = first_index p n (i + 1) := by
        rw [first_index]
        simp [hin, hp]
      rcases ih (i + 1) (by omega) with ⟨k, hk, h1, h2, h3, h4⟩ | ⟨hk, h1⟩
      · left
        refine ⟨k, by rw [hstep, hk], by omega, h2, h3, ?_⟩
        intro j hj1 hj2
        rcases Nat.eq_or_lt_of_le hj1 with h | h
        · subst h; exact hp
        · exact h4 j h hj2
      · right
        refine ⟨by rw [hstep, hk], ?_⟩
        intro j hj1 hj2
        rcases Nat.eq_or_lt_of_le hj1 with h | h
        · subst h; exact hp
        · exact h1 j h hj2

theorem set_custom_data_cases (self : CarlaPlugin) (dtype : CustomDataType)
    (key value : String) (gui_send : Bool) (hacc : custom_data_save dtype key = true) :
    (∃ i c, self.custom[i]? = some c ∧ c.key = some key ∧
        (∀ j c0, j < i → self.custom[j]? = some c0 → c0.key ≠ some key) ∧
        set_custom_data self dtype key value gui_send
          = ({ self with custom := self.custom.set i { c with value := some value } },
              [Effect.free (HeapBlock.custom_value i)])) ∨
      ((∀ c ∈ self.custom, c.key ≠ some key) ∧
        set_custom_data self dtype key value gui_send
          = ({ self with
                custom := self.custom ++
                  [{ type := dtype, key := some key, value := some value }] }, [])) := by
  rcases first_index_spec
      (fun i => decide ((self.custom[i]?).map CustomData.key = some (some key)))
      self.custom.length self.custom.length 0 rfl with
    ⟨k, hk, _, hlt, hpk, hpre⟩ | ⟨hk, hall⟩
  · left
    have hget : self.custom[k]? = some self.custom[k] := List.getElem?_eq_getElem hlt
    have hkey : (self.custom[k]).key = some key := by
      have := of_decide_eq_true hpk
      rw [hget] at this
      simpa using this
    refine ⟨k, self.custom[k], hget, hkey, ?_, ?_⟩
    · intro j c0 hj hc0 hc0k
      have := hpre j (Nat.zero_le j) hj
      rw [hc0] at this
      simp [hc0k] at this
    · simp only [set_custom_data, hacc, if_true, hk, hget]
  · right
    refine ⟨?_, ?_⟩
    · intro c hc hck
      rcases List.getElem?_of_mem hc with ⟨j, hj⟩
      have hjl : j < self.custom.length := (List.getElem?_eq_some.mp hj).1
      have := hall j (Nat.zero_le j) hjl
      rw [hj] at this
      simp [hck] at this
    · simp only [set_custom_data, hacc, if_true, hk]

theorem find?_set_first {α : Type} (q : α → Bool) (x : α) (hx : q x = true) :
    ∀ (l : List α) (i : Nat) (c : α), l[i]? = some c →
      (∀ j c0, j < i → l[j]? = some c0 → q c0 = false) →
      (l.set i x).find? q = some x := by
  intro l
  induction l with
  | nil => intro i c h; simp at h
  | cons a as ih =>
    intro i c h hpre
    cases i with
    | zero => simp [hx]
    | succ i =>
      have ha : q a = false := hpre 0 a (Nat.succ_pos i) (by simp)
      rw [List.set_cons_succ, List.find?_cons_of_neg _ (by simp [ha])]
      refine ih i c (by simpa using h) ?_
      intro j c0 hj hc0
      exact hpre (j + 1) c0 (by omega) (by simpa using hc0)

theorem map_key_set_same (l : List CustomData) (i : Nat) (c : CustomData) (v : Option String)
    (h : l[i]? = some c) :
    (l.set i { c with value := v }).map CustomData.key = l.map CustomData.key := by
  apply List.ext_getElem?
  intro n
  rw [List.getElem?_map, List.getElem?_map, List.getElem?_set]
  by_cases hn : i = n
  · subst hn
    have hlt : i < l.length := (List.getElem?_eq_some.mp h).1
    simp [hlt, h]
  · simp [hn]

/-- C18. For every accepted submission `(type, key, value)`: when some stored
entry has that key, the first such entry gets `value` while its key and type,
the list length and every other entry stay as they were; otherwise exactly one
entry `(type, key, value)` is appended. So pairwise distinct keys stay
pairwise distinct, and the entry found under `key` afterwards holds `value`. -/
theorem set_custom_data_upserts (self : CarlaPlugin) (dtype : CustomDataType)
    (key value : String) (gui_send : Bool) (hacc : custom_data_save dtype key = true) :
    (∀ i c, self.custom[i]? = some c → c.key = some key →
        (∀ j c0, j < i → self.custom[j]? = some c0 → c0.key ≠ some key) →
        (set_custom_data self dtype key value gui_send).1.custom
          = self.custom.set i { type := c.type, key := c.key, value := some value }) ∧
      ((∀ c ∈ self.custom, c.key ≠ some key) →
        (set_custom_data self dtype key value gui_send).1.custom
          = self.custom ++ [{ type := dtype, key := some key, value := some value }]) ∧
      ((self.custom.map CustomData.key).Nodup →
        ((set_custom_data self dtype key value gui_send).1.custom.map CustomData.key).Nodup) ∧
      (∃ c, (set_custom_data self dtype key value gui_send).1.custom.find?
            (fun c => decide (c.key = some key)) = some c ∧
        c.value = some value) := by
  rcases set_custom_data_cases self dtype key value gui_send hacc with
    ⟨i, c, hc, hck, hpre, hres⟩ | ⟨hnone, hres⟩
  · rw [hres]
    refine ⟨?_, ?_, ?_, ?_⟩
    · intro i2 c2 hc2 hck2 hpre2
      have hii : i2 = i := by
        rcases Nat.lt_trichotomy i2 i with h | h | h
        · exact absurd hck2 (hpre i2 c2 h hc2)
        · exact h
        · exact absurd hck (hpre2 i c h hc)
      subst hii
      rw [hc] at hc2
      cases hc2
      rfl
    · intro hn
      exact absurd hck (hn c (List.getElem?_mem hc))
    · intro hnd
      show ((self.custom.set i { c with value := some value }).map CustomData.key).Nodup
      rw [map_key_set_same self.custom i c (some value) hc]
      exact hnd
    · refine ⟨{ c with value := some value }, ?_, rfl⟩
      show (self.custom.set i { c with value := some value }).find?
        (fun c => decide (c.key = some key)) = some { c with value := some value }
      exact find?_set_first (fun c => decide (c.key = some key))
        ({ c with value := some value } : CustomData) (by simpa using hck)
        self.custom i c hc
        (fun j c0 hj hc0 => by simpa using hpre j c0 hj hc0)
  · rw [hres]
    refine ⟨?_, ?_, ?_, ?_⟩
    · intro i c hc hck _
      exact absurd hck (hnone c (List.getElem?_mem hc))
    · intro _
      rfl
    · intro hnd
      show ((self.custom ++
        [({ type := dtype, key := some key, value := some value } : CustomData)]).map
        CustomData.key).Nodup
      rw [List.map_append, List.nodup_append]
      refine ⟨hnd, by simp, ?_⟩
      intro k hk1 hk2
      simp only [List.map_cons, List.map_nil, List.mem_singleton] at hk2
      subst hk2
      rcases List.mem_map.mp hk1 with ⟨c, hc, hck⟩
      exact hnone c hc hck
    · refine ⟨{ type := dtype, key := some key, value := some value }, ?_, rfl⟩
      show (self.custom ++
        [({ type := dtype, key := some key, value := some value } : CustomData)]).find?
        (fun c => decide (c.key = some key)) = _
      rw [List.find?_append]
      have h1 : self.custom.find? (fun c => decide (c.key = some key)) = none := by
        rw [List.find?_eq_none]
        intro x hx
        simpa using hnone x hx
      rw [h1]
      simp

/-- Witness of C18: the stored key `k` is submitted again with a new value. -/
theorem set_custom_data_upserts_witness :
    custom_data_save CustomDataType.CUSTOM_DATA_STRING "k" = true ∧
      (set_custom_data example_live_plugin CustomDataType.CUSTOM_DATA_STRING "k" "w"
          false).1.custom
        = [{ type := CustomDataType.CUSTOM_DATA_STRING, key := some "k", value := some "w" }] :=
  have hacc : custom_data_save CustomDataType.CUSTOM_DATA_STRING "k" = true := by decide
  ⟨hacc,
    (set_custom_data_upserts example_live_plugin CustomDataType.CUSTOM_DATA_STRING "k" "w" false
      hacc).1 0 { type := CustomDataType.CUSTOM_DATA_STRING, key := some "k", value := some "v" }
      rfl rfl (fun j _ hj => absurd hj (Nat.not_lt_zero j))⟩

/-- C19, counterexample. A submission whose type is neither the invalid nor
the string type is stored although its key is the transient key `guiVisible`
(or begins with `OSC:`). -/
theorem set_custom_data_stores_transient_key_of_other_type :
    example_plugin.custom = [] ∧
      (set_custom_data example_plugin (CustomDataType.other 0) "guiVisible" "1" false).1.custom
        = [{ type := CustomDataType.other 0, key := some "guiVisible", value := some "1" }] ∧
      (set_custom_data example_plugin (CustomDataType.other 0) "OSC:url" "osc.udp://h:1/"
          false).1.custom
        = [{ type := CustomDataType.other 0, key := some "OSC:url",
             value := some "osc.udp://h:1/" }] ∧
      "OSC:url".toList.take 4 = "OSC:".toList := by
  refine ⟨rfl, ?_, ?_, by decide⟩
  · rcases set_custom_data_cases example_plugin (CustomDataType.other 0) "guiVisible" "1" false
        rfl with ⟨i, c, hc, _⟩ | ⟨_, hres⟩
    · exact absurd hc (by simp [example_plugin, CarlaPlugin_constructor])
    · rw [hres]
      rfl
  · rcases set_custom_data_cases example_plugin (CustomDataType.other 0) "OSC:url"
        "osc.udp://h:1/" false rfl with ⟨i, c, hc, _⟩ | ⟨_, hres⟩
    · exact absurd hc (by simp [example_plugin, CarlaPlugin_constructor])
    · rw [hres]
      rfl

/-- C19, amended. `set_custom_data` leaves the instance unchanged whenever the
submitted type is the invalid type, and whenever the submitted type is the
string type and the key is a transient-protocol key (its first four characters
are `OSC:`, or it equals `guiVisible`); a string-type submission with any other
key, and a submission of any further type whatever its key, is accepted. -/
theorem set_custom_data_filters (self : CarlaPlugin) (key value : String) (gui_send : Bool) :
    set_custom_data self CustomDataType.CUSTOM_DATA_INVALID key value gui_send = (self, []) ∧
      ((key.toList.take 4 = "OSC:".toList ∨ key = "guiVisible") →
        set_custom_data self CustomDataType.CUSTOM_DATA_STRING key value gui_send
          = (self, [])) ∧
      (¬ (key.toList.take 4 = "OSC:".toList ∨ key = "guiVisible") →
        custom_data_save CustomDataType.CUSTOM_DATA_STRING key = true) ∧
      (∀ tag, custom_data_save (CustomDataType.other tag) key = true) := by
  refine ⟨?_, ?_, ?_, fun _ => rfl⟩
  · simp [set_custom_data, custom_data_save]
  · intro h
    simp only [set_custom_data, custom_data_save, h, if_true]
    rfl
  · intro h
    simp only [custom_data_save, h, if_false]

/-- C20. For an instance with id `m` and a message addressed to `p`: when
`p != m` the guard returns at once, the instance unchanged, having fired
exactly one `CALLBACK_DEBUG` notification with payload `(p, m)`; when `p = m`
the guard emits nothing and the handler body runs. Instance 3 receiving a
message for id 5 fires the notification `(5, 3)`. -/
theorem continue_check_guards_instance_id (self : CarlaPlugin) (plugin_id : Int)
    (rest : CarlaPlugin → CarlaPlugin × List Effect) :
    (plugin_id ≠ self.m_id →
        CARLA_PROCESS_CONTINUE_CHECK self plugin_id rest
          = (self, [Effect.callback_action CallbackType.CALLBACK_DEBUG plugin_id self.m_id
              0 0])) ∧
      (plugin_id = self.m_id → CARLA_PROCESS_CONTINUE_CHECK self plugin_id rest = rest self) ∧
      (example_param_plugin.m_id = 3 ∧
        CARLA_PROCESS_CONTINUE_CHECK example_param_plugin 5 rest
          = (example_param_plugin,
              [Effect.callback_action CallbackType.CALLBACK_DEBUG 5 3 0 0])) := by
  refine ⟨?_, ?_, rfl, ?_⟩
  · intro h
    unfold CARLA_PROCESS_CONTINUE_CHECK
    rw [if_pos (Ne.symm h)]
  · intro h
    unfold CARLA_PROCESS_CONTINUE_CHECK
    rw [if_neg (by simp [h])]
  · unfold CARLA_PROCESS_CONTINUE_CHECK
    rw [if_pos (by decide)]
    rfl

/-! ## Remote peer and library lookup -/

theorem update_osc_gui_loop_never (target_at : Nat → Ptr) :
    ∀ (d i : Nat), 40 - i = d → 1 ≤ i →
      (∀ k, i - 1 ≤ k → k < 39 → target_at k = nullptr) →
      update_osc_gui_loop target_at i
        = (false, List.replicate (40 - i) (Effect.carla_msleep 100)) := by
  intro d
  induction d with
  | zero =>
    intro i hd _ _
    have h : ¬ i < 40 := by omega
    have h0 : 40 - i = 0 := by omega
    rw [update_osc_gui_loop]
    simp [h, h0]
  | succ d ih =>
    intro i hd hi hnull
    have h : i < 40 := by omega
    have ht : target_at (i - 1) = nullptr := hnull (i - 1) (le_refl _) (by omega)
    have hrep : 40 - i = (40 - (i + 1)) + 1 := by omega
    rw [update_osc_gui_loop]
    simp only [h, if_true, ht, ne_eq, not_true_eq_false, if_false]
    rw [ih (i + 1) (by omega) (by omega) (fun k h1 h2 => hnull k (by omega) h2)]
    rw [hrep, List.replicate_succ]

theorem update_osc_gui_loop_found (target_at : Nat → Ptr) (k : Nat) (hk : k < 39)
    (hknown : target_at k ≠ nullptr) :
    ∀ (d i : Nat), k + 1 - i = d → 1 ≤ i → i ≤ k + 1 →
      (∀ j, i - 1 ≤ j → j < k → target_at j = nullptr) →
      update_osc_gui_loop target_at i
        = (true, List.replicate (k + 1 - i) (Effect.carla_msleep 100) ++
            [Effect.osc_send_show]) := by
  intro d
  induction d with
  | zero =>
    intro i hd hi hik _
    have hik2 : i = k + 1 := by omega
    subst hik2
    have h : k + 1 < 40 := by omega
    rw [update_osc_gui_loop]
    simp [h, hknown]
  | succ d ih =>
    intro i hd hi hik hnull
    have h : i < 40 := by omega
    have ht : target_at (i - 1) = nullptr := hnull (i - 1) (le_refl _) (by omega)
    have hrep : k + 1 - i = (k + 1 - (i + 1)) + 1 := by omega
    rw [update_osc_gui_loop]
    simp only [h, if_true, ht, ne_eq, not_true_eq_false, if_false]
    rw [ih (i + 1) (by omega) (by omega) (by omega) (fun j h1 h2 => hnull j (by omega) h2)]
    rw [hrep, List.replicate_succ]
    simp

theorem update_osc_gui_spec (target_at : Nat → Ptr) :
    ((∀ k, k < 39 → target_at k = nullptr) →
        update_osc_gui target_at = (false, List.replicate 39 (Effect.carla_msleep 100))) ∧
      (∀ k, k < 39 → target_at k ≠ nullptr → (∀ j, j < k → target_at j = nullptr) →
        update_osc_gui target_at
          = (true, List.replicate k (Effect.carla_msleep 100) ++ [Effect.osc_send_show])) := by
  refine ⟨?_, ?_⟩
  · intro hnull
    exact update_osc_gui_loop_never target_at 39 1 rfl (le_refl 1) (fun k _ hk => hnull k hk)
  · intro k hk hknown hnull
    have := update_osc_gui_loop_found target_at k hk hknown k 1 (by omega) (le_refl 1)
      (by omega) (fun j _ hj => hnull j hj)
    simpa [update_osc_gui] using this

/-- C21, at the failing input. With the target unknown at the first 39 polls
`update_osc_gui` returns false after 39 polls and 39 sleeps of 100 ms, never
making a 40th poll: a target that is known from the 40th poll on is not
seen. -/
theorem update_osc_gui_gives_up_after_39_polls :
    update_osc_gui (fun _ => nullptr)
        = (false, List.replicate 39 (Effect.carla_msleep 100)) ∧
      update_osc_gui (fun k => if k < 39 then nullptr else 1)
        = (false, List.replicate 39 (Effect.carla_msleep 100)) ∧
      (List.replicate 39 (Effect.carla_msleep 100)).length = 39 ∧
      (fun k => if k < 39 then nullptr else (1 : Ptr)) 39 ≠ nullptr := by
  refine ⟨?_, ?_, by simp, by decide⟩
  · exact (update_osc_gui_spec _).1 (fun _ _ => rfl)
  · exact (update_osc_gui_spec _).1 (fun k hk => by simp [hk])

/-- C22, counterexample. `send_midi_all_notes_off` acquires the external-MIDI
mutex and then, still holding it, the deferred-event mutex: both are held at
once. -/
theorem send_midi_all_notes_off_holds_both_mutexes :
    (CarlaPlugin.send_midi_all_notes_off example_plugin).1
        = [Effect.carla_midi_lock, Effect.post_events_lock, Effect.post_events_unlock,
            Effect.carla_midi_unlock] ∧
      holds_both { midi := false, post := false }
        (CarlaPlugin.send_midi_all_notes_off example_plugin).1 = true := by
  have h : (CarlaPlugin.send_midi_all_notes_off example_plugin).1
      = [Effect.carla_midi_lock, Effect.post_events_lock, Effect.post_events_unlock,
          Effect.carla_midi_unlock] :=
    send_midi_all_notes_off_never_warns example_plugin.ext_midi_notes
      example_plugin.post_events
  refine ⟨h, ?_⟩
  rw [h]
  decide

/-- C22, amended. `postpone_event`, `post_events_copy` and `send_midi_note`
each hold one mutex only, never both; `send_midi_all_notes_off` holds both: it
acquires the external-MIDI mutex, then the deferred-event mutex, and releases
them in the reverse order. -/
theorem only_all_notes_off_holds_both_mutexes (cfg : Config) (self : CarlaPlugin)
    (type : PluginPostEventType) (index : Int) (value : Double) (cdata : Ptr)
    (dst : PostEventsData) (onoff : Bool) (note velo : Nat)
    (gui_send osc_send callback_send : Bool) :
    holds_both { midi := false, post := false }
        (self.postpone_event type index value cdata).2 = false ∧
      holds_both { midi := false, post := false } (self.post_events_copy dst).2 = false ∧
      holds_both { midi := false, post := false }
        (send_midi_note cfg self onoff note velo gui_send osc_send callback_send).2 = false ∧
      (CarlaPlugin.send_midi_all_notes_off self).1
        = [Effect.carla_midi_lock, Effect.post_events_lock, Effect.post_events_unlock,
            Effect.carla_midi_unlock] ∧
      holds_both { midi := false, post := false }
        (CarlaPlugin.send_midi_all_notes_off self).1 = true := by
  have h : (CarlaPlugin.send_midi_all_notes_off self).1
      = [Effect.carla_midi_lock, Effect.post_events_lock, Effect.post_events_unlock,
          Effect.carla_midi_unlock] :=
    send_midi_all_notes_off_never_warns self.ext_midi_notes self.post_events
  refine ⟨rfl, rfl, ?_, h, ?_⟩
  · simp only [send_midi_note]
    cases cfg.BUILD_BRIDGE <;> cases osc_send <;> cases onoff <;> cases callback_send <;> rfl
  · rw [h]
    decide

theorem set_parameter_value_host (cfg : Config) (self : CarlaPlugin) (param_id : Nat)
    (value : Double) (gui_send osc_send callback_send : Bool)
    (hhost : cfg.BUILD_BRIDGE = false) :
    set_parameter_value cfg self param_id value gui_send osc_send callback_send
      = (self,
          spec_fanout (decide (self.m_hints &&& cfg.PLUGIN_IS_BRIDGE ≠ 0)) self.m_id param_id
            value
            (osc_send && decide ((self.param.data[param_id]?).map ParameterData.type
              = some ParameterType.PARAMETER_INPUT))
            callback_send) := by
  simp only [set_parameter_value, hhost, spec_fanout]
  by_cases hin : (self.param.data[param_id]?).map ParameterData.type
      = some ParameterType.PARAMETER_INPUT <;>
    by_cases hh : self.m_hints &&& cfg.PLUGIN_IS_BRIDGE = 0 <;>
    cases osc_send <;> cases callback_send <;> simp [hin, hh]

/-- C23. In the host build `set_parameter_value` changes no member and only
forwards: with `osc_send` set and an input parameter, one broadcast
set-parameter-value message with the given id and the given value, followed by
one bridge-peer control message exactly when the `PLUGIN_IS_BRIDGE` hint is
set; no remote message when the parameter is not an input or `osc_send` is
clear; then one parameter-changed callback exactly when `callback_send` is
set; nothing at all when both flags are clear. -/
theorem set_parameter_value_only_forwards (cfg : Config) (self : CarlaPlugin) (param_id : Nat)
    (value : Double) (gui_send osc_send callback_send : Bool)
    (hhost : cfg.BUILD_BRIDGE = false) :
    (set_parameter_value cfg self param_id value gui_send osc_send callback_send).1 = self ∧
      (osc_send = true →
        (self.param.data[param_id]?).map ParameterData.type
          = some ParameterType.PARAMETER_INPUT →
        (set_parameter_value cfg self param_id value gui_send osc_send callback_send).2
          = Effect.osc_global_send_set_parameter_value self.m_id param_id value ::
              ((if self.m_hints &&& cfg.PLUGIN_IS_BRIDGE ≠ 0 then
                  [Effect.osc_send_control param_id value] else []) ++
                (if callback_send then
                  [Effect.callback_action CallbackType.CALLBACK_PARAMETER_CHANGED self.m_id
                    param_id 0 value] else []))) ∧
      ((osc_send = false ∨
          (self.param.data[param_id]?).map ParameterData.type
            ≠ some ParameterType.PARAMETER_INPUT) →
        (set_parameter_value cfg self param_id value gui_send osc_send callback_send).2
          = if callback_send then
              [Effect.callback_action CallbackType.CALLBACK_PARAMETER_CHANGED self.m_id
                param_id 0 value]
            else []) ∧
      (osc_send = false → callback_send = false →
        (set_parameter_value cfg self param_id value gui_send osc_send callback_send).2
          = []) := by
  rw [set_parameter_value_host cfg self param_id value gui_send osc_send callback_send hhost]
  refine ⟨rfl, ?_, ?_, ?_⟩
  · intro ho hin
    by_cases hh : self.m_hints &&& cfg.PLUGIN_IS_BRIDGE = 0 <;>
      cases callback_send <;> simp [spec_fanout, ho, hin, hh]
  · intro h
    rcases h with ho | hin
    · cases callback_send <;> simp [spec_fanout, ho]
    · cases callback_send <;> cases osc_send <;> simp [spec_fanout, hin]
  · intro ho hc
    simp [spec_fanout, ho, hc]

/-- Witness of C23: the host build, an input parameter, both flags set. -/
theorem set_parameter_value_only_forwards_witness :
    example_config.BUILD_BRIDGE = false ∧
      (set_parameter_value example_config example_param_plugin 0 (3 / 2) false true true).1
        = example_param_plugin ∧
      (set_parameter_value example_config example_param_plugin 0 (3 / 2) false true true).2
        = [Effect.osc_global_send_set_parameter_value 3 0 (3 / 2),
            Effect.callback_action CallbackType.CALLBACK_PARAMETER_CHANGED 3 0 0 (3 / 2)] :=
  ⟨rfl,
    (set_parameter_value_only_forwards example_config example_param_plugin 0 (3 / 2) false true
      true rfl).1,
    (set_parameter_value_only_forwards example_config example_param_plugin 0 (3 / 2) false true
      true rfl).2.1 rfl rfl⟩

theorem lib_close_spec (cfg : Config) (self : CarlaPlugin) (ret : Int) (symbol : String)
    (addr : Ptr) :
    (self.m_lib = nullptr →
        lib_close cfg self ret = (false, []) ∧
          lib_symbol cfg self symbol addr = (nullptr, [])) ∧
      (self.m_lib ≠ nullptr → cfg.Q_OS_WIN = true →
        lib_close cfg self ret = (unload_succeeded cfg ret, [Effect.FreeLibrary self.m_lib])) ∧
      (self.m_lib ≠ nullptr → cfg.Q_OS_WIN = false →
        lib_close cfg self ret
          = (!unload_succeeded cfg ret, [Effect.dlclose self.m_lib])) := by
  refine ⟨?_, ?_, ?_⟩
  · intro h
    simp [lib_close, lib_symbol, h]
  · intro h hw
    simp [lib_close, unload_succeeded, h, hw]
  · intro h hw
    simp only [lib_close, unload_succeeded, h, hw, ne_eq, not_false_eq_true, if_true]
    by_cases hr : ret = 0 <;> simp [hr, bne]

/-- C26, at the failing input. Outside Windows, with a library open,
`lib_close` returns false when `dlclose` returns 0 (success) and true when it
returns -1 (error). -/
theorem lib_close_inverts_dlclose_result :
    example_config.Q_OS_WIN = false ∧ example_live_plugin.m_lib ≠ nullptr ∧
      lib_close example_config example_live_plugin 0 = (false, [Effect.dlclose 4096]) ∧
      unload_succeeded example_config 0 = true ∧
      lib_close example_config example_live_plugin (-1) = (true, [Effect.dlclose 4096]) ∧
      unload_succeeded example_config (-1) = false := by
  decide

/-! ## Replay and registration -/

theorem flatMap_guarded_singleton {α β : Type} (p : Prop) [Decidable p] (q : α → Bool)
    (f g : α → β) (l : List α) :
    l.flatMap (fun c => if p then [f c] else if q c = true then [g c] else [])
      = if p then l.map f else (l.filter q).map g := by
  by_cases hp : p
  · simp only [hp, if_true]
    induction l with
    | nil => rfl
    | cons a t ih => simp [List.flatMap_cons, ih]
  · simp only [hp, if_false]
    induction l with
    | nil => rfl
    | cons a t ih =>
      by_cases hq : q a = true
      · simp [List.flatMap_cons, ih, hq]
      · simp [List.flatMap_cons, ih, hq]

/-- C24, counterexample. A non-LV2 instance whose custom-data list holds a
string entry and an entry of another type sends one configure message, for
the string entry only: the second entry gets no message. -/
theorem update_osc_data_skips_non_string_entry :
    example_custom_plugin.m_type ≠ PluginType.PLUGIN_LV2 ∧
      example_custom_plugin.custom.length = 2 ∧
      (update_osc_data example_config (fun _ => 1 / 4) example_custom_plugin
          { path := some "/synth", source := 21, target := 22 }).2
        = [Effect.osc_clear_data, Effect.free HeapBlock.url_host,
            Effect.free HeapBlock.url_port,
            Effect.osc_send_configure (some "k") (some "v"),
            Effect.osc_send_control 0 (1 / 4)] := by
  refine ⟨by decide, rfl, ?_⟩
  rfl

/-- C24, amended. `update_osc_data` stores the new endpoint and then sends, in
this order: for an LV2 instance one event-transfer message per custom-data
entry in list order, whatever the entry's type, and for any other format one
configure message per entry of type `CUSTOM_DATA_STRING` in list order and
nothing for the other entries; the current program if its cursor is >= 0; the
current MIDI program if its cursor is >= 0; one control message per parameter
with its native index and current value; and, for a bridge instance, the five
global control values. -/
theorem update_osc_data_replays (cfg : Config) (get_value : Nat → Double)
    (self : CarlaPlugin) (new_data : OscData) :
    (update_osc_data cfg get_value self new_data).1 = { self with osc_data := new_data } ∧
      (update_osc_data cfg get_value self new_data).2
        = [Effect.osc_clear_data, Effect.free HeapBlock.url_host,
            Effect.free HeapBlock.url_port] ++
          (if self.m_type = PluginType.PLUGIN_LV2 then
              self.custom.map
                (fun c => Effect.osc_send_lv2_event_transfer c.type c.key c.value)
            else
              (self.custom.filter
                  (fun c => decide (c.type = CustomDataType.CUSTOM_DATA_STRING))).map
                (fun c => Effect.osc_send_configure c.key c.value)) ++
          (if self.prog.current ≥ 0 then [Effect.osc_send_program self.prog.current]
            else []) ++
          (if self.midiprog.current ≥ 0 then
              [Effect.osc_send_midi_program (self.midiprog.data[self.midiprog.current.toNat]?)
                (decide (self.m_type = PluginType.PLUGIN_DSSI))]
            else []) ++
          (List.range self.param.count).map
            (fun i =>
              Effect.osc_send_control
                (((self.param.data[i]?).map ParameterData.rindex).getD 0) (get_value i)) ++
          (if self.m_hints &&& cfg.PLUGIN_IS_BRIDGE ≠ 0 then
              [Effect.osc_send_control cfg.PARAMETER_ACTIVE (if self.m_active then 1 else 0),
               Effect.osc_send_control cfg.PARAMETER_DRYWET self.x_drywet,
               Effect.osc_send_control cfg.PARAMETER_VOLUME self.x_vol,
               Effect.osc_send_control cfg.PARAMETER_BALANCE_LEFT self.x_bal_left,
               Effect.osc_send_control cfg.PARAMETER_BALANCE_RIGHT self.x_bal_right]
            else []) := by
  refine ⟨rfl, ?_⟩
  have h := flatMap_guarded_singleton (self.m_type = PluginType.PLUGIN_LV2)
    (fun c : CustomData => decide (c.type = CustomDataType.CUSTOM_DATA_STRING))
    (fun c => Effect.osc_send_lv2_event_transfer c.type c.key c.value)
    (fun c => Effect.osc_send_configure c.key c.value) self.custom
  simp only [decide_eq_true_eq] at h
  simp only [update_osc_data]
  rw [h]

theorem ordered_append {α : Type} (f : α → Nat) (l1 l2 : List α) (k k2 : Nat)
    (h1 : l1.Pairwise (fun a b => f a ≤ f b) ∧ ∀ e ∈ l1, f e ≤ k)
    (h2 : ∀ e ∈ l2, f e = k2) (hk : k ≤ k2) :
    (l1 ++ l2).Pairwise (fun a b => f a ≤ f b) ∧ ∀ e ∈ l1 ++ l2, f e ≤ k2 := by
  refine ⟨List.pairwise_append.mpr ⟨h1.1, ?_, ?_⟩, ?_⟩
  · refine List.pairwise_iff_forall_sublist.mpr ?_
    intro a b hab
    have ha : a ∈ l2 := hab.subset (by simp)
    have hb : b ∈ l2 := hab.subset (by simp)
    rw [h2 a ha, h2 b hb]
  · intro a ha b hb
    rw [h2 b hb]
    exact le_trans (h1.2 a ha) hk
  · intro e he
    rcases List.mem_append.mp he with h | h
    · exact le_trans (h1.2 e h) hk
    · exact le_of_eq (h2 e h)

theorem register_parameters_phase (env : RegisterEnv) (self : CarlaPlugin) :
    ∀ e ∈ (if self.param.count > 0 ∧ self.param.count < env.MAX_PARAMETERS then
        (List.range self.param.count).flatMap
          (fun i =>
            [Effect.osc_global_send_set_parameter_data self.m_id i (self.param.data[i]?)
               (env.parameter_name i) (env.parameter_unit i) (env.get_value i),
             Effect.osc_global_send_set_parameter_ranges self.m_id i (self.param.ranges[i]?)])
      else []), e.register_phase = 4 := by
  intro e he
  split at he
  · rcases List.mem_flatMap.mp he with ⟨i, _, hi⟩
    simp only [List.mem_cons, List.mem_singleton, List.mem_nil_iff, or_false] at hi
    rcases hi with h | h <;> rw [h] <;> rfl
  · simp at he

theorem register_tail_ordered (env : RegisterEnv) (self : CarlaPlugin) (l : List Effect)
    (h : l.Pairwise (fun a b => a.register_phase ≤ b.register_phase) ∧
      ∀ e ∈ l, e.register_phase ≤ 3) :
    (l ++
      (if self.param.count > 0 ∧ self.param.count < env.MAX_PARAMETERS then
        (List.range self.param.count).flatMap
          (fun i =>
            [Effect.osc_global_send_set_parameter_data self.m_id i (self.param.data[i]?)
               (env.parameter_name i) (env.parameter_unit i) (env.get_value i),
             Effect.osc_global_send_set_parameter_ranges self.m_id i (self.param.ranges[i]?)])
      else []) ++
      [Effect.osc_global_send_set_program_count self.m_id self.prog.count] ++
      (List.range self.prog.count).map
        (fun i => Effect.osc_global_send_set_program_name self.m_id i
          ((self.prog.names[i]?).getD none)) ++
      [Effect.osc_global_send_set_program self.m_id self.prog.current] ++
      [Effect.osc_global_send_set_midi_program_count self.m_id self.midiprog.count] ++
      (List.range self.midiprog.count).map
        (fun i => Effect.osc_global_send_set_midi_program_data self.m_id i
          (self.midiprog.data[i]?)) ++
      [Effect.osc_global_send_set_midi_program self.m_id self.midiprog.current]).Pairwise
        (fun a b => a.register_phase ≤ b.register_phase) := by
  have h4 := ordered_append Effect.register_phase l _ 3 4 h
    (register_parameters_phase env self) (by omega)
  have h5 := ordered_append Effect.register_phase _
    [Effect.osc_global_send_set_program_count self.m_id self.prog.count] 4 5 h4
    (by intro e he; simp only [List.mem_singleton] at he; rw [he]; rfl) (by omega)
  have h6 := ordered_append Effect.register_phase _
    ((List.range self.prog.count).map
      (fun i => Effect.osc_global_send_set_program_name self.m_id i
        ((self.prog.names[i]?).getD none))) 5 6 h5
    (by intro e he; rcases List.mem_map.mp he with ⟨i, _, hi⟩; rw [← hi]; rfl) (by omega)
  have h7 := ordered_append Effect.register_phase _
    [Effect.osc_global_send_set_program self.m_id self.prog.current] 6 7 h6
    (by intro e he; simp only [List.mem_singleton] at he; rw [he]; rfl) (by omega)
  have h8 := ordered_append Effect.register_phase _
    [Effect.osc_global_send_set_midi_program_count self.m_id self.midiprog.count] 7 8 h7
    (by intro e he; simp only [List.mem_singleton] at he; rw [he]; rfl) (by omega)
  have h9 := ordered_append Effect.register_phase _
    ((List.range self.midiprog.count).map
      (fun i => Effect.osc_global_send_set_midi_program_data self.m_id i
        (self.midiprog.data[i]?))) 8 9 h8
    (by intro e he; rcases List.mem_map.mp he with ⟨i, _, hi⟩; rw [← hi]; rfl) (by omega)
  have h10 := ordered_append Effect.register_phase _
    [Effect.osc_global_send_set_midi_program self.m_id self.midiprog.current] 9 10 h9
    (by intro e he; simp only [List.mem_singleton] at he; rw [he]; rfl) (by omega)
  exact h10.1

/-- C25, counterexample. For a registered endpoint and an instance with one
parameter and one program, the five global control values are sent right
after the port counts and before the parameter descriptor, not last, and the
program cursor is sent before the MIDI-program count. -/
theorem osc_global_register_new_sends_globals_early :
    osc_global_register_new example_config example_env example_live_plugin
      = [Effect.osc_global_send_add_plugin 3 (some "synth"),
          Effect.osc_global_send_set_plugin_data 3 PluginType.PLUGIN_NONE 1 0 "synth" "synth"
            "maker" "GPL" 42,
          Effect.osc_global_send_set_plugin_ports 3 2 1 1 0 1 0 1,
          Effect.osc_global_send_set_parameter_value 3 (-2) 0,
          Effect.osc_global_send_set_parameter_value 3 (-3) 1,
          Effect.osc_global_send_set_parameter_value 3 (-4) 1,
          Effect.osc_global_send_set_parameter_value 3 (-5) (-1),
          Effect.osc_global_send_set_parameter_value 3 (-6) 1,
          Effect.osc_global_send_set_parameter_data 3 0
            (some { type := ParameterType.PARAMETER_INPUT, rindex := 0, hints := 0,
                    midi_channel := 0, midi_cc := -1 })
            "gain" "dB" (1 / 4),
          Effect.osc_global_send_set_parameter_ranges 3 0 (some example_ranges),
          Effect.osc_global_send_set_program_count 3 1,
          Effect.osc_global_send_set_program_name 3 0 (some "init"),
          Effect.osc_global_send_set_program 3 0,
          Effect.osc_global_send_set_midi_program_count 3 0,
          Effect.osc_global_send_set_midi_program 3 (-1)] := by
  rfl

/-- C25, amended. When the broadcast endpoint is not registered
`osc_global_register_new` emits nothing. When it is registered the trace
starts with add-plugin, plugin data, the port and parameter counts and the
current values of the five global controls, and everything after them is a
later step; along the whole trace the steps never go back: identity and
category, port and parameter counts, global control values, each parameter's
descriptor (which carries its current value) and ranges, program count,
program names, program cursor, MIDI-program count, MIDI-program entries,
MIDI-program cursor; and for a parameter count between 1 and
`MAX_PARAMETERS - 1` every parameter's descriptor and ranges are in the
trace. -/
theorem osc_global_register_new_order (cfg : Config) (env : RegisterEnv)
    (self : CarlaPlugin) :
    (env.registered = false → osc_global_register_new cfg env self = []) ∧
      (env.registered = true →
        ∃ rest,
          osc_global_register_new cfg env self
            = [Effect.osc_global_send_add_plugin self.m_id self.m_name,
                Effect.osc_global_send_set_plugin_data self.m_id self.m_type env.category
                  self.m_hints env.real_plugin_name env.label env.maker env.copyright
                  env.unique_id,
                Effect.osc_global_send_set_plugin_ports self.m_id self.ain.count
                  self.aout.count env.min_count env.mout_count
                  (get_parameter_count_info self).ins (get_parameter_count_info self).outs
                  (get_parameter_count_info self).total,
                Effect.osc_global_send_set_parameter_value self.m_id cfg.PARAMETER_ACTIVE
                  (if self.m_active then 1 else 0),
                Effect.osc_global_send_set_parameter_value self.m_id cfg.PARAMETER_DRYWET
                  self.x_drywet,
                Effect.osc_global_send_set_parameter_value self.m_id cfg.PARAMETER_VOLUME
                  self.x_vol,
                Effect.osc_global_send_set_parameter_value self.m_id
                  cfg.PARAMETER_BALANCE_LEFT self.x_bal_left,
                Effect.osc_global_send_set_parameter_value self.m_id
                  cfg.PARAMETER_BALANCE_RIGHT self.x_bal_right] ++ rest ∧
            ∀ e ∈ rest, 4 ≤ e.register_phase) ∧
      (osc_global_register_new cfg env self).Pairwise
        (fun a b => a.register_phase ≤ b.register_phase) ∧
      (env.registered = true → 0 < self.param.count →
        self.param.count < env.MAX_PARAMETERS →
        ∀ i, i < self.param.count →
          Effect.osc_global_send_set_parameter_data self.m_id i (self.param.data[i]?)
              (env.parameter_name i) (env.parameter_unit i) (env.get_value i)
            ∈ osc_global_register_new cfg env self ∧
          Effect.osc_global_send_set_parameter_ranges self.m_id i (self.param.ranges[i]?)
            ∈ osc_global_register_new cfg env self) := by
  refine ⟨?_, ?_, ?_, ?_⟩
  · intro h
    simp [osc_global_register_new, h]
  · intro h
    refine ⟨(if self.param.count > 0 ∧ self.param.count < env.MAX_PARAMETERS then
        (List.range self.param.count).flatMap
          (fun i =>
            [Effect.osc_global_send_set_parameter_data self.m_id i (self.param.data[i]?)
               (env.parameter_name i) (env.parameter_unit i) (env.get_value i),
             Effect.osc_global_send_set_parameter_ranges self.m_id i (self.param.ranges[i]?)])
      else []) ++
      [Effect.osc_global_send_set_program_count self.m_id self.prog.count] ++
      (List.range self.prog.count).map
        (fun i => Effect.osc_global_send_set_program_name self.m_id i
          ((self.prog.names[i]?).getD none)) ++
      [Effect.osc_global_send_set_program self.m_id self.prog.current] ++
      [Effect.osc_global_send_set_midi_program_count self.m_id self.midiprog.count] ++
      (List.range self.midiprog.count).map
        (fun i => Effect.osc_global_send_set_midi_program_data self.m_id i
          (self.midiprog.data[i]?)) ++
      [Effect.osc_global_send_set_midi_program self.m_id self.midiprog.current], ?_, ?_⟩
    · simp only [osc_global_register_new, h, if_true, List.append_assoc]
    · intro e he
      simp only [List.mem_append, List.mem_singleton, List.mem_map, List.mem_range] at he
      rcases he with (((((he | he) | he) | he) | he) | he) | he
      · rw [register_parameters_phase env self e he]
      · rw [he]; simp [Effect.register_phase]
      · rcases he with ⟨i, _, hi⟩
        rw [← hi]; simp [Effect.register_phase]
      · rw [he]; simp [Effect.register_phase]
      · rw [he]; simp [Effect.register_phase]
      · rcases he with ⟨i, _, hi⟩
        rw [← hi]; simp [Effect.register_phase]
      · rw [he]; simp [Effect.register_phase]
  · by_cases h : env.registered = true
    · simp only [osc_global_register_new, h, if_true]
      apply register_tail_ordered
      simp [Effect.register_phase]
    · simp [osc_global_register_new, h]
  · intro h h0 hmax i hi
    simp only [osc_global_register_new, h, if_true, h0, hmax, gt_iff_lt, and_self]
    refine ⟨?_, ?_⟩
    · simp only [List.mem_append, List.mem_flatMap, List.mem_range]
      refine Or.inl (Or.inl (Or.inl (Or.inl (Or.inl (Or.inl (Or.inr ⟨i, hi, ?_⟩))))))
      simp
    · simp only [List.mem_append, List.mem_flatMap, List.mem_range]
      refine Or.inl (Or.inl (Or.inl (Or.inl (Or.inl (Or.inl (Or.inr ⟨i, hi, ?_⟩))))))
      simp

/-! ## Reachable queue states -/

theorem all_valid_or_first_invalid {N : Nat} (p : Fin N → Bool) :
    (∀ j, p j = true) ∨
      ∃ k : Fin N, p k = false ∧ ∀ j : Fin N, j.val < k.val → p j = true := by
  by_cases h : ∀ j, p j = true
  · exact Or.inl h
  · right
    have hex : ∃ n, ∃ hn : n < N, p ⟨n, hn⟩ = false := by
      by_contra hne
      apply h
      intro j
      cases hj : p j with
      | true => rfl
      | false => exact absurd ⟨j.val, j.isLt, hj⟩ hne
    refine ⟨⟨Nat.find hex, (Nat.find_spec hex).1⟩, (Nat.find_spec hex).2, ?_⟩
    intro j hj
    cases hpj : p j with
    | true => rfl
    | false => exact absurd ⟨j.isLt, hpj⟩ (Nat.find_min hex hj)

theorem postpone_event_keeps_prefix (type : PluginPostEventType) (index : Int)
    (value : Double) (cdata : Ptr) (data : PostEventsData)
    (hp : ∀ i j : Fin MAX_POST_EVENTS, j.val < i.val → (data i).valid = true →
      (data j).valid = true) :
    ∀ i j : Fin MAX_POST_EVENTS, j.val < i.val →
      (postpone_event type index value cdata data i).valid = true →
      (postpone_event type index value cdata data j).valid = true := by
  have heq : postpone_event type index value cdata data
      = first_free_insert PluginPostEvent.valid
          { valid := true, type := type, index := index, value := value, cdata := cdata }
          data 0 :=
    postpone_event_loop_eq type index value cdata data 0
  rw [heq]
  rcases all_valid_or_first_invalid (fun j => (data j).valid) with hall | ⟨k, hk, hpre⟩
  · rw [first_free_insert_full PluginPostEvent.valid _ data MAX_POST_EVENTS 0 rfl
      (fun j hj _ => hall ⟨j, hj⟩)]
    exact hp
  · rw [first_free_insert_at PluginPostEvent.valid _ data k.val k.isLt hk k.val 0 rfl
      (Nat.zero_le _) (fun j hj _ h2 => hpre ⟨j, hj⟩ h2)]
    intro i j hji hi
    by_cases hjk : j = k
    · subst hjk
      simp
    · rw [Function.update_noteq hjk]
      by_cases hik : i = k
      · subst hik
        exact hpre j hji
      · rw [Function.update_noteq hik] at hi
        exact hp i j hji hi

theorem send_midi_all_notes_off_some_in_bounds (notes : ExtMidiNotes) (data : PostEventsData)
    (r : ExtMidiNotes × PostEventsData)
    (hr : (send_midi_all_notes_off notes data).2 = some r) :
    127 + (pe_pad_loop data 0).1 < MAX_POST_EVENTS := by
  by_contra hlt
  have hno := notes_off_loop_out_of_bounds (pe_pad_loop data 0).1 (by omega) 128 0 notes data
    rfl (by decide)
  simp only [send_midi_all_notes_off] at hr
  rw [hno] at hr
  exact Option.noConfusion hr

theorem send_midi_all_notes_off_data (notes : ExtMidiNotes) (data : PostEventsData)
    (r : ExtMidiNotes × PostEventsData)
    (hr : (send_midi_all_notes_off notes data).2 = some r) (j : Fin MAX_POST_EVENTS) :
    r.2 j = if (pe_pad_loop data 0).1 ≤ j.val ∧ j.val < 128 + (pe_pad_loop data 0).1 then
        { data j with
          valid := true, type := PluginPostEventType.PostEventNoteOff,
          index := ((j.val - (pe_pad_loop data 0).1 : Nat) : Int), value := 0 }
      else data j := by
  have hb := send_midi_all_notes_off_some_in_bounds notes data r hr
  rcases notes_off_loop_in_bounds (pe_pad_loop data 0).1 hb 128 0 notes data rfl
      (Nat.zero_le _) with ⟨r', hr', _, hd⟩
  simp only [send_midi_all_notes_off] at hr
  rw [hr'] at hr
  cases hr
  rw [hd j]
  simp

theorem send_midi_all_notes_off_keeps_prefix (notes : ExtMidiNotes) (data : PostEventsData)
    (r : ExtMidiNotes × PostEventsData)
    (hr : (send_midi_all_notes_off notes data).2 = some r)
    (hp : ∀ i j : Fin MAX_POST_EVENTS, j.val < i.val → (data i).valid = true →
      (data j).valid = true) :
    ∀ i j : Fin MAX_POST_EVENTS, j.val < i.val → (r.2 i).valid = true →
      (r.2 j).valid = true := by
  have hd := send_midi_all_notes_off_data notes data r hr
  rcases all_valid_or_first_invalid (fun j => (data j).valid) with hall | ⟨k, hk, hpre⟩
  · intro i j _ _
    rw [hd j]
    split
    · rfl
    · exact hall j
  · have hpad : (pe_pad_loop data 0).1 = k.val :=
      pe_pad_loop_first_free data k.val k.isLt hk k.val 0 rfl (Nat.zero_le _)
        (fun j hj _ h2 => hpre ⟨j, hj⟩ h2)
    intro i j hji hi
    rw [hd j]
    rw [hd i] at hi
    rw [hpad] at hi ⊢
    by_cases hjk : j.val < k.val
    · have : ¬ (k.val ≤ j.val ∧ j.val < 128 + k.val) := by omega
      rw [if_neg this]
      exact hpre j hjk
    · by_cases hi2 : k.val ≤ i.val ∧ i.val < 128 + k.val
      · have : k.val ≤ j.val ∧ j.val < 128 + k.val := by omega
        rw [if_pos this]
      · rw [if_neg hi2] at hi
        have hki : k.val < i.val := by omega
        have := hp i k hki hi
        rw [hk] at this
        exact Bool.noConfusion this

theorem reachable_postpone_events (calls : List PostEventArgs) :
    ∀ data : PostEventsData, Reachable data → Reachable (postpone_events calls data) := by
  induction calls with
  | nil => intro data h; exact h
  | cons e es ih =>
    intro data h
    have h1 : postpone_events (e :: es) data
        = postpone_events es (postpone_event e.type e.index e.value e.cdata data) := by
      simp [postpone_events]
    rw [h1]
    exact ih _ (Reachable.postpone data e.type e.index e.value e.cdata h)

theorem example_queue_25_reachable : Reachable example_queue_25 :=
  reachable_postpone_events _ _ (Reachable.init _)

/-- C28. In every deferred-event queue state reachable from the constructor
through `postpone_event`, `post_events_copy` and `send_midi_all_notes_off`
calls, the valid slots form a contiguous prefix: if slot `i` is valid, every
slot `j < i` is valid. -/
theorem reachable_valid_slots_form_prefix (data : PostEventsData) (h : Reachable data)
    (i j : Fin MAX_POST_EVENTS) (hji : j.val < i.val) (hi : (data i).valid = true) :
    (data j).valid = true := by
  revert i j
  induction h with
  | init raw =>
    intro i j _ hi
    rw [init_post_events_apply] at hi
    exact Bool.noConfusion hi
  | postpone data type index value cdata _ ih =>
    exact postpone_event_keeps_prefix type index value cdata data ih
  | copy dst data _ _ =>
    intro i j _ hi
    rw [post_events_copy_snd_apply] at hi
    exact Bool.noConfusion hi
  | all_notes_off notes data r _ hr ih =>
    exact send_midi_all_notes_off_keeps_prefix notes data r hr ih

/-- Witness of C28: the queue after 25 `postpone_event` calls, slots 24 and 3. -/
theorem reachable_valid_slots_form_prefix_witness :
    Reachable example_queue_25 ∧
      (3 : Nat) < 24 ∧
      (example_queue_25 ⟨24, by decide⟩).valid = true ∧
      (example_queue_25 ⟨3, by decide⟩).valid = true :=
  have hv : (example_queue_25 ⟨24, by decide⟩).valid = true := by
    rw [example_queue_25_slots]
    decide
  ⟨example_queue_25_reachable, by decide, hv,
    reachable_valid_slots_form_prefix example_queue_25 example_queue_25_reachable
      ⟨24, by decide⟩ ⟨3, by decide⟩ (by decide) hv⟩

/-- C27, at the failing input. The queue reached from the constructor by 25
`postpone_event` calls makes `send_midi_all_notes_off` compute `pe_pad = 25`;
the index `i + pe_pad` it writes in round `i = 127` is 152, not less than the
capacity 152. -/
theorem all_notes_off_writes_index_152 :
    Reachable example_queue_25 ∧
      (pe_pad_loop example_queue_25 0).1 = 25 ∧
      127 + (pe_pad_loop example_queue_25 0).1 = 152 ∧
      ¬ (127 + (pe_pad_loop example_queue_25 0).1 < MAX_POST_EVENTS) ∧
      (∀ notes r, (send_midi_all_notes_off notes example_queue_25).2 ≠ some r) := by
  have hpad : (pe_pad_loop example_queue_25 0).1 = 25 :=
    pe_pad_loop_first_free example_queue_25 25 (by decide)
      (by rw [example_queue_25_slots]; simp) 25 0 rfl (Nat.zero_le _)
      (fun j hj _ h2 => by rw [example_queue_25_slots]; simpa using h2)
  refine ⟨example_queue_25_reachable, hpad, by rw [hpad], by rw [hpad]; decide, ?_⟩
  intro notes r hr
  have := send_midi_all_notes_off_some_in_bounds notes example_queue_25 r hr
  rw [hpad] at this
  exact absurd this (by decide)

end Carla
